import Mathlib

/-!
# ticketbooth_backend: the booking / inventory transaction engine

A shallow embedding of `services/booking.go`, `repositories/inventory.go`,
`repositories/bookings.go`, `repositories/events.go`, `repositories/seat.go`,
`repositories/ticket_type.go` and `db/db.go`.

Modelling conventions.

* The MySQL database is a record of tables (`Store`), each table a list of rows in
  storage order.  A session (`Sess`) holds the committed tables `db` (what a statement
  issued on the pool `r.db` reads), the working tables `tx` of the transaction opened by
  `WithTx` (what a statement issued on `tx` reads and writes), the two AUTO_INCREMENT
  counters, a schedule of storage failures and a trace of transaction events.
* Go `int` / `int64` are `Int` (no wrap-around is modelled).
* Money: the Go code holds prices and totals in `float64`; here they are exact decimals
  with two fractional digits, held as an `Int` number of hundredths.  The two agree on
  every amount whose float64 sums and products are exact, as are those of the sample
  catalogue (25.00, 40.00, 55.00 and their small multiples).  The rounding of float64 is
  not modelled: where Go returns `0.30000000000000004` for `0.10 * 3`, a total here
  is the exact 0.30, so an equation between a total and an exact sum or product is a
  statement about the exact amounts and not about the float64 the response carries.
* A Go function returning `(T, error)` is an `Op T`: it maps a session to a result
  (`Except Error T`) and the session afterwards.
* Statements that write take the session and the tables apart by pattern matching and
  put them together again, field by field, so that a run on concrete data evaluates in
  time linear in its length.
-/

namespace TicketBooth

/-! ## Errors -/

/-- Go error values met by the booking engine. The three sentinels of
`services/booking.go`, `sql.ErrNoRows`, values built by `fmt.Errorf` without and with
the `%w` verb, and errors produced by the database driver. -/
inductive Error where
  | ErrNoRows
  | ErrInsufficientInventory
  | ErrSeatAlreadyTaken
  | ErrNotFound
  | Errorf (msg : String)
  | Wrapf (inner : Error) (msg : String)
  | driver (msg : String)
  deriving DecidableEq, Repr

namespace Error

/-- The text of an error, `err.Error()`. -/
def text : Error → String
  | ErrNoRows => "sql: no rows in result set"
  | ErrInsufficientInventory => "INSUFFICIENT_INVENTORY"
  | ErrSeatAlreadyTaken => "SEAT_ALREADY_TAKEN"
  | ErrNotFound => "NOT_FOUND"
  | Errorf msg => msg
  | Wrapf _ msg => msg
  | driver msg => msg

/-- The standard library's `errors.Is(err, target)`: `target` is `err` itself or is
reached by unwrapping. -/
def Is : Error → Error → Bool
  | Wrapf inner msg, target =>
      if Wrapf inner msg = target then true else Is inner target
  | e, target => decide (e = target)

end Error

/-- The value of `fmt.Errorf("%w" + rest, inner)`: it wraps `inner` and its text is the
text of `inner` followed by `rest`. -/
def wrapf (inner : Error) (rest : String) : Error :=
  Error.Wrapf inner (inner.text ++ rest)

/-- Whether the character list `sub` occurs as a contiguous block of `s`. -/
def containsChars : List Char → List Char → Bool
  | [], sub => sub.isEmpty
  | c :: s, sub => sub.isPrefixOf (c :: s) || containsChars s sub

/-- The standard library's `strings.Contains(s, substr)`. -/
def stringsContains (s substr : String) : Bool :=
  containsChars s.toList substr.toList

/-- Go `isUniqueConstraintError` (services/booking.go); a Go `error` that may be nil
is an `Option Error`. -/
def isUniqueConstraintError : Option Error → Bool
  | none => false
  | some err =>
      stringsContains err.text "Duplicate entry" ||
      stringsContains err.text "UNIQUE constraint" ||
      stringsContains err.text "uniq_ticket_eventdate_seat"

/-! ## Tables -/

/-- Row of table `event` (models.Event). -/
structure Event where
  ID : Int
  Slug : String
  Title : String
  Description : String
  deriving DecidableEq, Repr

/-- Row of table `venue` (models.Venue). -/
structure Venue where
  ID : Int
  Name : String
  Capacity : Int
  deriving DecidableEq, Repr

/-- Row of table `event_date` (models.EventDate), one occurrence. `IDVenue` holds the
value of `CAST(id_venue AS UNSIGNED)`; the nullable `date` column is not modelled. -/
structure EventDate where
  ID : Int
  IDVenue : Int
  TotalTickets : Int
  EventID : Int
  SeatingMode : String
  deriving DecidableEq, Repr

/-- Row of table `ticket_type` (models.TicketType). -/
structure TicketType where
  ID : Int
  Name : String
  Description : String
  deriving DecidableEq, Repr

/-- Row of table `seat` (models.Seat). -/
structure Seat where
  ID : Int
  Section : String
  Row : String
  Number : String
  deriving DecidableEq, Repr

/-- Row of table `event_date_has_ticket_type` (models.EventDateHasTicketType): the GA
allocation of one ticket type within one occurrence. `Price` is in hundredths. -/
structure EventDateHasTicketType where
  EventDateID : Int
  TicketTypeID : Int
  MaxQuantity : Int
  RemainingTickets : Int
  Price : Int
  deriving DecidableEq, Repr

/-- Row of table `event_date_has_seat` (models.EventDateHasSeat): the sellable binding
of a seat to an occurrence. `Price` is in hundredths. -/
structure EventDateHasSeat where
  EventDateID : Int
  SeatID : Int
  Price : Int
  TicketTypeID : Int
  deriving DecidableEq, Repr

/-- Row of table `order` (models.Order). -/
structure Order where
  ID : Int
  UserID : Int
  TotalTickets : Int
  Amount : String
  PaymentSource : String
  deriving DecidableEq, Repr

/-- Row of table `ticket` (models.Ticket). The column `seat_id` is nullable. -/
structure Ticket where
  ID : Int
  EventID : String
  UserID : String
  TicketTypeID : Int
  ToName : String
  EventDateID : Int
  SeatID : Option Int
  deriving DecidableEq, Repr

/-- Row of the junction table `order_hast_tickets`. -/
structure OrderHasTicket where
  OrderID : Int
  TicketID : Int
  deriving DecidableEq, Repr

/-- The tables of the database. -/
structure Store where
  event : List Event
  venue : List Venue
  event_date : List EventDate
  ticket_type : List TicketType
  seat : List Seat
  event_date_has_ticket_type : List EventDateHasTicketType
  event_date_has_seat : List EventDateHasSeat
  order : List Order
  ticket : List Ticket
  order_hast_tickets : List OrderHasTicket
  deriving DecidableEq, Repr

namespace Store

/-- The tables with the rows of `event_date_has_ticket_type` rewritten by `f`. -/
def mapAllocations (f : EventDateHasTicketType → EventDateHasTicketType) : Store → Store
  | ⟨ev, ve, ed, tt, se, al, es, od, tk, ot⟩ => ⟨ev, ve, ed, tt, se, al.map f, es, od, tk, ot⟩

/-- The tables with one more row at the end of `order`. -/
def addOrder (row : Order) : Store → Store
  | ⟨ev, ve, ed, tt, se, al, es, od, tk, ot⟩ => ⟨ev, ve, ed, tt, se, al, es, od ++ [row], tk, ot⟩

/-- The tables with one more row at the end of `ticket`. -/
def addTicket (row : Ticket) : Store → Store
  | ⟨ev, ve, ed, tt, se, al, es, od, tk, ot⟩ => ⟨ev, ve, ed, tt, se, al, es, od, tk ++ [row], ot⟩

/-- The tables with one more row at the end of `order_hast_tickets`. -/
def addOrderHasTicket (row : OrderHasTicket) : Store → Store
  | ⟨ev, ve, ed, tt, se, al, es, od, tk, ot⟩ => ⟨ev, ve, ed, tt, se, al, es, od, tk, ot ++ [row]⟩

end Store

/-- What happened to a transaction: events recorded by `WithTx`. -/
inductive TxEvent where
  | begun
  | committed
  | commitFailed
  | rolledBack
  deriving DecidableEq, Repr

/-- A database session as seen by one call of the booking service.

* `db`: the committed tables, read by statements issued on the pool (`r.db`);
* `tx`: the working tables of the open transaction (meaningful from `Beginx` on; after
  the transaction ended it still shows the transaction's last view);
* `nextOrderID`, `nextTicketID`: the AUTO_INCREMENT counters of `order` and `ticket`
  (not restored by a rollback);
* `faults`: the storage-failure schedule: the n-th statement issued from now on fails
  with error `e` when the n-th entry is `some e`; past the end nothing fails;
* `trace`: the transaction events so far, newest first. -/
structure Sess where
  db : Store
  tx : Store
  nextOrderID : Int
  nextTicketID : Int
  faults : List (Option Error)
  trace : List TxEvent
  deriving DecidableEq, Repr

/-- A Go function with result type `(α, error)` acting on the database. -/
def Op (α : Type) : Type := Sess → Except Error α × Sess

namespace Op

/-- Return without touching the database. -/
def ret {α : Type} (a : α) : Op α := fun s => (.ok a, s)

/-- Return an error (`return ..., err`). -/
def fail {α : Type} (e : Error) : Op α := fun s => (.error e, s)

/-- Sequencing with `if err != nil { return err }` after the first call. -/
def andThen {α β : Type} (m : Op α) (f : α → Op β) : Op β := fun s =>
  match m s with
  | (.ok a, s1) => f a s1
  | (.error e, s1) => (.error e, s1)

/-- A call whose error is inspected instead of returned. -/
def attempt {α : Type} (m : Op α) : Op (Except Error α) := fun s =>
  match m s with
  | (r, s1) => (.ok r, s1)

end Op

instance : Monad Op where
  pure := Op.ret
  bind := Op.andThen

/-- One statement sent to the database: it fails when the failure schedule says so,
and otherwise takes effect as `exec`. -/
def stmt {α : Type} (exec : Sess → Except Error α × Sess) : Op α := fun s =>
  match s with
  | ⟨db, tx, no, nt, faults, trace⟩ =>
    match faults with
    | some e :: rest => (.error e, ⟨db, tx, no, nt, rest, trace⟩)
    | none :: rest => exec ⟨db, tx, no, nt, rest, trace⟩
    | [] => exec ⟨db, tx, no, nt, [], trace⟩

/-! ## db/db.go -/

/-- Go `db.Beginx()`: one statement; the transaction starts from the committed
tables. -/
def Beginx : Op Unit := stmt fun
  | ⟨db, _, no, nt, faults, trace⟩ =>
    (.ok (), ⟨db, db, no, nt, faults, TxEvent.begun :: trace⟩)

/-- Go `tx.Commit()`: one statement; when it takes effect the working tables become
the committed ones, when it fails nothing is committed. -/
def Commit : Op Unit := fun
  | ⟨db, tx, no, nt, faults, trace⟩ =>
    match faults with
    | some e :: rest => (.error e, ⟨db, tx, no, nt, rest, TxEvent.commitFailed :: trace⟩)
    | none :: rest => (.ok (), ⟨tx, tx, no, nt, rest, TxEvent.committed :: trace⟩)
    | [] => (.ok (), ⟨tx, tx, no, nt, [], TxEvent.committed :: trace⟩)

/-- Go `tx.Rollback()`: the working tables are dropped (its own error is ignored by
the caller, and the committed tables are untouched either way). -/
def Rollback : Op Unit := fun
  | ⟨db, tx, no, nt, faults, trace⟩ =>
    (.ok (), ⟨db, tx, no, nt, faults.tail, TxEvent.rolledBack :: trace⟩)

/-- Go `DB.WithTx` (db/db.go). The callback's result stands for the variable the Go
closure assigns before returning nil. The deferred function stores the result of
`tx.Commit()` in the local `err` after `return err` has already fixed the (unnamed)
result, so the value returned is the callback's. -/
def WithTx {α : Type} (fn : Op α) : Op α := fun s =>
  match Beginx s with
  | (.error e, s1) => (.error e, s1)
  | (.ok (), s1) =>
      match fn s1 with
      | (.error e, s2) => (.error e, (Rollback s2).2)
      | (.ok a, s2) => (.ok a, (Commit s2).2)

/-! ## repositories/events.go, ticket_type.go, seat.go -/

/-- The result rows of the query of `GetEventDateByID`: `event_date` rows with the
given id, INNER JOIN `event`, LEFT JOIN `venue`. -/
def eventDateRows (st : Store) (id : Int) : List (EventDate × Event × Option Venue) :=
  (st.event_date.filter fun ed => ed.ID = id).flatMap fun ed =>
    (st.event.filter fun e => e.ID = ed.EventID).flatMap fun e =>
      match st.venue.filter fun v => v.ID = ed.IDVenue with
      | [] => [(ed, e, none)]
      | vs => vs.map fun v => (ed, e, some v)

/-- The error of `Scan` when the LEFT JOIN produced NULL venue columns, which the
destination fields (`int`, `string`, `bool`) cannot hold. -/
def scanNullVenue : Error :=
  Error.driver
    "sql: Scan error on column index 10, name \"venue_id\": converting NULL to int is unsupported"

/-- Go `EventRepository.GetEventDateByID`: `QueryRow(...).Scan(...)` on the pool;
no row gives `sql.ErrNoRows`. -/
def GetEventDateByID (id : Int) : Op EventDate := stmt fun s =>
  match eventDateRows s.db id with
  | [] => (.error Error.ErrNoRows, s)
  | (_, _, none) :: _ => (.error scanNullVenue, s)
  | (ed, _, some _) :: _ => (.ok ed, s)

/-- Go `TicketTypeRepository.GetTicketTypeByID`. -/
def GetTicketTypeByID (id : Int) : Op TicketType := stmt fun s =>
  match s.db.ticket_type.find? fun t => t.ID = id with
  | none => (.error Error.ErrNoRows, s)
  | some t => (.ok t, s)

/-- Go `SeatRepository.GetSeatByID`. -/
def GetSeatByID (id : Int) : Op Seat := stmt fun s =>
  match s.db.seat.find? fun t => t.ID = id with
  | none => (.error Error.ErrNoRows, s)
  | some t => (.ok t, s)

/-! ## repositories/inventory.go -/

/-- The WHERE clause of the UPDATE of `UpdateGATicketInventory`. -/
def gaRowMatches (eventDateID ticketTypeID quantity : Int) (r : EventDateHasTicketType) :
    Bool :=
  r.EventDateID = eventDateID && r.TicketTypeID = ticketTypeID &&
    decide (r.RemainingTickets ≥ quantity)

/-- The SET clause of the UPDATE of `UpdateGATicketInventory`, on the rows the WHERE
clause selects. -/
def gaRowUpdate (eventDateID ticketTypeID quantity : Int) (r : EventDateHasTicketType) :
    EventDateHasTicketType :=
  if gaRowMatches eventDateID ticketTypeID quantity r then
    { r with RemainingTickets := r.RemainingTickets - quantity }
  else r

/-- Whether the UPDATE of `UpdateGATicketInventory` changes the row: the WHERE clause
selects it and the SET clause gives `remaining_tickets` another value. -/
def gaRowChanged (eventDateID ticketTypeID quantity : Int) (r : EventDateHasTicketType) :
    Bool :=
  gaRowMatches eventDateID ticketTypeID quantity r &&
    decide (r.RemainingTickets - quantity ≠ r.RemainingTickets)

/-- Go `InventoryRepository.UpdateGATicketInventory`: the conditional UPDATE, issued on
the transaction. The result is `RowsAffected()`, which go-sql-driver/mysql reports as the
number of rows the statement changed unless the DSN sets `clientFoundRows`, which nothing
in the repository does: a row the WHERE clause selects and the SET clause leaves with the
same value is not counted. -/
def UpdateGATicketInventory (eventDateID ticketTypeID quantity : Int) : Op Int :=
  stmt fun
    | ⟨db, tx, no, nt, faults, trace⟩ =>
      (.ok ((tx.event_date_has_ticket_type.filter
              (gaRowChanged eventDateID ticketTypeID quantity)).length : Int),
       ⟨db, tx.mapAllocations (gaRowUpdate eventDateID ticketTypeID quantity), no, nt,
        faults, trace⟩)

/-- The row the query of `GetGATicketPriceAndRemaining` selects: `QueryRow` keeps the
first row with the given occurrence and ticket type. -/
def allocation (st : Store) (eventDateID ticketTypeID : Int) :
    Option EventDateHasTicketType :=
  st.event_date_has_ticket_type.find? fun r =>
    r.EventDateID = eventDateID && r.TicketTypeID = ticketTypeID

/-- Go `InventoryRepository.GetGATicketPriceAndRemaining`: a `QueryRow` issued on the
pool (`r.db`), not on the transaction. -/
def GetGATicketPriceAndRemaining (eventDateID ticketTypeID : Int) : Op (Int × Int) :=
  stmt fun s =>
    match allocation s.db eventDateID ticketTypeID with
    | none => (.error Error.ErrNoRows, s)
    | some r => (.ok (r.Price, r.RemainingTickets), s)

/-- The rows selected by the query of `CheckSeatAvailability`:
`event_date_id = ? AND seat_id IN (?)`. -/
def bookedSeatIDs (st : Store) (eventDateID : Int) (seatIDs : List Int) : List Int :=
  st.ticket.filterMap fun t =>
    match t.SeatID with
    | some sid => if t.EventDateID = eventDateID && seatIDs.contains sid then some sid else none
    | none => none

/-- Go `InventoryRepository.CheckSeatAvailability`: no statement for an empty list,
otherwise one query issued on the pool. -/
def CheckSeatAvailability (eventDateID : Int) (seatIDs : List Int) : Op (List Int) :=
  if seatIDs.length = 0 then Op.ret []
  else stmt fun s => (.ok (bookedSeatIDs s.db eventDateID seatIDs), s)

/-- The row the query of `GetSeatPriceAndTicketType` selects: `QueryRow` keeps the
first row with the given occurrence and seat. -/
def seatAssignment (st : Store) (eventDateID seatID : Int) : Option EventDateHasSeat :=
  st.event_date_has_seat.find? fun r => r.EventDateID = eventDateID && r.SeatID = seatID

/-- Go `InventoryRepository.GetSeatPriceAndTicketType`: a `QueryRow` on the pool. -/
def GetSeatPriceAndTicketType (eventDateID seatID : Int) : Op (Int × Int) :=
  stmt fun s =>
    match seatAssignment s.db eventDateID seatID with
    | none => (.error Error.ErrNoRows, s)
    | some r => (.ok (r.Price, r.TicketTypeID), s)

/-! ## repositories/bookings.go -/

/-- Go `BookingRepository.CreateOrder`: one INSERT on the transaction; the result is
the id the AUTO_INCREMENT column gave the row. -/
def CreateOrder (userID totalTickets : Int) (amount paymentSource : String) : Op Int :=
  stmt fun
    | ⟨db, tx, no, nt, faults, trace⟩ =>
      (.ok no,
       ⟨db,
        tx.addOrder { ID := no, UserID := userID, TotalTickets := totalTickets,
                      Amount := amount, PaymentSource := paymentSource },
        no + 1, nt, faults, trace⟩)

/-- Whether a ticket row with a non-NULL seat id collides, on (event_date_id, seat_id),
with a row already in the table. -/
def seatCollides (tickets : List Ticket) (eventDateID : Int) (seatID : Option Int) : Bool :=
  match seatID with
  | none => false
  | some sid => tickets.any fun t => t.EventDateID = eventDateID && t.SeatID = some sid

/-- The driver's error for a violated unique key `uniq_ticket_eventdate_seat`. -/
def duplicateEntry (eventDateID : Int) (seatID : Option Int) : Error :=
  Error.driver ("Error 1062 (23000): Duplicate entry " ++ toString eventDateID ++ "-" ++
    toString (seatID.getD 0) ++ " for key ticket.uniq_ticket_eventdate_seat")

/-- Modelled from the spec: the table definition of `ticket` is not among the sources;
the spec gives it a uniqueness constraint on (occurrence id, seat id) among tickets whose
seat id is present (the key the code calls `uniq_ticket_eventdate_seat`). The INSERT of
`CreateTicket` into `ticket`, on the transaction: refused with a duplicate-entry error
when the constraint would be violated, otherwise the row is appended with the next id. -/
def insertTicket (eventID userID : String) (ticketTypeID : Int) (toName : String)
    (eventDateID : Int) (seatIDValue : Option Int) : Op Int :=
  stmt fun
    | ⟨db, tx, no, nt, faults, trace⟩ =>
      if seatCollides tx.ticket eventDateID seatIDValue then
        (.error (duplicateEntry eventDateID seatIDValue), ⟨db, tx, no, nt, faults, trace⟩)
      else
        (.ok nt,
         ⟨db,
          tx.addTicket { ID := nt, EventID := eventID, UserID := userID,
                         TicketTypeID := ticketTypeID, ToName := toName,
                         EventDateID := eventDateID, SeatID := seatIDValue },
          no, nt + 1, faults, trace⟩)

/-- The INSERT of `CreateTicket` into `order_hast_tickets`, on the transaction. -/
def insertOrderHasTicket (orderID ticketID : Int) : Op Unit :=
  stmt fun
    | ⟨db, tx, no, nt, faults, trace⟩ =>
      (.ok (),
       ⟨db, tx.addOrderHasTicket { OrderID := orderID, TicketID := ticketID }, no, nt,
        faults, trace⟩)

/-- Go `BookingRepository.CreateTicket`: seat id 0 is stored as NULL. -/
def CreateTicket (orderID : Int) (userID eventID : String)
    (eventDateID ticketTypeID seatID : Int) (toName : String) : Op Int := do
  let seatIDValue : Option Int := if seatID = 0 then none else some seatID
  let ticketID ← insertTicket eventID userID ticketTypeID toName eventDateID seatIDValue
  insertOrderHasTicket orderID ticketID
  pure ticketID

/-! ## models/models.go: requests and responses -/

/-- Go `models.TierBookingRequest`. -/
structure TierBookingRequest where
  TicketTypeID : Int
  Quantity : Int
  deriving DecidableEq, Repr

/-- Go `models.SeatBookingRequest`. -/
structure SeatBookingRequest where
  SeatID : Int
  TicketTypeID : Int
  deriving DecidableEq, Repr

/-- Go `models.BookingRequest`. -/
structure BookingRequest where
  EventDateID : Int
  CustomerName : String
  PaymentSource : String
  UserID : Int
  Tiers : List TierBookingRequest
  Seats : List SeatBookingRequest
  deriving DecidableEq, Repr

/-- Go `models.TicketResponse`. -/
structure TicketResponse where
  ID : Int
  TicketType : String
  SeatLabel : Option String
  ToName : String
  deriving DecidableEq, Repr

/-- Go `models.BookingResponse`; `TotalAmount`, a `float64` in Go, is the exact amount in
hundredths. -/
structure BookingResponse where
  OrderID : Int
  TotalAmount : Int
  Tickets : List TicketResponse
  deriving DecidableEq, Repr

/-! ## services/booking.go -/

/-- The decimal numeral of a number below 100 with exactly two digits. -/
def twoDigits (n : Nat) : String :=
  toString (n / 10) ++ toString (n % 10)

/-- Go `fmt.Sprintf("%.2f", amount)` for an amount given in hundredths. -/
def formatAmount (amount : Int) : String :=
  (if amount < 0 then "-" else "") ++ toString (amount.natAbs / 100) ++ "." ++
    twoDigits (amount.natAbs % 100)

/-- The error of `BookGATickets` when the UPDATE affected no row: the message carries
the remaining count when the follow-up lookup succeeds. -/
def insufficientInventory (tier : TierBookingRequest) (lookup : Except Error (Int × Int)) :
    Error :=
  match lookup with
  | .ok (_, remaining) =>
      wrapf Error.ErrInsufficientInventory
        (": Not enough tickets left for ticket type " ++ toString tier.TicketTypeID ++
         " (remaining: " ++ toString remaining ++ ", requested: " ++
         toString tier.Quantity ++ ")")
  | .error _ => wrapf Error.ErrInsufficientInventory ": Not enough tickets left"

/-- The first loop of `BookGATickets` (lines 70-95): reserve each tier and accumulate
`totalAmount` and `totalTickets`. Line 93 adds `price * float64(tier.Quantity)` in
float64; here the exact product of the price in hundredths is added. -/
def gaReserve (req : BookingRequest) :
    List TierBookingRequest → Int → Int → Op (Int × Int)
  | [], totalAmount, totalTickets => pure (totalAmount, totalTickets)
  | tier :: rest, totalAmount, totalTickets => do
      let rowsAffected ←
        UpdateGATicketInventory req.EventDateID tier.TicketTypeID tier.Quantity
      if rowsAffected = 0 then
        let lookup ← Op.attempt
          (GetGATicketPriceAndRemaining req.EventDateID tier.TicketTypeID)
        Op.fail (insufficientInventory tier lookup)
      else
        let (price, _) ← GetGATicketPriceAndRemaining req.EventDateID tier.TicketTypeID
        gaReserve req rest (totalAmount + price * tier.Quantity)
          (totalTickets + tier.Quantity)

/-- The display name of a ticket type: the catalogue name, or the synthetic label when
the lookup failed. -/
def ticketTypeName (ticketTypeID : Int) (lookup : Except Error TicketType) : String :=
  match lookup with
  | .ok ticketType => ticketType.Name
  | .error _ => "TicketType-" ++ toString ticketTypeID

/-- The inner loop of `BookGATickets` (lines 109-128): `n` more tickets of one tier. -/
def gaTierTickets (req : BookingRequest) (eventIDStr userIDStr : String) (orderID : Int)
    (tier : TierBookingRequest) : Nat → List TicketResponse → Op (List TicketResponse)
  | 0, tickets => pure tickets
  | n + 1, tickets => do
      let ticketID ← CreateTicket orderID userIDStr eventIDStr req.EventDateID
        tier.TicketTypeID 0 req.CustomerName
      let ticketType ← Op.attempt (GetTicketTypeByID tier.TicketTypeID)
      gaTierTickets req eventIDStr userIDStr orderID tier n
        (tickets ++ [{ ID := ticketID,
                       TicketType := ticketTypeName tier.TicketTypeID ticketType,
                       SeatLabel := none, ToName := req.CustomerName }])

/-- The outer loop of `BookGATickets` (lines 108-129); a tier of quantity `q` runs the
inner loop `max q 0` times. -/
def gaTickets (req : BookingRequest) (eventIDStr userIDStr : String) (orderID : Int) :
    List TierBookingRequest → List TicketResponse → Op (List TicketResponse)
  | [], tickets => pure tickets
  | tier :: rest, tickets => do
      let tickets ← gaTierTickets req eventIDStr userIDStr orderID tier
        tier.Quantity.toNat tickets
      gaTickets req eventIDStr userIDStr orderID rest tickets

/-- The callback `BookGATickets` passes to `WithTx` (lines 65-138). -/
def gaBody (req : BookingRequest) (eventDate : EventDate) : Op BookingResponse := do
  let (totalAmount, totalTickets) ← gaReserve req req.Tiers 0 0
  let orderID ← CreateOrder req.UserID totalTickets (formatAmount totalAmount)
    req.PaymentSource
  let tickets ← gaTickets req (toString eventDate.EventID) (toString req.UserID) orderID
    req.Tiers []
  pure { OrderID := orderID, TotalAmount := totalAmount, Tickets := tickets }

/-- Go `BookingService.BookGATickets`. -/
def BookGATickets (req : BookingRequest) : Op BookingResponse := fun s =>
  match GetEventDateByID req.EventDateID s with
  | (.error e, s1) =>
      if e = Error.ErrNoRows then (.error Error.ErrNotFound, s1) else (.error e, s1)
  | (.ok eventDate, s1) =>
      if eventDate.SeatingMode ≠ "GA" then
        (.error (Error.Errorf "event date is not GA mode"), s1)
      else WithTx (gaBody req eventDate) s1

/-- The loop of `BookSeatedTickets` that sums the seat prices (lines 181-188). Go adds
the prices in float64; here the exact prices in hundredths are added. -/
def seatedTotal (req : BookingRequest) : List SeatBookingRequest → Int → Op Int
  | [], totalAmount => pure totalAmount
  | seatReq :: rest, totalAmount => do
      let (price, _) ← GetSeatPriceAndTicketType req.EventDateID seatReq.SeatID
      seatedTotal req rest (totalAmount + price)

/-- The seat label of a response ticket: section, row and number of the seat, or the
synthetic label when the lookup failed. -/
def seatLabel (seatID : Int) (lookup : Except Error Seat) : String :=
  match lookup with
  | .ok seat => seat.Section ++ seat.Row ++ seat.Number
  | .error _ => "Seat-" ++ toString seatID

/-- One call of `CreateTicket` in `BookSeatedTickets` with its error handling (lines
209-216): a unique-constraint violation is reported as `ErrSeatAlreadyTaken`. -/
def createSeatTicket (req : BookingRequest) (eventIDStr userIDStr : String) (orderID : Int)
    (ticketTypeID seatID : Int) : Op Int := fun s =>
  match CreateTicket orderID userIDStr eventIDStr req.EventDateID ticketTypeID seatID
      req.CustomerName s with
  | (.error err, s1) =>
      if isUniqueConstraintError (some err) then
        (.error (wrapf Error.ErrSeatAlreadyTaken
          ": One or more selected seats are no longer available"), s1)
      else (.error err, s1)
  | (.ok ticketID, s1) => (.ok ticketID, s1)

/-- The ticket loop of `BookSeatedTickets` (lines 201-238). -/
def seatedTickets (req : BookingRequest) (eventIDStr userIDStr : String) (orderID : Int) :
    List SeatBookingRequest → List TicketResponse → Op (List TicketResponse)
  | [], tickets => pure tickets
  | seatReq :: rest, tickets => do
      let (_, ticketTypeID) ← GetSeatPriceAndTicketType req.EventDateID seatReq.SeatID
      let ticketID ← createSeatTicket req eventIDStr userIDStr orderID ticketTypeID
        seatReq.SeatID
      let seat ← Op.attempt (GetSeatByID seatReq.SeatID)
      let ticketType ← Op.attempt (GetTicketTypeByID ticketTypeID)
      seatedTickets req eventIDStr userIDStr orderID rest
        (tickets ++ [{ ID := ticketID,
                       TicketType := ticketTypeName ticketTypeID ticketType,
                       SeatLabel := some (seatLabel seatReq.SeatID seat),
                       ToName := req.CustomerName }])

/-- The callback `BookSeatedTickets` passes to `WithTx` (lines 164-247). -/
def seatedBody (req : BookingRequest) (eventDate : EventDate) : Op BookingResponse := do
  let bookedSeats ← CheckSeatAvailability req.EventDateID (req.Seats.map fun x => x.SeatID)
  if bookedSeats.length > 0 then
    Op.fail (wrapf Error.ErrSeatAlreadyTaken
      ": One or more selected seats are no longer available")
  else
    let totalAmount ← seatedTotal req req.Seats 0
    let orderID ← CreateOrder req.UserID req.Seats.length (formatAmount totalAmount)
      req.PaymentSource
    let tickets ← seatedTickets req (toString eventDate.EventID) (toString req.UserID)
      orderID req.Seats []
    pure { OrderID := orderID, TotalAmount := totalAmount, Tickets := tickets }

/-- Go `BookingService.BookSeatedTickets`. -/
def BookSeatedTickets (req : BookingRequest) : Op BookingResponse := fun s =>
  match GetEventDateByID req.EventDateID s with
  | (.error e, s1) =>
      if e = Error.ErrNoRows then (.error Error.ErrNotFound, s1) else (.error e, s1)
  | (.ok eventDate, s1) =>
      if eventDate.SeatingMode ≠ "SEATED" then
        (.error (Error.Errorf "event date is not SEATED mode"), s1)
      else WithTx (seatedBody req eventDate) s1

/-! ## Predicates used in the statements -/

/-- The failure, if any, that the schedule holds for the next statement. -/
def Sess.pendingFault (s : Sess) : Option Error :=
  match s.faults with
  | some e :: _ => some e
  | _ => none

/-- The primary key of `event_date_has_ticket_type`: at most one allocation row per
(occurrence, ticket type). -/
def AllocKeyUnique (rows : List EventDateHasTicketType) : Prop :=
  (rows.map fun r => (r.EventDateID, r.TicketTypeID)).Nodup

instance (rows : List EventDateHasTicketType) : Decidable (AllocKeyUnique rows) := by
  unfold AllocKeyUnique; infer_instance

/-- Every allocation row satisfies `0 ≤ remaining ≤ max`. -/
def AllocInv (rows : List EventDateHasTicketType) : Prop :=
  ∀ r ∈ rows, 0 ≤ r.RemainingTickets ∧ r.RemainingTickets ≤ r.MaxQuantity

instance (rows : List EventDateHasTicketType) : Decidable (AllocInv rows) := by
  unfold AllocInv; infer_instance

/-- No two ticket rows share (occurrence id, seat id) with the seat id present. -/
def SeatUnique (tickets : List Ticket) : Prop :=
  tickets.Pairwise fun a b =>
    ¬ (a.SeatID.isSome = true ∧ a.EventDateID = b.EventDateID ∧ a.SeatID = b.SeatID)

instance (tickets : List Ticket) : Decidable (SeatUnique tickets) := by
  unfold SeatUnique; infer_instance

/-- A relation between the session before and after that survives sequencing and the
consumption of an entry of the failure schedule. -/
structure Stable (R : Sess → Sess → Prop) : Prop where
  refl : ∀ s, R s s
  trans : ∀ a b c, R a b → R b c → R a c
  faults : ∀ s, R s { s with faults := s.faults.tail }

/-- Every run of the operation relates the session before to the session after. -/
def Op.Keeps {α : Type} (R : Sess → Sess → Prop) (m : Op α) : Prop :=
  ∀ s, R s (m s).2

/-- What every statement of a booking transaction respects: the committed tables stay
as they are, and seat uniqueness of the working ticket table is not lost. -/
def TxFrame (s s1 : Sess) : Prop :=
  s1.db = s.db ∧ (SeatUnique s.tx.ticket → SeatUnique s1.tx.ticket)

/-- What a statement that only reads respects: nothing but the failure schedule
changes. -/
def ReadFrame (s s1 : Sess) : Prop :=
  s1.db = s.db ∧ s1.tx = s.tx ∧ s1.nextOrderID = s.nextOrderID ∧
    s1.nextTicketID = s.nextTicketID ∧ s1.trace = s.trace

/-- What the statements after `CreateOrder` respect: the committed tables and the
working `order` table stay as they are. -/
def OrderFrame (s s1 : Sess) : Prop :=
  s1.db = s.db ∧ s1.tx.order = s.tx.order

/-- How a booking may change one allocation row: key, maximum and price stay, the
remaining count does not grow and does not fall below zero. -/
def AllocStep (r r1 : EventDateHasTicketType) : Prop :=
  r1.EventDateID = r.EventDateID ∧ r1.TicketTypeID = r.TicketTypeID ∧
    r1.MaxQuantity = r.MaxQuantity ∧ r1.Price = r.Price ∧
    r1.RemainingTickets ≤ r.RemainingTickets ∧
    (0 ≤ r.RemainingTickets → 0 ≤ r1.RemainingTickets)

/-- What the statements of a GA booking with quantities that are not negative respect:
the committed tables stay, and the working allocation rows change row by row as
`AllocStep` allows. -/
def AllocFrame (s s1 : Sess) : Prop :=
  s1.db = s.db ∧
    List.Forall₂ AllocStep s.tx.event_date_has_ticket_type
      s1.tx.event_date_has_ticket_type

/-- What identifies the admission a ticket row grants: occurrence, ticket type and
seat. -/
def Ticket.admission (t : Ticket) : Int × Int × Option Int :=
  (t.EventDateID, t.TicketTypeID, t.SeatID)

/-- The storage fails none of the next `n` statements. -/
def Sess.quietFor (n : Nat) (s : Sess) : Prop :=
  ∀ f ∈ s.faults.take n, f = none

instance (n : Nat) (s : Sess) : Decidable (s.quietFor n) := by
  unfold Sess.quietFor; infer_instance

/-- The session after the storage consumed one entry of the failure schedule. -/
def Sess.next (s : Sess) : Sess :=
  { s with faults := s.faults.tail }

/-- The session after `Beginx` took effect. -/
def Sess.begun (s : Sess) : Sess :=
  ⟨s.db, s.db, s.nextOrderID, s.nextTicketID, s.faults.tail, TxEvent.begun :: s.trace⟩

/-- The message of the `ErrSeatAlreadyTaken` error of `BookSeatedTickets`. -/
def seatTaken : Error :=
  wrapf Error.ErrSeatAlreadyTaken ": One or more selected seats are no longer available"

/-- What holds of the failure schedule when nothing is scheduled to fail: it stays
empty. -/
def NoFaults (s s1 : Sess) : Prop :=
  s.faults = [] → s1.faults = []

/-- What the reservation loop of a GA booking respects: the committed tables and the
working `order`, `ticket` and `order_hast_tickets` tables stay as they are. -/
def SalesFrame (s s1 : Sess) : Prop :=
  s1.db = s.db ∧ s1.tx.order = s.tx.order ∧ s1.tx.ticket = s.tx.ticket ∧
    s1.tx.order_hast_tickets = s.tx.order_hast_tickets

/-- The admissions a GA request asks for: for each tier, `max quantity 0` tickets of its
ticket type for the occurrence, without seat. -/
def gaAdmissions (req : BookingRequest) : List (Int × Int × Option Int) :=
  req.Tiers.flatMap fun t =>
    List.replicate t.Quantity.toNat (req.EventDateID, t.TicketTypeID, none)

/-- One call of the booking service, with the storage failures that occur during it. -/
inductive Call where
  | ga (req : BookingRequest) (faults : List (Option Error))
  | seated (req : BookingRequest) (faults : List (Option Error))
  deriving DecidableEq, Repr

/-- The session after one call. -/
def Call.run (s : Sess) : Call → Sess
  | .ga req faults => (BookGATickets req { s with faults := faults }).2
  | .seated req faults => (BookSeatedTickets req { s with faults := faults }).2

/-- The session after a sequence of calls, run one after the other. -/
def runCalls (s : Sess) (calls : List Call) : Sess :=
  calls.foldl Call.run s

/-- The price on the seat assignment of a seat (0 when there is none). -/
def seatPrice (st : Store) (eventDateID seatID : Int) : Int :=
  match seatAssignment st eventDateID seatID with
  | some r => r.Price
  | none => 0

/-- The unit price of a ticket type within an occurrence (0 when there is no
allocation). -/
def unitPrice (st : Store) (eventDateID ticketTypeID : Int) : Int :=
  match allocation st eventDateID ticketTypeID with
  | some r => r.Price
  | none => 0


/-- What `GetTicketTypeByID` finds in the catalogue when the storage does not fail the
query. -/
def ticketTypeLookup (st : Store) (id : Int) : Except Error TicketType :=
  match st.ticket_type.find? fun t => t.ID = id with
  | none => .error Error.ErrNoRows
  | some t => .ok t

/-- What `GetSeatByID` finds in the catalogue when the storage does not fail the
query. -/
def seatLookup (st : Store) (id : Int) : Except Error Seat :=
  match st.seat.find? fun t => t.ID = id with
  | none => .error Error.ErrNoRows
  | some t => .ok t

/-- The seat id `CreateTicket` stores: 0 becomes NULL. -/
def seatValue (seatID : Int) : Option Int :=
  if seatID = 0 then none else some seatID

/-- What every statement of a booking respects: the committed tables and the working
catalogue tables (`event`, `venue`, `event_date`, `ticket_type`, `seat`,
`event_date_has_seat`) stay as they are. -/
def CatalogFrame (s s1 : Sess) : Prop :=
  s1.db = s.db ∧ s1.tx.event = s.tx.event ∧ s1.tx.venue = s.tx.venue ∧
    s1.tx.event_date = s.tx.event_date ∧ s1.tx.ticket_type = s.tx.ticket_type ∧
    s1.tx.seat = s.tx.seat ∧ s1.tx.event_date_has_seat = s.tx.event_date_has_seat

/-- What the statements of a booking other than the inventory update respect: the
working allocation rows stay as they are. -/
def InventoryFrame (s s1 : Sess) : Prop :=
  s1.tx.event_date_has_ticket_type = s.tx.event_date_has_ticket_type

/-- One ticket a booking issued: the id its row got, the ticket type and the seat id it
was created with (0 for no seat), and what the catalogue lookups made for the response
returned (no seat lookup is made in a GA booking). -/
structure Issue where
  ticketID : Int
  ticketTypeID : Int
  seatID : Int
  ticketType : Except Error TicketType
  seat : Option (Except Error Seat)

/-- The `ticket` row of an issued ticket. -/
def Issue.row (req : BookingRequest) (eventIDStr userIDStr : String) (i : Issue) : Ticket :=
  { ID := i.ticketID, EventID := eventIDStr, UserID := userIDStr,
    TicketTypeID := i.ticketTypeID, ToName := req.CustomerName,
    EventDateID := req.EventDateID, SeatID := seatValue i.seatID }

/-- The `order_hast_tickets` row of an issued ticket. -/
def Issue.join (orderID : Int) (i : Issue) : OrderHasTicket :=
  { OrderID := orderID, TicketID := i.ticketID }

/-- The response entry of an issued ticket. -/
def Issue.response (req : BookingRequest) (i : Issue) : TicketResponse :=
  { ID := i.ticketID, TicketType := ticketTypeName i.ticketTypeID i.ticketType,
    SeatLabel := i.seat.map (seatLabel i.seatID), ToName := req.CustomerName }

/-- The catalogue lookups of an issued ticket are those of the catalogue `st`: a ticket
type or seat that a lookup returned is the catalogue row, and when `quiet` (the storage
failed no statement) each lookup made returned what the catalogue holds. -/
def Issue.Faithful (st : Store) (quiet : Prop) (i : Issue) : Prop :=
  (∀ t, i.ticketType = .ok t → ticketTypeLookup st i.ticketTypeID = .ok t) ∧
  (∀ x, i.seat = some (.ok x) → seatLookup st i.seatID = .ok x) ∧
  (quiet → i.ticketType = ticketTypeLookup st i.ticketTypeID ∧
    ∀ r, i.seat = some r → r = seatLookup st i.seatID)

/-- What the reservation loop of a GA booking respects: the committed tables stay as
they are, and the working allocation rows keep their keys (occurrence, ticket type), in
place. -/
def AllocKeyFrame (s s1 : Sess) : Prop :=
  s1.db = s.db ∧
    (s1.tx.event_date_has_ticket_type.map fun r => (r.EventDateID, r.TicketTypeID)) =
      (s.tx.event_date_has_ticket_type.map fun r => (r.EventDateID, r.TicketTypeID))
/-! ## A sample catalogue -/

/-- A catalogue with one GA occurrence (id 1: ticket type 1 at 25.00 with 2 of 2 left,
ticket type 2 at 40.00 with 5 of 5 left) and one seated occurrence (id 2: seat 1 at
40.00 and seat 2 at 55.00, both of ticket type 2); nothing sold yet. -/
def sampleStore : Store :=
  { event := [{ ID := 1, Slug := "gala", Title := "Gala", Description := "" }]
    venue := [{ ID := 1, Name := "Hall", Capacity := 100 }]
    event_date :=
      [{ ID := 1, IDVenue := 1, TotalTickets := 7, EventID := 1, SeatingMode := "GA" },
       { ID := 2, IDVenue := 1, TotalTickets := 2, EventID := 1, SeatingMode := "SEATED" }]
    ticket_type :=
      [{ ID := 1, Name := "General", Description := "" },
       { ID := 2, Name := "Premium", Description := "" }]
    seat :=
      [{ ID := 1, Section := "A", Row := "1", Number := "1" },
       { ID := 2, Section := "A", Row := "1", Number := "2" }]
    event_date_has_ticket_type :=
      [{ EventDateID := 1, TicketTypeID := 1, MaxQuantity := 2, RemainingTickets := 2,
         Price := 2500 },
       { EventDateID := 1, TicketTypeID := 2, MaxQuantity := 5, RemainingTickets := 5,
         Price := 4000 }]
    event_date_has_seat :=
      [{ EventDateID := 2, SeatID := 1, Price := 4000, TicketTypeID := 2 },
       { EventDateID := 2, SeatID := 2, Price := 5500, TicketTypeID := 2 }]
    order := []
    ticket := []
    order_hast_tickets := [] }

/-- A session on the sample catalogue with the given failure schedule. -/
def sampleSess (faults : List (Option Error)) : Sess :=
  { db := sampleStore, tx := sampleStore, nextOrderID := 1, nextTicketID := 1,
    faults := faults, trace := [] }

/-- A GA request of user 7 against an occurrence. -/
def gaRequest (eventDateID : Int) (tiers : List TierBookingRequest) : BookingRequest :=
  { EventDateID := eventDateID, CustomerName := "Ann", PaymentSource := "tok_1",
    UserID := 7, Tiers := tiers, Seats := [] }

/-- A seated request of user 7 against an occurrence. -/
def seatedRequest (eventDateID : Int) (seats : List SeatBookingRequest) : BookingRequest :=
  { EventDateID := eventDateID, CustomerName := "Ann", PaymentSource := "tok_1",
    UserID := 7, Tiers := [], Seats := seats }

/-! ## handlers/response.go and handlers/bookings.go -/

/-- Go `models.ErrorResponse`. -/
structure ErrorResponse where
  Error : String
  Message : String
  deriving DecidableEq, Repr

/-- The JSON document a booking handler writes. -/
inductive ResponseBody where
  | failure (e : ErrorResponse)
  | booking (r : BookingResponse)
  deriving DecidableEq, Repr

/-- What a handler wrote to the `http.ResponseWriter`: status code and JSON body. -/
structure HTTPResponse where
  status : Nat
  body : ResponseBody
  deriving DecidableEq, Repr

/-- The error code of a response (the `error` field of its body), if it is an error
response. -/
def HTTPResponse.code (r : HTTPResponse) : Option String :=
  match r.body with
  | .failure e => some e.Error
  | .booking _ => none

namespace handlers

/-- Go `handlers.Error`: an error response with a status, a code and a message. -/
def Error (status : Nat) (errorCode message : String) : HTTPResponse :=
  { status := status, body := .failure { Error := errorCode, Message := message } }

/-- Go `handlers.NotFound`: a 404 response. -/
def NotFound (message : String) : HTTPResponse := Error 404 "NOT_FOUND" message

/-- Go `handlers.Conflict`: a 409 response. -/
def Conflict (errorCode message : String) : HTTPResponse := Error 409 errorCode message

/-- Go `handlers.BadRequest`: a 400 response. -/
def BadRequest (message : String) : HTTPResponse := Error 400 "BAD_REQUEST" message

/-- Go `handlers.InternalServerError`: a 500 response. -/
def InternalServerError (message : String) : HTTPResponse :=
  Error 500 "INTERNAL_ERROR" message

/-- The branch `if err != nil` of `CreateBooking` (lines 69-85): the error is compared
with the three sentinels by `==`, that is by identity. -/
def bookingFailure (err : TicketBooth.Error) : HTTPResponse :=
  if err = TicketBooth.Error.ErrInsufficientInventory then
    Conflict "INSUFFICIENT_INVENTORY"
      "Not enough tickets left for one or more requested tiers."
  else if err = TicketBooth.Error.ErrSeatAlreadyTaken then
    Conflict "SEAT_ALREADY_TAKEN" "One or more selected seats are no longer available."
  else if err = TicketBooth.Error.ErrNotFound then
    NotFound "Event date not found"
  else InternalServerError "Failed to create booking"

/-- The end of `CreateBooking` (lines 69-87): the response for the result of the
booking service; a result without error is written with status 201. -/
def bookingResult : Except TicketBooth.Error BookingResponse × Sess → HTTPResponse × Sess
  | (.error err, s) => (bookingFailure err, s)
  | (.ok response, s) => ({ status := 201, body := .booking response }, s)

/-- Go `BookingHandler.CreateBooking`; the decoded request body is `none` when the body
is not valid JSON for a booking request. -/
def CreateBooking (body : Option BookingRequest) (s : Sess) : HTTPResponse × Sess :=
  match body with
  | none => (BadRequest "Invalid request body", s)
  | some req =>
      if req.EventDateID = 0 then (BadRequest "eventDateId is required", s)
      else if req.CustomerName = "" then (BadRequest "customerName is required", s)
      else if req.PaymentSource = "" then (BadRequest "paymentSource is required", s)
      else if req.UserID = 0 then (BadRequest "userId is required", s)
      else if req.Tiers.length > 0 then bookingResult (BookGATickets req s)
      else if req.Seats.length > 0 then bookingResult (BookSeatedTickets req s)
      else (BadRequest "Either tiers or seats must be provided", s)

end handlers

/-! ## handlers/user.go: user creation and login -/

/-- The number of bytes of a character in UTF-8 (Go `utf8.RuneLen`). -/
def runeLen (c : Char) : Nat :=
  if c.toNat < 0x80 then 1
  else if c.toNat < 0x800 then 2
  else if c.toNat < 0x10000 then 3
  else 4

/-- Go `len(s)` of a string: its number of bytes. -/
def len (s : String) : Nat :=
  (s.data.map runeLen).sum

/-- Go `unicode.IsSpace`: the white space characters `strings.TrimSpace` removes. -/
def isSpace (c : Char) : Bool :=
  (decide (0x09 ≤ c.toNat) && decide (c.toNat ≤ 0x0D)) || c.toNat = 0x20 ||
    c.toNat = 0x85 || c.toNat = 0xA0 || c.toNat = 0x1680 ||
    (decide (0x2000 ≤ c.toNat) && decide (c.toNat ≤ 0x200A)) || c.toNat = 0x2028 ||
    c.toNat = 0x2029 || c.toNat = 0x202F || c.toNat = 0x205F || c.toNat = 0x3000

/-- Go `strings.TrimSpace`: leading and trailing white space removed. -/
def TrimSpace (s : String) : String :=
  ⟨((s.data.dropWhile isSpace).reverse.dropWhile isSpace).reverse⟩

/-- Go `strings.ToLower`: every character mapped by `unicode.ToLower`, whose case tables
are a parameter (`toLowerRune`). -/
def ToLower (toLowerRune : Char → Char) (s : String) : String :=
  ⟨s.data.map toLowerRune⟩

/-- Go `models.CreateUserRequest`. -/
structure CreateUserRequest where
  FirstName : String
  LastName : String
  Email : String
  Username : String
  Password : String
  deriving DecidableEq, Repr

/-- Go `models.User` (without the time stamps the database sets). -/
structure User where
  ID : Int
  Username : String
  FirstName : String
  LastName : String
  Email : String
  Password : String
  HashedPassword : String
  deriving DecidableEq, Repr

/-- Go `normalizeEmail`. -/
def normalizeEmail (toLowerRune : Char → Char) (email : String) : String :=
  let email := TrimSpace (ToLower toLowerRune email)
  if email = "" ∨ ¬ stringsContains email "@" = true then "" else email

/-- Go `normalizeUsername`. -/
def normalizeUsername (toLowerRune : Char → Char) (username : String) : String :=
  let username := TrimSpace (ToLower toLowerRune username)
  if username = "" then "" else username

/-- Go `normalizeCreateUserPayload`: first name, last name, email, username, password and
the error message (empty when the payload is accepted). -/
def normalizeCreateUserPayload (toLowerRune : Char → Char) (req : CreateUserRequest) :
    String × String × String × String × String × String :=
  let firstName := TrimSpace req.FirstName
  if firstName = "" then ("", "", "", "", "", "firstName is required")
  else
    let lastName := TrimSpace req.LastName
    if lastName = "" then ("", "", "", "", "", "lastName is required")
    else
      let email := normalizeEmail toLowerRune req.Email
      if email = "" then ("", "", "", "", "", "email must be valid")
      else
        let username := normalizeUsername toLowerRune req.Username
        if username = "" then ("", "", "", "", "", "username must be provided")
        else
          let password := TrimSpace req.Password
          if len password < 8 then
            ("", "", "", "", "", "password must be at least 8 characters")
          else (firstName, lastName, email, username, password, "")

/-- Go `UserHandler.hashPassword`: the hexadecimal SHA-256 digest of the secret, a colon
and the password; the digest function is a parameter (`sum256hex`). -/
def hashPassword (sum256hex : String → String) (authSecret password : String) : String :=
  sum256hex (authSecret ++ ":" ++ password)

/-- The user record `UserHandler.createUserRecord` hands to the repository. -/
def createUserRecord (sum256hex : String → String) (authSecret : String)
    (firstName lastName email username password : String) : User :=
  { ID := 0, Username := username, FirstName := firstName, LastName := lastName,
    Email := email, Password := "",
    HashedPassword := hashPassword sum256hex authSecret password }

/-- Go `UserHandler.processUserCreation` up to the call of the repository: the message of
the 400 response for a rejected payload, or the record to store. -/
def processUserCreation (toLowerRune : Char → Char) (sum256hex : String → String)
    (authSecret : String) (req : CreateUserRequest) : Except String User :=
  match normalizeCreateUserPayload toLowerRune req with
  | (firstName, lastName, email, username, password, errMsg) =>
      if errMsg ≠ "" then .error errMsg
      else .ok (createUserRecord sum256hex authSecret firstName lastName email username
        password)

/-- The credential check of `UserHandler.Login` on the user the repository returned:
`h.hashPassword(req.Password) != user.HashedPassword` answers 401. -/
def loginPasswordAccepted (sum256hex : String → String) (authSecret : String)
    (reqPassword : String) (user : User) : Bool :=
  decide (hashPassword sum256hex authSecret reqPassword = user.HashedPassword)

/-- A sign-up payload with the given password. -/
def samplePayload (password : String) : CreateUserRequest :=
  { FirstName := "Ann", LastName := "Lee", Email := "ann@example.com", Username := "ann",
    Password := password }
/-! ## repositories/availability.go and repositories/bookings.go: grouping result rows -/

/-- Look an entry up and create it when it is missing, then change it, as the loops over
result rows do: the first entry the test accepts is replaced by its update; when there is
none, the update of the new, empty entry is appended. -/
def upsert {α : Type} (hit : α → Bool) (update : α → α) (empty : α) : List α → List α
  | [] => [update empty]
  | a :: rest =>
      if hit a then update a :: rest else a :: upsert hit update empty rest

/-- The distinct values of a list, in the order of their first occurrence. -/
def firstOccurrences {κ : Type} [DecidableEq κ] (l : List κ) : List κ :=
  l.foldl (fun acc x => if x ∈ acc then acc else acc ++ [x]) []

/-- Go `models.SeatAvailability`; the price is in hundredths. -/
structure SeatAvailability where
  SeatID : Int
  Label : String
  TicketType : String
  Price : Int
  Available : Bool
  deriving DecidableEq, Repr

/-- Go `models.RowAvailability`. -/
structure RowAvailability where
  Row : String
  Seats : List SeatAvailability
  deriving DecidableEq, Repr

/-- Go `models.SectionAvailability`. -/
structure SectionAvailability where
  Section : String
  Rows : List RowAvailability
  deriving DecidableEq, Repr

/-- One result row of the query of `GetSeatedAvailability`, as `Scan` returns it. -/
structure SeatedRow where
  Section : String
  Row : String
  Number : String
  SeatID : Int
  Price : Int
  TicketTypeID : Int
  TicketTypeName : String
  Available : Int
  deriving DecidableEq, Repr

/-- The seat entry `GetSeatedAvailability` builds from a result row. -/
def seatAvail (r : SeatedRow) : SeatAvailability :=
  { SeatID := r.SeatID, Label := r.Section ++ r.Row ++ r.Number,
    TicketType := r.TicketTypeName, Price := r.Price, Available := r.Available = 1 }

/-- The rows of a section after one more result row: its row group is found by the
linear search, or appended, and the seat is appended to it. -/
def addSeatToRows (rows : List RowAvailability) (r : SeatedRow) : List RowAvailability :=
  upsert (fun rowAvail => rowAvail.Row = r.Row)
    (fun rowAvail => ⟨rowAvail.Row, rowAvail.Seats ++ [seatAvail r]⟩) ⟨r.Row, []⟩ rows

/-- The body of the loop of `GetSeatedAvailability`; `sectionMap` lists the values of
the Go map in the order in which their keys were added. -/
def addSeatedRow (sectionMap : List SectionAvailability) (r : SeatedRow) :
    List SectionAvailability :=
  upsert (fun sec => sec.Section = r.Section)
    (fun sec => ⟨sec.Section, addSeatToRows sec.Rows r⟩) ⟨r.Section, []⟩ sectionMap

/-- Go `AvailabilityRepository.GetSeatedAvailability` on the result rows of its query.
The last loop ranges over the map, in an order Go leaves open: `mapOrder`. -/
def GetSeatedAvailability (mapOrder : List SectionAvailability → List SectionAvailability)
    (rows : List SeatedRow) : List SectionAvailability :=
  mapOrder (rows.foldl addSeatedRow [])

/-- One result row of the query of `GetAllOrdersByUserID`, as `Scan` returns it: the
columns of the order, of the ticket, of the ticket type, of the seat, of the event and the
date of the occurrence; `none` is NULL. -/
structure OrderTicketRow where
  OrderID : Int
  OrderUserID : Int
  OrderTotal : Option Int
  OrderAmount : Option String
  OrderPaymentSrc : Option String
  OrderCreatedAt : Option Nat
  TicketID : Int
  TicketEventID : String
  TicketUserID : String
  TicketTypeID : Int
  ToName : String
  EventDateID : Int
  SeatID : Option Int
  TypeID : Int
  TypeName : String
  SeatSection : Option String
  SeatRow : Option String
  SeatNumber : Option String
  EventID : Int
  EventTitle : String
  EventDate : Option Nat
  deriving DecidableEq, Repr

namespace models

/-- Go `models.Ticket` with its joined fields: ticket type, seat, event and occurrence
(id and date). -/
structure Ticket where
  ID : Int
  EventID : String
  UserID : String
  TicketTypeID : Int
  ToName : String
  EventDateID : Int
  SeatID : Int
  TicketType : Option TicketBooth.TicketType
  Seat : Option TicketBooth.Seat
  Event : Option TicketBooth.Event
  EventDate : Option (Int × Nat)
  deriving DecidableEq, Repr

/-- Go `models.Order` with its tickets. -/
structure Order where
  ID : Int
  UserID : Int
  TotalTickets : Int
  Amount : String
  PaymentSource : String
  CreatedAt : Option Nat
  Tickets : List Ticket
  deriving DecidableEq, Repr

end models

/-- The ticket the loop of `GetAllOrdersByUserID` builds from a result row: seat id 0
for NULL, the seat joined when section, row and number are all present. -/
def ticketOfRow (r : OrderTicketRow) : models.Ticket :=
  { ID := r.TicketID, EventID := r.TicketEventID, UserID := r.TicketUserID,
    TicketTypeID := r.TicketTypeID, ToName := r.ToName, EventDateID := r.EventDateID,
    SeatID := match r.SeatID with
      | some id => id
      | none => 0,
    TicketType := some { ID := r.TypeID, Name := r.TypeName, Description := "" },
    Seat := match r.SeatSection, r.SeatRow, r.SeatNumber with
      | some sec, some row, some number =>
          some { ID := 0, Section := sec, Row := row, Number := number }
      | _, _, _ => none,
    Event := some { ID := r.EventID, Slug := "", Title := r.EventTitle, Description := "" },
    EventDate := r.EventDate.map fun d => (r.EventDateID, d) }

/-- The order the loop of `GetAllOrdersByUserID` creates for an order id it has not met,
without tickets yet. -/
def orderOfRow (r : OrderTicketRow) : models.Order :=
  { ID := r.OrderID, UserID := r.OrderUserID,
    TotalTickets := match r.OrderTotal with
      | some n => n
      | none => 0,
    Amount := match r.OrderAmount with
      | some a => a
      | none => "",
    PaymentSource := match r.OrderPaymentSrc with
      | some p => p
      | none => "",
    CreatedAt := r.OrderCreatedAt, Tickets := [] }

/-- The body of the loop of `GetAllOrdersByUserID`: `orders` is the slice, whose entries
the map `orderMap` finds by id. -/
def addOrderRow (orders : List models.Order) (r : OrderTicketRow) : List models.Order :=
  upsert (fun order => order.ID = r.OrderID)
    (fun order => ⟨order.ID, order.UserID, order.TotalTickets, order.Amount,
      order.PaymentSource, order.CreatedAt, order.Tickets ++ [ticketOfRow r]⟩)
    (orderOfRow r) orders

/-- Go `BookingRepository.GetAllOrdersByUserID` on the result rows of its query. -/
def GetAllOrdersByUserID (rows : List OrderTicketRow) : List models.Order :=
  rows.foldl addOrderRow []
/-! # Theorems -/

/-! ## Operations: sequencing and statements -/

theorem Op.bind_apply {α β : Type} (m : Op α) (f : α → Op β) (s : Sess) :
    (m >>= f) s = match m s with
      | (.ok a, s1) => f a s1
      | (.error e, s1) => (.error e, s1) := rfl

theorem Op.pure_apply {α : Type} (a : α) (s : Sess) : (pure a : Op α) s = (.ok a, s) := rfl

/-- A sequence that returns a value: its first part returned one, and the rest ran on
from there. -/
theorem Op.bind_ok {α β : Type} {m : Op α} {f : α → Op β} {s s2 : Sess} {b : β}
    (h : (m >>= f) s = (.ok b, s2)) :
    ∃ a s1, m s = (.ok a, s1) ∧ f a s1 = (.ok b, s2) := by
  rw [Op.bind_apply] at h
  rcases hm : m s with ⟨r, s1⟩
  rw [hm] at h
  cases r with
  | error e => cases h
  | ok a => exact ⟨a, s1, rfl, h⟩

theorem Op.Keeps.of_eq {α : Type} {R : Sess → Sess → Prop} {m : Op α}
    (hk : Op.Keeps R m) {s s1 : Sess} {r : Except Error α} (h : m s = (r, s1)) :
    R s s1 := by
  have := hk s
  rw [h] at this
  exact this

theorem Op.keeps_pure {α : Type} {R : Sess → Sess → Prop} (hR : Stable R) (a : α) :
    Op.Keeps R (pure a : Op α) := fun s => hR.refl s

theorem Op.keeps_ret {α : Type} {R : Sess → Sess → Prop} (hR : Stable R) (a : α) :
    Op.Keeps R (Op.ret a) := fun s => hR.refl s

theorem Op.keeps_fail {α : Type} {R : Sess → Sess → Prop} (hR : Stable R) (e : Error) :
    Op.Keeps R (Op.fail e : Op α) := fun s => hR.refl s

theorem Op.keeps_bind {α β : Type} {R : Sess → Sess → Prop} (hR : Stable R)
    {m : Op α} {f : α → Op β} (hm : Op.Keeps R m) (hf : ∀ a, Op.Keeps R (f a)) :
    Op.Keeps R (m >>= f) := by
  intro s
  rw [Op.bind_apply]
  have h1 := hm s
  rcases hms : m s with ⟨r, s1⟩
  rw [hms] at h1
  cases r with
  | error e => exact h1
  | ok a => exact hR.trans _ _ _ h1 (hf a s1)

theorem Op.keeps_attempt {α : Type} {R : Sess → Sess → Prop} {m : Op α}
    (hm : Op.Keeps R m) : Op.Keeps R (Op.attempt m) := by
  intro s
  exact hm s

theorem keeps_stmt {α : Type} {R : Sess → Sess → Prop} (hR : Stable R)
    {exec : Sess → Except Error α × Sess} (h : ∀ s, R s (exec s).2) :
    Op.Keeps R (stmt exec) := by
  intro s
  rcases s with ⟨db, tx, no, nt, faults, trace⟩
  rcases faults with _ | ⟨f, rest⟩
  · exact h _
  · cases f with
    | none => exact hR.trans _ _ _ (hR.faults ⟨db, tx, no, nt, none :: rest, trace⟩) (h _)
    | some e => exact hR.faults ⟨db, tx, no, nt, some e :: rest, trace⟩

theorem stmt_of_no_fault {α : Type} (exec : Sess → Except Error α × Sess) (s : Sess)
    (h : s.pendingFault = none) :
    stmt exec s = exec { s with faults := s.faults.tail } := by
  rcases s with ⟨db, tx, no, nt, faults, trace⟩
  rcases faults with _ | ⟨f, rest⟩
  · rfl
  · cases f with
    | none => rfl
    | some e => cases h

/-! ## The tables after a write -/

theorem Store.mapAllocations_eq (f : EventDateHasTicketType → EventDateHasTicketType)
    (st : Store) :
    st.mapAllocations f =
      { st with event_date_has_ticket_type := st.event_date_has_ticket_type.map f } := by
  cases st; rfl

theorem Store.addOrder_eq (row : Order) (st : Store) :
    st.addOrder row = { st with order := st.order ++ [row] } := by
  cases st; rfl

theorem Store.addTicket_eq (row : Ticket) (st : Store) :
    st.addTicket row = { st with ticket := st.ticket ++ [row] } := by
  cases st; rfl

theorem Store.addOrderHasTicket_eq (row : OrderHasTicket) (st : Store) :
    st.addOrderHasTicket row =
      { st with order_hast_tickets := st.order_hast_tickets ++ [row] } := by
  cases st; rfl

/-! ## Statements that only read -/

theorem keeps_GetEventDateByID {R : Sess → Sess → Prop} (hR : Stable R) (id : Int) :
    Op.Keeps R (GetEventDateByID id) := by
  apply keeps_stmt hR
  intro s
  rcases h : eventDateRows s.db id with _ | ⟨⟨ed, e, v⟩, rest⟩
  · simp only [h]; exact hR.refl s
  · cases v <;> simp only [h] <;> exact hR.refl s

theorem keeps_GetTicketTypeByID {R : Sess → Sess → Prop} (hR : Stable R) (id : Int) :
    Op.Keeps R (GetTicketTypeByID id) := by
  apply keeps_stmt hR
  intro s
  split <;> exact hR.refl s

theorem keeps_GetSeatByID {R : Sess → Sess → Prop} (hR : Stable R) (id : Int) :
    Op.Keeps R (GetSeatByID id) := by
  apply keeps_stmt hR
  intro s
  split <;> exact hR.refl s

theorem keeps_GetGATicketPriceAndRemaining {R : Sess → Sess → Prop} (hR : Stable R)
    (ed tt : Int) : Op.Keeps R (GetGATicketPriceAndRemaining ed tt) := by
  apply keeps_stmt hR
  intro s
  split <;> exact hR.refl s

theorem keeps_CheckSeatAvailability {R : Sess → Sess → Prop} (hR : Stable R)
    (ed : Int) (ids : List Int) : Op.Keeps R (CheckSeatAvailability ed ids) := by
  unfold CheckSeatAvailability
  split
  · exact Op.keeps_ret hR _
  · apply keeps_stmt hR
    intro s
    exact hR.refl s

theorem keeps_GetSeatPriceAndTicketType {R : Sess → Sess → Prop} (hR : Stable R)
    (ed sid : Int) : Op.Keeps R (GetSeatPriceAndTicketType ed sid) := by
  apply keeps_stmt hR
  intro s
  split <;> exact hR.refl s

/-! ## The loops and callbacks of the booking service, relative to their writes -/

theorem keeps_CreateTicket {R : Sess → Sess → Prop} (hR : Stable R)
    (hT : ∀ ev us tt nm ed seat, Op.Keeps R (insertTicket ev us tt nm ed seat))
    (hJ : ∀ o t, Op.Keeps R (insertOrderHasTicket o t))
    (orderID : Int) (userID eventID : String) (ed tt seatID : Int) (toName : String) :
    Op.Keeps R (CreateTicket orderID userID eventID ed tt seatID toName) := by
  unfold CreateTicket
  apply Op.keeps_bind hR (hT _ _ _ _ _ _)
  intro ticketID
  apply Op.keeps_bind hR (hJ _ _)
  intro _
  exact Op.keeps_pure hR _

theorem keeps_gaReserve {R : Sess → Sess → Prop} (hR : Stable R)
    (req : BookingRequest) (tiers : List TierBookingRequest)
    (hU : ∀ tier ∈ tiers,
      Op.Keeps R (UpdateGATicketInventory req.EventDateID tier.TicketTypeID tier.Quantity)) :
    ∀ amount count : Int, Op.Keeps R (gaReserve req tiers amount count) := by
  induction tiers with
  | nil => intro amount count; exact Op.keeps_pure hR _
  | cons tier rest ih =>
    intro amount count
    unfold gaReserve
    apply Op.keeps_bind hR (hU tier (List.mem_cons_self _ _))
    intro rowsAffected
    split
    · apply Op.keeps_bind hR
        (Op.keeps_attempt (keeps_GetGATicketPriceAndRemaining hR _ _))
      intro lookup
      exact Op.keeps_fail hR _
    · apply Op.keeps_bind hR (keeps_GetGATicketPriceAndRemaining hR _ _)
      rintro ⟨price, remaining⟩
      exact ih (fun t ht => hU t (List.mem_cons_of_mem _ ht)) _ _

theorem keeps_gaTierTickets {R : Sess → Sess → Prop} (hR : Stable R)
    (hT : ∀ ev us tt nm ed seat, Op.Keeps R (insertTicket ev us tt nm ed seat))
    (hJ : ∀ o t, Op.Keeps R (insertOrderHasTicket o t))
    (req : BookingRequest) (ev us : String) (orderID : Int)
    (tier : TierBookingRequest) (n : Nat) :
    ∀ tickets, Op.Keeps R (gaTierTickets req ev us orderID tier n tickets) := by
  induction n with
  | zero => intro tickets; exact Op.keeps_pure hR _
  | succ n ih =>
    intro tickets
    unfold gaTierTickets
    apply Op.keeps_bind hR (keeps_CreateTicket hR hT hJ _ _ _ _ _ _ _)
    intro ticketID
    apply Op.keeps_bind hR (Op.keeps_attempt (keeps_GetTicketTypeByID hR _))
    intro lookup
    exact ih _

theorem keeps_gaTickets {R : Sess → Sess → Prop} (hR : Stable R)
    (hT : ∀ ev us tt nm ed seat, Op.Keeps R (insertTicket ev us tt nm ed seat))
    (hJ : ∀ o t, Op.Keeps R (insertOrderHasTicket o t))
    (req : BookingRequest) (ev us : String) (orderID : Int)
    (tiers : List TierBookingRequest) :
    ∀ tickets, Op.Keeps R (gaTickets req ev us orderID tiers tickets) := by
  induction tiers with
  | nil => intro tickets; exact Op.keeps_pure hR _
  | cons tier rest ih =>
    intro tickets
    unfold gaTickets
    apply Op.keeps_bind hR (keeps_gaTierTickets hR hT hJ _ _ _ _ _ _ _)
    intro tickets1
    exact ih _

theorem keeps_gaBody {R : Sess → Sess → Prop} (hR : Stable R)
    (req : BookingRequest) (eventDate : EventDate)
    (hU : ∀ tier ∈ req.Tiers,
      Op.Keeps R (UpdateGATicketInventory req.EventDateID tier.TicketTypeID tier.Quantity))
    (hO : ∀ u n a p, Op.Keeps R (CreateOrder u n a p))
    (hT : ∀ ev us tt nm ed seat, Op.Keeps R (insertTicket ev us tt nm ed seat))
    (hJ : ∀ o t, Op.Keeps R (insertOrderHasTicket o t)) :
    Op.Keeps R (gaBody req eventDate) := by
  unfold gaBody
  apply Op.keeps_bind hR (keeps_gaReserve hR _ _ hU _ _)
  rintro ⟨amount, count⟩
  apply Op.keeps_bind hR (hO _ _ _ _)
  intro orderID
  apply Op.keeps_bind hR (keeps_gaTickets hR hT hJ _ _ _ _ _ _)
  intro tickets
  exact Op.keeps_pure hR _

theorem keeps_seatedTotal {R : Sess → Sess → Prop} (hR : Stable R)
    (req : BookingRequest) (seats : List SeatBookingRequest) :
    ∀ amount : Int, Op.Keeps R (seatedTotal req seats amount) := by
  induction seats with
  | nil => intro amount; exact Op.keeps_pure hR _
  | cons seatReq rest ih =>
    intro amount
    unfold seatedTotal
    apply Op.keeps_bind hR (keeps_GetSeatPriceAndTicketType hR _ _)
    rintro ⟨price, tt⟩
    exact ih _

theorem keeps_createSeatTicket {R : Sess → Sess → Prop} (hR : Stable R)
    (hT : ∀ ev us tt nm ed seat, Op.Keeps R (insertTicket ev us tt nm ed seat))
    (hJ : ∀ o t, Op.Keeps R (insertOrderHasTicket o t))
    (req : BookingRequest) (ev us : String) (orderID tt seatID : Int) :
    Op.Keeps R (createSeatTicket req ev us orderID tt seatID) := by
  intro s
  have h := keeps_CreateTicket hR hT hJ orderID us ev req.EventDateID tt seatID
    req.CustomerName s
  unfold createSeatTicket
  rcases hc : CreateTicket orderID us ev req.EventDateID tt seatID req.CustomerName s
    with ⟨r, s1⟩
  rw [hc] at h
  cases r with
  | ok a => exact h
  | error e => dsimp only; split <;> exact h

theorem keeps_seatedTickets {R : Sess → Sess → Prop} (hR : Stable R)
    (hT : ∀ ev us tt nm ed seat, Op.Keeps R (insertTicket ev us tt nm ed seat))
    (hJ : ∀ o t, Op.Keeps R (insertOrderHasTicket o t))
    (req : BookingRequest) (ev us : String) (orderID : Int)
    (seats : List SeatBookingRequest) :
    ∀ tickets, Op.Keeps R (seatedTickets req ev us orderID seats tickets) := by
  induction seats with
  | nil => intro tickets; exact Op.keeps_pure hR _
  | cons seatReq rest ih =>
    intro tickets
    unfold seatedTickets
    apply Op.keeps_bind hR (keeps_GetSeatPriceAndTicketType hR _ _)
    rintro ⟨price, tt⟩
    apply Op.keeps_bind hR (keeps_createSeatTicket hR hT hJ _ _ _ _ _ _)
    intro ticketID
    apply Op.keeps_bind hR (Op.keeps_attempt (keeps_GetSeatByID hR _))
    intro seat
    apply Op.keeps_bind hR (Op.keeps_attempt (keeps_GetTicketTypeByID hR _))
    intro ticketType
    exact ih _

theorem keeps_seatedBody {R : Sess → Sess → Prop} (hR : Stable R)
    (hO : ∀ u n a p, Op.Keeps R (CreateOrder u n a p))
    (hT : ∀ ev us tt nm ed seat, Op.Keeps R (insertTicket ev us tt nm ed seat))
    (hJ : ∀ o t, Op.Keeps R (insertOrderHasTicket o t))
    (req : BookingRequest) (eventDate : EventDate) :
    Op.Keeps R (seatedBody req eventDate) := by
  unfold seatedBody
  apply Op.keeps_bind hR (keeps_CheckSeatAvailability hR _ _)
  intro booked
  split
  · exact Op.keeps_fail hR _
  · apply Op.keeps_bind hR (keeps_seatedTotal hR _ _ _)
    intro amount
    apply Op.keeps_bind hR (hO _ _ _ _)
    intro orderID
    apply Op.keeps_bind hR (keeps_seatedTickets hR hT hJ _ _ _ _ _ _)
    intro tickets
    exact Op.keeps_pure hR _

/-! ## The committed tables and seat uniqueness across a transaction -/

theorem txFrame_stable : Stable TxFrame where
  refl := fun _ => ⟨rfl, id⟩
  trans := fun _ _ _ h1 h2 => ⟨h2.1.trans h1.1, fun h => h2.2 (h1.2 h)⟩
  faults := fun _ => ⟨rfl, id⟩

theorem readFrame_stable : Stable ReadFrame where
  refl := fun _ => ⟨rfl, rfl, rfl, rfl, rfl⟩
  trans := fun _ _ _ h1 h2 =>
    ⟨h2.1.trans h1.1, h2.2.1.trans h1.2.1, h2.2.2.1.trans h1.2.2.1,
      h2.2.2.2.1.trans h1.2.2.2.1, h2.2.2.2.2.trans h1.2.2.2.2⟩
  faults := fun _ => ⟨rfl, rfl, rfl, rfl, rfl⟩

theorem orderFrame_stable : Stable OrderFrame where
  refl := fun _ => ⟨rfl, rfl⟩
  trans := fun _ _ _ h1 h2 => ⟨h2.1.trans h1.1, h2.2.trans h1.2⟩
  faults := fun _ => ⟨rfl, rfl⟩

theorem seatUnique_append_of_not_collides (tickets : List Ticket) (t : Ticket)
    (h : SeatUnique tickets) (hc : seatCollides tickets t.EventDateID t.SeatID = false) :
    SeatUnique (tickets ++ [t]) := by
  unfold SeatUnique at *
  rw [List.pairwise_append]
  refine ⟨h, List.pairwise_singleton _ _, ?_⟩
  intro a ha b hb
  rw [List.mem_singleton] at hb
  subst hb
  rintro ⟨hsome, hed, hseat⟩
  unfold seatCollides at hc
  cases hsid : b.SeatID with
  | none => rw [hseat, hsid] at hsome; simp at hsome
  | some sid =>
    rw [hsid] at hc
    simp only [List.any_eq_false] at hc
    have := hc a ha
    simp [hed, hseat, hsid] at this

theorem txFrame_UpdateGATicketInventory (ed tt q : Int) :
    Op.Keeps TxFrame (UpdateGATicketInventory ed tt q) := by
  apply keeps_stmt txFrame_stable
  rintro ⟨db, tx, no, nt, faults, trace⟩
  refine ⟨rfl, ?_⟩
  dsimp only
  rw [Store.mapAllocations_eq]
  exact id

theorem txFrame_CreateOrder (u n : Int) (a p : String) :
    Op.Keeps TxFrame (CreateOrder u n a p) := by
  apply keeps_stmt txFrame_stable
  rintro ⟨db, tx, no, nt, faults, trace⟩
  refine ⟨rfl, ?_⟩
  dsimp only
  rw [Store.addOrder_eq]
  exact id

theorem txFrame_insertTicket (eventID userID : String) (tt : Int) (toName : String)
    (ed : Int) (seat : Option Int) :
    Op.Keeps TxFrame (insertTicket eventID userID tt toName ed seat) := by
  apply keeps_stmt txFrame_stable
  rintro ⟨db, tx, no, nt, faults, trace⟩
  by_cases hc : seatCollides tx.ticket ed seat = true
  · simp only [hc, if_true]; exact txFrame_stable.refl _
  · simp only [hc]
    refine ⟨rfl, fun h => ?_⟩
    rw [Store.addTicket_eq]
    exact seatUnique_append_of_not_collides _ _ h (by simpa using hc)

theorem txFrame_insertOrderHasTicket (o t : Int) :
    Op.Keeps TxFrame (insertOrderHasTicket o t) := by
  apply keeps_stmt txFrame_stable
  rintro ⟨db, tx, no, nt, faults, trace⟩
  refine ⟨rfl, ?_⟩
  dsimp only
  rw [Store.addOrderHasTicket_eq]
  exact id

theorem txFrame_gaBody (req : BookingRequest) (eventDate : EventDate) :
    Op.Keeps TxFrame (gaBody req eventDate) :=
  keeps_gaBody txFrame_stable req eventDate
    (fun _ _ => txFrame_UpdateGATicketInventory _ _ _) txFrame_CreateOrder
    txFrame_insertTicket txFrame_insertOrderHasTicket

theorem txFrame_seatedBody (req : BookingRequest) (eventDate : EventDate) :
    Op.Keeps TxFrame (seatedBody req eventDate) :=
  keeps_seatedBody txFrame_stable txFrame_CreateOrder txFrame_insertTicket
    txFrame_insertOrderHasTicket req eventDate

theorem beginx_cases (s : Sess) :
    (∃ e s1, Beginx s = (.error e, s1) ∧ s1.db = s.db ∧ s1.trace = s.trace) ∨
    (∃ s1, Beginx s = (.ok (), s1) ∧ s1.db = s.db ∧ s1.tx = s.db ∧
      s1.nextOrderID = s.nextOrderID ∧ s1.nextTicketID = s.nextTicketID) := by
  rcases s with ⟨db, tx, no, nt, faults, trace⟩
  rcases faults with _ | ⟨f, rest⟩
  · exact Or.inr ⟨_, rfl, rfl, rfl, rfl, rfl⟩
  · cases f with
    | none => exact Or.inr ⟨_, rfl, rfl, rfl, rfl, rfl⟩
    | some e => exact Or.inl ⟨e, _, rfl, rfl, rfl⟩

theorem commit_cases (s : Sess) :
    ((Commit s).2.db = s.tx ∧ (Commit s).2.trace = TxEvent.committed :: s.trace) ∨
    ((Commit s).2.db = s.db ∧ (Commit s).2.trace = TxEvent.commitFailed :: s.trace) := by
  rcases s with ⟨db, tx, no, nt, faults, trace⟩
  rcases faults with _ | ⟨f, rest⟩
  · exact Or.inl ⟨rfl, rfl⟩
  · cases f with
    | none => exact Or.inl ⟨rfl, rfl⟩
    | some e => exact Or.inr ⟨rfl, rfl⟩

theorem rollback_db (s : Sess) : (Rollback s).2.db = s.db := by
  cases s; rfl

/-- The committed tables after `WithTx`: untouched when it returns an error, and seat
uniqueness is not lost either way. -/
theorem withTx_db {α : Type} {fn : Op α} (hfn : Op.Keeps TxFrame fn) (s : Sess) :
    (∀ e, (WithTx fn s).1 = .error e → (WithTx fn s).2.db = s.db) ∧
    (SeatUnique s.db.ticket → SeatUnique (WithTx fn s).2.db.ticket) := by
  rcases beginx_cases s with ⟨e, s1, hbs, hdb1, _⟩ | ⟨s1, hbs, hdb1, htx1, _⟩
  · have hw : WithTx fn s = (.error e, s1) := by simp only [WithTx, hbs]
    rw [hw]
    exact ⟨fun _ _ => hdb1, fun h => by rw [hdb1]; exact h⟩
  · have hf := hfn s1
    rcases hfs : fn s1 with ⟨r2, s2⟩
    rw [hfs] at hf
    obtain ⟨hdb2, huniq⟩ := hf
    cases r2 with
    | error e =>
      have hw : WithTx fn s = (.error e, (Rollback s2).2) := by simp only [WithTx, hbs, hfs]
      rw [hw]
      have hr : (Rollback s2).2.db = s.db := by
        rw [rollback_db, hdb2, hdb1]
      exact ⟨fun _ _ => hr, fun h => by rw [hr]; exact h⟩
    | ok a =>
      have hw : WithTx fn s = (.ok a, (Commit s2).2) := by simp only [WithTx, hbs, hfs]
      rw [hw]
      refine ⟨fun e he => (by cases he), fun h => ?_⟩
      rcases commit_cases s2 with ⟨hc, _⟩ | ⟨hc, _⟩
      · rw [hc]; exact huniq (by rw [htx1]; exact h)
      · rw [hc, hdb2, hdb1]; exact h

theorem book_db (req : BookingRequest) (s : Sess) :
    ((∀ e, (BookGATickets req s).1 = .error e → (BookGATickets req s).2.db = s.db) ∧
      (SeatUnique s.db.ticket → SeatUnique (BookGATickets req s).2.db.ticket)) ∧
    ((∀ e, (BookSeatedTickets req s).1 = .error e →
        (BookSeatedTickets req s).2.db = s.db) ∧
      (SeatUnique s.db.ticket → SeatUnique (BookSeatedTickets req s).2.db.ticket)) := by
  have hl := keeps_GetEventDateByID txFrame_stable req.EventDateID s
  rcases hls : GetEventDateByID req.EventDateID s with ⟨r, s1⟩
  rw [hls] at hl
  have hdb1 : s1.db = s.db := hl.1
  constructor
  · cases r with
    | error e =>
      have hw : (BookGATickets req s).2 = s1 := by
        simp only [BookGATickets, hls]; split <;> rfl
      rw [hw]
      exact ⟨fun _ _ => hdb1, fun h => by rw [hdb1]; exact h⟩
    | ok ed =>
      by_cases hm : ed.SeatingMode ≠ "GA"
      · have hw : (BookGATickets req s) =
            (.error (Error.Errorf "event date is not GA mode"), s1) := by
          simp only [BookGATickets, hls]; rw [if_pos hm]
        rw [hw]
        exact ⟨fun _ _ => hdb1, fun h => by rw [hdb1]; exact h⟩
      · have hw : BookGATickets req s = WithTx (gaBody req ed) s1 := by
          simp only [BookGATickets, hls]; rw [if_neg hm]
        rw [hw, ← hdb1]
        exact withTx_db (txFrame_gaBody req ed) s1
  · cases r with
    | error e =>
      have hw : (BookSeatedTickets req s).2 = s1 := by
        simp only [BookSeatedTickets, hls]; split <;> rfl
      rw [hw]
      exact ⟨fun _ _ => hdb1, fun h => by rw [hdb1]; exact h⟩
    | ok ed =>
      by_cases hm : ed.SeatingMode ≠ "SEATED"
      · have hw : (BookSeatedTickets req s) =
            (.error (Error.Errorf "event date is not SEATED mode"), s1) := by
          simp only [BookSeatedTickets, hls]; rw [if_pos hm]
        rw [hw]
        exact ⟨fun _ _ => hdb1, fun h => by rw [hdb1]; exact h⟩
      · have hw : BookSeatedTickets req s = WithTx (seatedBody req ed) s1 := by
          simp only [BookSeatedTickets, hls]; rw [if_neg hm]
        rw [hw, ← hdb1]
        exact withTx_db (txFrame_seatedBody req ed) s1

/-! ## C1: the conditional decrement and the rows it reports -/

theorem gaRowMatches_iff (ed tt q : Int) (r : EventDateHasTicketType) :
    gaRowMatches ed tt q r = true ↔
      r.EventDateID = ed ∧ r.TicketTypeID = tt ∧ r.RemainingTickets ≥ q := by
  unfold gaRowMatches
  simp [and_assoc]

theorem allocKey_inj {rows : List EventDateHasTicketType} (h : AllocKeyUnique rows)
    {a b : EventDateHasTicketType} (ha : a ∈ rows) (hb : b ∈ rows)
    (hed : a.EventDateID = b.EventDateID) (htt : a.TicketTypeID = b.TicketTypeID) :
    a = b :=
  List.inj_on_of_nodup_map h ha hb (by simp [hed, htt])

theorem length_filter_le_one {rows : List EventDateHasTicketType}
    (h : AllocKeyUnique rows) (ed tt q : Int) :
    (rows.filter (gaRowMatches ed tt q)).length ≤ 1 := by
  rcases hl : rows.filter (gaRowMatches ed tt q) with _ | ⟨a, _ | ⟨b, rest⟩⟩
  · simp
  · simp
  · exfalso
    have hsub : List.Sublist (a :: b :: rest) rows := hl ▸ List.filter_sublist rows
    have hnd : AllocKeyUnique (a :: b :: rest) := (hsub.map _).nodup h
    have ha : a ∈ rows.filter (gaRowMatches ed tt q) := by rw [hl]; simp
    have hb : b ∈ rows.filter (gaRowMatches ed tt q) := by rw [hl]; simp
    rw [List.mem_filter, gaRowMatches_iff] at ha hb
    unfold AllocKeyUnique at hnd
    simp only [List.map_cons, List.nodup_cons, List.mem_cons] at hnd
    apply hnd.1
    left
    rw [ha.2.1, ha.2.2.1, hb.2.1, hb.2.2.1]

theorem gaRowChanged_iff (ed tt q : Int) (r : EventDateHasTicketType) :
    gaRowChanged ed tt q r = true ↔
      (r.EventDateID = ed ∧ r.TicketTypeID = tt ∧ r.RemainingTickets ≥ q) ∧ q ≠ 0 := by
  unfold gaRowChanged
  rw [Bool.and_eq_true, gaRowMatches_iff, decide_eq_true_iff]
  constructor
  · rintro ⟨h, hne⟩
    exact ⟨h, fun h0 => hne (by rw [h0, sub_zero])⟩
  · rintro ⟨h, hne⟩
    exact ⟨h, fun h0 => hne (by omega)⟩

/-- A non-zero quantity changes every row the WHERE clause selects. -/
theorem filter_gaRowChanged (rows : List EventDateHasTicketType) (ed tt : Int) {q : Int}
    (hq : q ≠ 0) :
    rows.filter (gaRowChanged ed tt q) = rows.filter (gaRowMatches ed tt q) := by
  apply List.filter_congr
  intro r _
  rw [Bool.eq_iff_iff, gaRowChanged_iff, gaRowMatches_iff]
  exact ⟨fun h => h.1, fun h => ⟨h, hq⟩⟩

/-- The quantity 0 changes no row, whatever the WHERE clause selects. -/
theorem filter_gaRowChanged_zero (rows : List EventDateHasTicketType) (ed tt : Int) :
    rows.filter (gaRowChanged ed tt 0) = [] := by
  rw [List.filter_eq_nil_iff]
  intro r _ h
  exact ((gaRowChanged_iff ed tt 0 r).mp h).2 rfl

/-- The conditional decrement for a non-zero quantity `q`, on a table with one allocation
row per (occurrence, ticket type), when the statement itself is not failed by the
storage: it reports 1 row affected exactly when an allocation row of that occurrence and
ticket type has `remaining ≥ q`; then that row's remaining count becomes `remaining - q`
and every other allocation row is unchanged; otherwise it reports 0 and no allocation row
changes. No other table changes in either case. -/
theorem updateGATicketInventory_rows (s : Sess) (ed tt q : Int)
    (hkey : AllocKeyUnique s.tx.event_date_has_ticket_type)
    (hrun : s.pendingFault = none) (hq : q ≠ 0) :
    ∃ n : Int,
      (UpdateGATicketInventory ed tt q s).1 = .ok n ∧
      (n = 1 ∨ n = 0) ∧
      (n = 1 ↔ ∃ r ∈ s.tx.event_date_has_ticket_type,
          r.EventDateID = ed ∧ r.TicketTypeID = tt ∧ r.RemainingTickets ≥ q) ∧
      (n = 1 →
        (UpdateGATicketInventory ed tt q s).2.tx.event_date_has_ticket_type =
          s.tx.event_date_has_ticket_type.map fun r =>
            if r.EventDateID = ed ∧ r.TicketTypeID = tt then
              { r with RemainingTickets := r.RemainingTickets - q }
            else r) ∧
      (n = 0 →
        (UpdateGATicketInventory ed tt q s).2.tx.event_date_has_ticket_type =
          s.tx.event_date_has_ticket_type) ∧
      (UpdateGATicketInventory ed tt q s).2.tx =
        { s.tx with event_date_has_ticket_type :=
            (UpdateGATicketInventory ed tt q s).2.tx.event_date_has_ticket_type } ∧
      (UpdateGATicketInventory ed tt q s).2.db = s.db := by
  have hrw : UpdateGATicketInventory ed tt q s = _ := stmt_of_no_fault _ s hrun
  rw [hrw]
  dsimp only
  rw [filter_gaRowChanged _ ed tt hq]
  set rows := s.tx.event_date_has_ticket_type with hrows
  have hle := length_filter_le_one hkey ed tt q
  have hex : (∃ r ∈ rows, r.EventDateID = ed ∧ r.TicketTypeID = tt ∧ r.RemainingTickets ≥ q) ↔
      (rows.filter (gaRowMatches ed tt q)).length = 1 := by
    constructor
    · rintro ⟨r, hr, hm⟩
      have : r ∈ rows.filter (gaRowMatches ed tt q) :=
        List.mem_filter.mpr ⟨hr, (gaRowMatches_iff ed tt q r).mpr hm⟩
      have hpos : 0 < (rows.filter (gaRowMatches ed tt q)).length :=
        List.length_pos_of_mem this
      omega
    · intro h1
      rcases hl : rows.filter (gaRowMatches ed tt q) with _ | ⟨a, rest⟩
      · rw [hl] at h1; simp at h1
      · have ha : a ∈ rows.filter (gaRowMatches ed tt q) := by rw [hl]; simp
        rw [List.mem_filter, gaRowMatches_iff] at ha
        exact ⟨a, ha.1, ha.2⟩
  refine ⟨_, rfl, ?_, ?_, ?_, ?_, rfl, rfl⟩
  · omega
  · rw [hex]; omega
  · intro h1
    have h1n : (rows.filter (gaRowMatches ed tt q)).length = 1 := by omega
    obtain ⟨r0, hr0, hm0⟩ := hex.mpr h1n
    apply List.map_congr_left
    intro r hr
    unfold gaRowUpdate
    by_cases hk : r.EventDateID = ed ∧ r.TicketTypeID = tt
    · have : r = r0 := allocKey_inj hkey hr hr0 (hk.1.trans hm0.1.symm) (hk.2.trans hm0.2.1.symm)
      subst this
      rw [if_pos ((gaRowMatches_iff ed tt q r).mpr hm0), if_pos hk]
    · have : ¬ gaRowMatches ed tt q r = true := by
        rw [gaRowMatches_iff]; exact fun h => hk ⟨h.1, h.2.1⟩
      rw [if_neg this, if_neg hk]
  · intro h0
    have h0n : (rows.filter (gaRowMatches ed tt q)).length = 0 := by omega
    have hnil : rows.filter (gaRowMatches ed tt q) = [] := List.length_eq_zero.mp h0n
    conv_rhs => rw [← List.map_id rows]
    apply List.map_congr_left
    intro r hr
    unfold gaRowUpdate
    have : ¬ gaRowMatches ed tt q r = true := by
      intro hm
      have : r ∈ rows.filter (gaRowMatches ed tt q) := List.mem_filter.mpr ⟨hr, hm⟩
      rw [hnil] at this
      cases this
    rw [if_neg this]
    rfl

/-- On the sample catalogue, reserving 2 of ticket type 1 (2 left) reports
one row and leaves 0, and the allocation of ticket type 2 keeps its 5; reserving 3 of
ticket type 1 reports no row and changes nothing. -/
theorem updateGATicketInventory_rows_witness :
    AllocKeyUnique (sampleSess []).tx.event_date_has_ticket_type ∧
    (sampleSess []).pendingFault = none ∧
    (UpdateGATicketInventory 1 1 2 (sampleSess [])).1 = .ok 1 ∧
    (UpdateGATicketInventory 1 1 2 (sampleSess [])).2.tx.event_date_has_ticket_type.map
      (fun r => r.RemainingTickets) = [0, 5] ∧
    UpdateGATicketInventory 1 1 3 (sampleSess []) = (.ok 0, sampleSess []) ∧
    ∃ n : Int,
      (UpdateGATicketInventory 1 1 2 (sampleSess [])).1 = .ok n ∧
      (n = 1 ∨ n = 0) ∧
      (n = 1 ↔ ∃ r ∈ (sampleSess []).tx.event_date_has_ticket_type,
          r.EventDateID = 1 ∧ r.TicketTypeID = 1 ∧ r.RemainingTickets ≥ 2) ∧
      (n = 1 →
        (UpdateGATicketInventory 1 1 2 (sampleSess [])).2.tx.event_date_has_ticket_type =
          (sampleSess []).tx.event_date_has_ticket_type.map fun r =>
            if r.EventDateID = 1 ∧ r.TicketTypeID = 1 then
              { r with RemainingTickets := r.RemainingTickets - 2 }
            else r) ∧
      (n = 0 →
        (UpdateGATicketInventory 1 1 2 (sampleSess [])).2.tx.event_date_has_ticket_type =
          (sampleSess []).tx.event_date_has_ticket_type) ∧
      (UpdateGATicketInventory 1 1 2 (sampleSess [])).2.tx =
        { (sampleSess []).tx with event_date_has_ticket_type :=
            (UpdateGATicketInventory 1 1 2
              (sampleSess [])).2.tx.event_date_has_ticket_type } ∧
      (UpdateGATicketInventory 1 1 2 (sampleSess [])).2.db = (sampleSess []).db :=
  ⟨by decide, rfl, rfl, rfl, rfl,
   updateGATicketInventory_rows (sampleSess []) 1 1 2 (by decide) rfl (by decide)⟩


/-- The conditional decrement for the quantity 0, when the statement itself is not failed
by the storage: it reports 0 rows affected and leaves every table as it was, whether or
not an allocation row of that occurrence and ticket type exists. -/
theorem updateGATicketInventory_zero (s : Sess) (ed tt : Int)
    (hrun : s.pendingFault = none) :
    (UpdateGATicketInventory ed tt 0 s).1 = .ok 0 ∧
      (UpdateGATicketInventory ed tt 0 s).2.tx = s.tx ∧
      (UpdateGATicketInventory ed tt 0 s).2.db = s.db := by
  have hrw : UpdateGATicketInventory ed tt 0 s = _ := stmt_of_no_fault _ s hrun
  rw [hrw]
  dsimp only
  rw [filter_gaRowChanged_zero]
  refine ⟨rfl, ?_, rfl⟩
  have hid : gaRowUpdate ed tt 0 = id := by
    funext r
    unfold gaRowUpdate
    split
    · simp
    · rfl
  rcases s with ⟨db, tx, no, nt, faults, trace⟩
  rcases tx with ⟨a1, a2, a3, a4, a5, a6, a7, a8, a9, a10⟩
  simp [Store.mapAllocations, hid]

/-- On the sample catalogue the quantity 0 reports no row although ticket type 1 has 2
left. -/
theorem updateGATicketInventory_zero_witness :
    (sampleSess []).pendingFault = none ∧
    (UpdateGATicketInventory 1 1 0 (sampleSess [])).1 = .ok 0 ∧
      (UpdateGATicketInventory 1 1 0 (sampleSess [])).2.tx = (sampleSess []).tx ∧
      (UpdateGATicketInventory 1 1 0 (sampleSess [])).2.db = (sampleSess []).db :=
  ⟨rfl, updateGATicketInventory_zero (sampleSess []) 1 1 rfl⟩

/-- C1, evaluated where it fails. On the sample catalogue the allocation of occurrence 1
and ticket type 1 has 2 tickets left, so a row with `remaining ≥ 0` exists; yet
`UpdateGATicketInventory` with quantity 0 reports 0 rows affected, because the UPDATE
gives no row another value, and `BookGATickets` for zero tickets of that type fails with
the insufficient-inventory error that reports 2 remaining and 0 requested. For the
quantity 1 the same call reports 1 row. -/
theorem zero_quantity_reports_no_row :
    (∃ r ∈ (sampleSess []).tx.event_date_has_ticket_type,
        r.EventDateID = 1 ∧ r.TicketTypeID = 1 ∧ r.RemainingTickets ≥ 0) ∧
    UpdateGATicketInventory 1 1 0 (sampleSess []) = (.ok 0, sampleSess []) ∧
    (UpdateGATicketInventory 1 1 1 (sampleSess [])).1 = .ok 1 ∧
    (BookGATickets (gaRequest 1 [⟨1, 0⟩]) (sampleSess [])).1 =
      .error (Error.Wrapf Error.ErrInsufficientInventory
        "INSUFFICIENT_INVENTORY: Not enough tickets left for ticket type 1 (remaining: 2, requested: 0)") ∧
    (BookGATickets (gaRequest 1 [⟨1, 0⟩]) (sampleSess [])).2.db = sampleStore :=
  ⟨⟨_, List.mem_cons_self _ _, rfl, rfl, by decide⟩, by rfl, by rfl, by rfl, by rfl⟩
/-! ## C2: the allocation invariant and quantities below zero -/

/-- C2, evaluated where it fails. On the sample catalogue every allocation satisfies
`0 ≤ remaining ≤ max`; the GA request with tiers (ticket type 1, quantity -1) and
(ticket type 2, quantity 1) succeeds and is committed, and afterwards the allocation of
ticket type 1 has remaining 3 with max 2: the count went up, above its maximum. -/
theorem negative_quantity_raises_remaining :
    AllocInv sampleStore.event_date_has_ticket_type ∧
    (BookGATickets (gaRequest 1 [⟨1, -1⟩, ⟨2, 1⟩]) (sampleSess [])).1 =
      .ok { OrderID := 1, TotalAmount := 1500,
            Tickets := [{ ID := 1, TicketType := "Premium", SeatLabel := none,
                          ToName := "Ann" }] } ∧
    (BookGATickets (gaRequest 1 [⟨1, -1⟩, ⟨2, 1⟩])
        (sampleSess [])).2.db.event_date_has_ticket_type =
      [{ EventDateID := 1, TicketTypeID := 1, MaxQuantity := 2, RemainingTickets := 3,
         Price := 2500 },
       { EventDateID := 1, TicketTypeID := 2, MaxQuantity := 5, RemainingTickets := 4,
         Price := 4000 }] ∧
    ¬ AllocInv (BookGATickets (gaRequest 1 [⟨1, -1⟩, ⟨2, 1⟩])
        (sampleSess [])).2.db.event_date_has_ticket_type :=
  ⟨by decide, by rfl, by rfl, by decide⟩

theorem allocStep_list_refl (rows : List EventDateHasTicketType) :
    List.Forall₂ AllocStep rows rows :=
  List.forall₂_same.mpr fun _ _ => ⟨rfl, rfl, rfl, rfl, le_refl _, id⟩

theorem allocStep_list_trans {a b c : List EventDateHasTicketType}
    (h1 : List.Forall₂ AllocStep a b) (h2 : List.Forall₂ AllocStep b c) :
    List.Forall₂ AllocStep a c := by
  induction h1 generalizing c with
  | nil => cases h2; exact List.Forall₂.nil
  | cons hab _ ih =>
    cases h2 with
    | cons hbc hrest =>
      refine List.Forall₂.cons ?_ (ih hrest)
      obtain ⟨e1, t1, m1, p1, r1, n1⟩ := hab
      obtain ⟨e2, t2, m2, p2, r2, n2⟩ := hbc
      exact ⟨e2.trans e1, t2.trans t1, m2.trans m1, p2.trans p1, r2.trans r1,
        fun h => n2 (n1 h)⟩

theorem allocStep_list_mem {a b : List EventDateHasTicketType}
    (h : List.Forall₂ AllocStep a b) {r1 : EventDateHasTicketType} (hr1 : r1 ∈ b) :
    ∃ r ∈ a, AllocStep r r1 := by
  induction h with
  | nil => cases hr1
  | cons hab _ ih =>
    rcases List.mem_cons.mp hr1 with rfl | hmem
    · exact ⟨_, List.mem_cons_self _ _, hab⟩
    · obtain ⟨r, hr, hrel⟩ := ih hmem
      exact ⟨r, List.mem_cons_of_mem _ hr, hrel⟩

theorem allocFrame_stable : Stable AllocFrame where
  refl := fun _ => ⟨rfl, allocStep_list_refl _⟩
  trans := fun _ _ _ h1 h2 => ⟨h2.1.trans h1.1, allocStep_list_trans h1.2 h2.2⟩
  faults := fun _ => ⟨rfl, allocStep_list_refl _⟩

theorem allocFrame_UpdateGATicketInventory (ed tt q : Int) (hq : 0 ≤ q) :
    Op.Keeps AllocFrame (UpdateGATicketInventory ed tt q) := by
  apply keeps_stmt allocFrame_stable
  rintro ⟨db, tx, no, nt, faults, trace⟩
  refine ⟨rfl, ?_⟩
  dsimp only
  rw [Store.mapAllocations_eq]
  dsimp only
  rw [List.forall₂_map_right_iff, List.forall₂_same]
  intro r _
  unfold gaRowUpdate
  split
  · rename_i hm
    rw [gaRowMatches_iff] at hm
    refine ⟨rfl, rfl, rfl, rfl, ?_, fun _ => ?_⟩
    · dsimp only; omega
    · dsimp only; omega
  · exact ⟨rfl, rfl, rfl, rfl, le_refl _, id⟩

theorem allocFrame_of_same_alloc {α : Type} {exec : Sess → Except Error α × Sess}
    (h : ∀ s, (exec s).2.db = s.db ∧
      (exec s).2.tx.event_date_has_ticket_type = s.tx.event_date_has_ticket_type) :
    Op.Keeps AllocFrame (stmt exec) := by
  apply keeps_stmt allocFrame_stable
  intro s
  refine ⟨(h s).1, ?_⟩
  rw [(h s).2]
  exact allocStep_list_refl _

theorem allocFrame_gaBody (req : BookingRequest) (eventDate : EventDate)
    (hq : ∀ tier ∈ req.Tiers, 0 ≤ tier.Quantity) :
    Op.Keeps AllocFrame (gaBody req eventDate) :=
  keeps_gaBody allocFrame_stable req eventDate
    (fun tier ht => allocFrame_UpdateGATicketInventory _ _ _ (hq tier ht))
    (fun _ _ _ _ => allocFrame_of_same_alloc fun ⟨_, tx, _, _, _, _⟩ => by
      cases tx; exact ⟨rfl, rfl⟩)
    (fun _ _ _ _ _ _ => allocFrame_of_same_alloc fun ⟨_, tx, _, _, _, _⟩ => by
      cases tx; dsimp only; split <;> exact ⟨rfl, rfl⟩)
    (fun _ _ => allocFrame_of_same_alloc fun ⟨_, tx, _, _, _, _⟩ => by
      cases tx; exact ⟨rfl, rfl⟩)

/-- The allocation rows across a GA booking whose quantities are all at least zero: row
by row, key, maximum and price are kept, the remaining count does not grow and does not
fall below zero; so `0 ≤ remaining ≤ max` is kept by such a booking. -/
theorem allocations_after_nonneg_booking (req : BookingRequest) (s : Sess)
    (hq : ∀ tier ∈ req.Tiers, 0 ≤ tier.Quantity) :
    List.Forall₂ AllocStep s.db.event_date_has_ticket_type
      (BookGATickets req s).2.db.event_date_has_ticket_type ∧
    (AllocInv s.db.event_date_has_ticket_type →
      AllocInv (BookGATickets req s).2.db.event_date_has_ticket_type) := by
  have hstep : List.Forall₂ AllocStep s.db.event_date_has_ticket_type
      (BookGATickets req s).2.db.event_date_has_ticket_type := by
    have hl := keeps_GetEventDateByID txFrame_stable req.EventDateID s
    rcases hls : GetEventDateByID req.EventDateID s with ⟨r, s0⟩
    rw [hls] at hl
    have hdb0 : s0.db = s.db := hl.1
    cases r with
    | error e =>
      have hw : (BookGATickets req s).2 = s0 := by
        simp only [BookGATickets, hls]; split <;> rfl
      rw [hw, hdb0]; exact allocStep_list_refl _
    | ok ed =>
      by_cases hm : ed.SeatingMode ≠ "GA"
      · have hw : (BookGATickets req s) =
            (.error (Error.Errorf "event date is not GA mode"), s0) := by
          simp only [BookGATickets, hls]; rw [if_pos hm]
        rw [hw, hdb0]; exact allocStep_list_refl _
      · have hw : BookGATickets req s = WithTx (gaBody req ed) s0 := by
          simp only [BookGATickets, hls]; rw [if_neg hm]
        rw [hw, ← hdb0]
        rcases beginx_cases s0 with ⟨e, s1, hbs, hdb1, _⟩ | ⟨s1, hbs, hdb1, htx1, _⟩
        · have hw2 : WithTx (gaBody req ed) s0 = (.error e, s1) := by
            simp only [WithTx, hbs]
          rw [hw2, hdb1]; exact allocStep_list_refl _
        · have hf := allocFrame_gaBody req ed hq s1
          rcases hfs : gaBody req ed s1 with ⟨r2, s2⟩
          rw [hfs] at hf
          obtain ⟨hdb2, hrows⟩ := hf
          rw [htx1] at hrows
          cases r2 with
          | error e =>
            have hw2 : WithTx (gaBody req ed) s0 = (.error e, (Rollback s2).2) := by
              simp only [WithTx, hbs, hfs]
            have hr : (Rollback s2).2.db = s0.db := by
              rw [rollback_db, hdb2, hdb1]
            rw [hw2, hr]; exact allocStep_list_refl _
          | ok a =>
            have hw2 : WithTx (gaBody req ed) s0 = (.ok a, (Commit s2).2) := by
              simp only [WithTx, hbs, hfs]
            rw [hw2]
            rcases commit_cases s2 with ⟨hc, _⟩ | ⟨hc, _⟩
            · rw [hc]; exact hrows
            · rw [hc, hdb2, hdb1]; exact allocStep_list_refl _
  refine ⟨hstep, fun hinv => ?_⟩
  intro r1 hr1
  obtain ⟨r, hr, hrel⟩ := allocStep_list_mem hstep hr1
  obtain ⟨_, _, hmax, _, hle, hnonneg⟩ := hrel
  obtain ⟨h0, hm⟩ := hinv r hr
  exact ⟨hnonneg h0, by rw [hmax]; exact le_trans hle hm⟩

/-- The theorem above on the sample catalogue: both tiers within stock. -/
theorem allocations_after_nonneg_booking_witness :
    AllocInv (BookGATickets (gaRequest 1 [⟨1, 2⟩, ⟨2, 1⟩])
      (sampleSess [])).2.db.event_date_has_ticket_type ∧
    (BookGATickets (gaRequest 1 [⟨1, 2⟩, ⟨2, 1⟩])
      (sampleSess [])).2.db.event_date_has_ticket_type.map
        (fun r => r.RemainingTickets) = [0, 4] :=
  ⟨(allocations_after_nonneg_booking (gaRequest 1 [⟨1, 2⟩, ⟨2, 1⟩]) (sampleSess [])
      (by decide)).2 (by decide), by rfl⟩

/-! ## C3, C4: atomicity and seat uniqueness -/

/-- C3. Atomicity: whenever `BookGATickets` or `BookSeatedTickets` returns an error,
whatever the request and whatever storage failures occur, the committed tables after
the call (allocations, orders, tickets, order-ticket rows and all others) are exactly
the committed tables before it. -/
theorem booking_error_leaves_store (req : BookingRequest) (s : Sess) :
    (∀ e, (BookGATickets req s).1 = .error e → (BookGATickets req s).2.db = s.db) ∧
    (∀ e, (BookSeatedTickets req s).1 = .error e →
      (BookSeatedTickets req s).2.db = s.db) :=
  ⟨(book_db req s).1.1, (book_db req s).2.1⟩

/-- Witness of C3: a GA request for two tickets whose second ticket insert fails, and a
seated request naming seat 1 twice, whose second ticket insert violates the constraint:
both return an error, and no decrement, order row or ticket row persists. -/
theorem booking_error_leaves_store_witness :
    (BookGATickets (gaRequest 1 [⟨1, 2⟩])
        (sampleSess [none, none, none, none, none, none, none, none,
          some (Error.driver "connection lost")])).1
      = .error (Error.driver "connection lost") ∧
    (BookGATickets (gaRequest 1 [⟨1, 2⟩])
        (sampleSess [none, none, none, none, none, none, none, none,
          some (Error.driver "connection lost")])).2.db = sampleStore ∧
    (BookSeatedTickets (seatedRequest 2 [⟨1, 2⟩, ⟨1, 2⟩]) (sampleSess [])).1
      = .error (wrapf Error.ErrSeatAlreadyTaken
          ": One or more selected seats are no longer available") ∧
    (BookSeatedTickets (seatedRequest 2 [⟨1, 2⟩, ⟨1, 2⟩]) (sampleSess [])).2.db
      = sampleStore :=
  ⟨by rfl,
   (booking_error_leaves_store _ _).1 (Error.driver "connection lost") (by rfl),
   by rfl,
   (booking_error_leaves_store _ _).2 _ (by rfl)⟩

/-- C4. Seat uniqueness: from committed tables in which no two tickets share
(occurrence id, seat id) with the seat id present, after any finite sequence of
`BookGATickets` and `BookSeatedTickets` calls, with any requests and any storage
failures, no two committed tickets share (occurrence id, seat id) with the seat id
present. -/
theorem seat_unique_invariant (s : Sess) (calls : List Call)
    (h : SeatUnique s.db.ticket) : SeatUnique (runCalls s calls).db.ticket := by
  unfold runCalls
  induction calls generalizing s with
  | nil => exact h
  | cons c rest ih =>
    rw [List.foldl_cons]
    apply ih
    cases c with
    | ga req faults => exact (book_db req { s with faults := faults }).1.2 h
    | seated req faults => exact (book_db req { s with faults := faults }).2.2 h

/-- Witness of C4: seat 1 is booked, then requested again, then a GA booking is made,
then seat 2 is named twice within one request; at the end one ticket holds seat 1, the
GA ticket has no seat and no ticket holds seat 2. -/
theorem seat_unique_invariant_witness :
    SeatUnique (sampleSess []).db.ticket ∧
    SeatUnique (runCalls (sampleSess [])
      [Call.seated (seatedRequest 2 [⟨1, 2⟩]) [],
       Call.seated (seatedRequest 2 [⟨1, 2⟩]) [],
       Call.ga (gaRequest 1 [⟨1, 1⟩]) [],
       Call.seated (seatedRequest 2 [⟨2, 2⟩, ⟨2, 2⟩]) []]).db.ticket ∧
    (runCalls (sampleSess [])
      [Call.seated (seatedRequest 2 [⟨1, 2⟩]) [],
       Call.seated (seatedRequest 2 [⟨1, 2⟩]) [],
       Call.ga (gaRequest 1 [⟨1, 1⟩]) [],
       Call.seated (seatedRequest 2 [⟨2, 2⟩, ⟨2, 2⟩]) []]).db.ticket.map
        (fun t => (t.EventDateID, t.SeatID)) = [(2, some 1), (1, none)] :=
  ⟨by decide, seat_unique_invariant _ _ (by decide), by rfl⟩

/-! ## Totals: what a successful booking computed and wrote -/

theorem stmt_ok {α : Type} {exec : Sess → Except Error α × Sess} {s s1 : Sess} {a : α}
    (h : stmt exec s = (.ok a, s1)) :
    exec { s with faults := s.faults.tail } = (.ok a, s1) := by
  rcases s with ⟨db, tx, no, nt, faults, trace⟩
  rcases faults with _ | ⟨f, rest⟩
  · exact h
  · cases f with
    | none => exact h
    | some e => cases h

theorem noFaults_stable : Stable NoFaults where
  refl := fun _ h => h
  trans := fun _ _ _ h1 h2 h => h2 (h1 h)
  faults := fun s h => by simp [h]

theorem noFaults_stmt {α : Type} (exec : Sess → Except Error α × Sess)
    (h : ∀ s, (exec s).2.faults = s.faults) : Op.Keeps NoFaults (stmt exec) :=
  keeps_stmt noFaults_stable fun s hs => (h s).trans hs

theorem noFaults_gaBody (req : BookingRequest) (eventDate : EventDate) :
    Op.Keeps NoFaults (gaBody req eventDate) :=
  keeps_gaBody noFaults_stable req eventDate
    (fun _ _ => noFaults_stmt _ fun ⟨_, _, _, _, _, _⟩ => rfl)
    (fun _ _ _ _ => noFaults_stmt _ fun ⟨_, _, _, _, _, _⟩ => rfl)
    (fun _ _ _ _ _ _ => noFaults_stmt _ fun ⟨_, _, _, _, _, _⟩ => by
      dsimp only; split <;> rfl)
    (fun _ _ => noFaults_stmt _ fun ⟨_, _, _, _, _, _⟩ => rfl)

theorem noFaults_seatedBody (req : BookingRequest) (eventDate : EventDate) :
    Op.Keeps NoFaults (seatedBody req eventDate) :=
  keeps_seatedBody noFaults_stable
    (fun _ _ _ _ => noFaults_stmt _ fun ⟨_, _, _, _, _, _⟩ => rfl)
    (fun _ _ _ _ _ _ => noFaults_stmt _ fun ⟨_, _, _, _, _, _⟩ => by
      dsimp only; split <;> rfl)
    (fun _ _ => noFaults_stmt _ fun ⟨_, _, _, _, _, _⟩ => rfl) req eventDate

theorem orderFrame_insertTicket (eventID userID : String) (tt : Int) (toName : String)
    (ed : Int) (seat : Option Int) :
    Op.Keeps OrderFrame (insertTicket eventID userID tt toName ed seat) := by
  apply keeps_stmt orderFrame_stable
  rintro ⟨db, tx, no, nt, faults, trace⟩
  cases tx
  dsimp only
  split <;> exact ⟨rfl, rfl⟩

theorem orderFrame_insertOrderHasTicket (o t : Int) :
    Op.Keeps OrderFrame (insertOrderHasTicket o t) := by
  apply keeps_stmt orderFrame_stable
  rintro ⟨db, tx, no, nt, faults, trace⟩
  cases tx
  exact ⟨rfl, rfl⟩

/-- A transaction that returned a value: it was begun, the callback returned the value,
and the commit was attempted on the callback's final session. -/
theorem withTx_ok {α : Type} {fn : Op α} {s s3 : Sess} {a : α}
    (h : WithTx fn s = (.ok a, s3)) :
    ∃ s1 s2, Beginx s = (.ok (), s1) ∧ fn s1 = (.ok a, s2) ∧ s3 = (Commit s2).2 := by
  unfold WithTx at h
  rcases hb : Beginx s with ⟨r, s1⟩
  rw [hb] at h
  cases r with
  | error e => cases h
  | ok u =>
    dsimp only at h
    rcases hf : fn s1 with ⟨r2, s2⟩
    rw [hf] at h
    cases r2 with
    | error e => cases h
    | ok b =>
      dsimp only at h
      cases h
      exact ⟨s1, s2, rfl, hf, rfl⟩

theorem beginx_ok {s s1 : Sess} (h : Beginx s = (.ok (), s1)) :
    s1.db = s.db ∧ s1.tx = s.db ∧ s1.nextOrderID = s.nextOrderID ∧
      s1.nextTicketID = s.nextTicketID ∧ (s.faults = [] → s1.faults = []) := by
  rcases s with ⟨db, tx, no, nt, faults, trace⟩
  rcases faults with _ | ⟨f, rest⟩
  · cases h; exact ⟨rfl, rfl, rfl, rfl, fun _ => rfl⟩
  · cases f with
    | none => cases h; exact ⟨rfl, rfl, rfl, rfl, fun h => by cases h⟩
    | some e => cases h

/-- The committed tables after the commit of a transaction: the working tables, when the
trace records a commit or when nothing was scheduled to fail. -/
theorem commit_db (s : Sess) :
    (((Commit s).2.trace.head? = some TxEvent.committed ∨ s.faults = []) →
      (Commit s).2.db = s.tx) ∧ (Commit s).2.tx = s.tx := by
  rcases s with ⟨db, tx, no, nt, faults, trace⟩
  rcases faults with _ | ⟨f, rest⟩
  · exact ⟨fun _ => rfl, rfl⟩
  · cases f with
    | none => exact ⟨fun _ => rfl, rfl⟩
    | some e =>
      refine ⟨fun h => ?_, rfl⟩
      rcases h with h | h
      · simp [Commit] at h
      · cases h

theorem book_seated_ok {req : BookingRequest} {s s3 : Sess} {resp : BookingResponse}
    (h : BookSeatedTickets req s = (.ok resp, s3)) :
    ∃ eventDate s0, GetEventDateByID req.EventDateID s = (.ok eventDate, s0) ∧
      eventDate.SeatingMode = "SEATED" ∧
      WithTx (seatedBody req eventDate) s0 = (.ok resp, s3) := by
  unfold BookSeatedTickets at h
  rcases hl : GetEventDateByID req.EventDateID s with ⟨r, s0⟩
  rw [hl] at h
  cases r with
  | error e => dsimp only at h; split at h <;> cases h
  | ok ed =>
    dsimp only at h
    by_cases hm : ed.SeatingMode ≠ "SEATED"
    · rw [if_pos hm] at h; cases h
    · rw [if_neg hm] at h
      exact ⟨ed, s0, rfl, not_not.mp hm, h⟩

theorem book_ga_ok {req : BookingRequest} {s s3 : Sess} {resp : BookingResponse}
    (h : BookGATickets req s = (.ok resp, s3)) :
    ∃ eventDate s0, GetEventDateByID req.EventDateID s = (.ok eventDate, s0) ∧
      eventDate.SeatingMode = "GA" ∧
      WithTx (gaBody req eventDate) s0 = (.ok resp, s3) := by
  unfold BookGATickets at h
  rcases hl : GetEventDateByID req.EventDateID s with ⟨r, s0⟩
  rw [hl] at h
  cases r with
  | error e => dsimp only at h; split at h <;> cases h
  | ok ed =>
    dsimp only at h
    by_cases hm : ed.SeatingMode ≠ "GA"
    · rw [if_pos hm] at h; cases h
    · rw [if_neg hm] at h
      exact ⟨ed, s0, rfl, not_not.mp hm, h⟩

theorem getSeatPriceAndTicketType_ok {ed sid : Int} {s s1 : Sess} {p tt : Int}
    (h : GetSeatPriceAndTicketType ed sid s = (.ok (p, tt), s1)) :
    ∃ r, seatAssignment s.db ed sid = some r ∧ p = r.Price ∧ tt = r.TicketTypeID := by
  have h1 := stmt_ok h
  dsimp only at h1
  rcases hr : seatAssignment s.db ed sid with _ | r
  · rw [hr] at h1; cases h1
  · rw [hr] at h1
    cases h1
    exact ⟨r, rfl, rfl, rfl⟩

theorem seatedTotal_ok (req : BookingRequest) (seats : List SeatBookingRequest) :
    ∀ (amount total : Int) (s s1 : Sess),
      seatedTotal req seats amount s = (.ok total, s1) →
      (∀ x ∈ seats, (seatAssignment s.db req.EventDateID x.SeatID).isSome = true) ∧
      total = amount + (seats.map fun x => seatPrice s.db req.EventDateID x.SeatID).sum := by
  induction seats with
  | nil =>
    intro amount total s s1 h
    cases h
    simp
  | cons seatReq rest ih =>
    intro amount total s s1 h
    unfold seatedTotal at h
    obtain ⟨⟨p, tt⟩, s0, h0, hrest⟩ := Op.bind_ok h
    obtain ⟨r, hr, hp, _⟩ := getSeatPriceAndTicketType_ok h0
    have hdb : s0.db = s.db := by
      have := keeps_GetSeatPriceAndTicketType readFrame_stable req.EventDateID
        seatReq.SeatID s
      rw [h0] at this
      exact this.1
    obtain ⟨hall, htot⟩ := ih _ _ _ _ hrest
    rw [hdb] at hall htot
    refine ⟨?_, ?_⟩
    · intro x hx
      rcases List.mem_cons.mp hx with rfl | hx
      · rw [hr]; rfl
      · exact hall x hx
    · rw [htot, List.map_cons, List.sum_cons]
      have : seatPrice s.db req.EventDateID seatReq.SeatID = p := by
        unfold seatPrice; rw [hr]; exact hp.symm
      rw [this]; ring

theorem createOrder_ok {u n : Int} {a p : String} {s s1 : Sess} {id : Int}
    (h : CreateOrder u n a p s = (.ok id, s1)) :
    s1.tx.order = s.tx.order ++
      [{ ID := id, UserID := u, TotalTickets := n, Amount := a, PaymentSource := p }] ∧
    s1.db = s.db ∧ id = s.nextOrderID := by
  have h1 := stmt_ok h
  rcases s with ⟨db, tx, no, nt, faults, trace⟩
  cases tx
  cases h1
  exact ⟨rfl, rfl, rfl⟩

/-- The text `formatAmount` produces: an optional sign, the whole part, a point and
exactly two decimal digits, which together spell the amount. -/
theorem formatAmount_two_decimals (amount : Int) :
    ∃ whole d1 d0 : Nat, d1 < 10 ∧ d0 < 10 ∧
      amount.natAbs = whole * 100 + d1 * 10 + d0 ∧
      formatAmount amount =
        (if amount < 0 then "-" else "") ++ toString whole ++ "." ++
          (toString d1 ++ toString d0) := by
  refine ⟨amount.natAbs / 100, amount.natAbs % 100 / 10, amount.natAbs % 100 % 10,
    by omega, by omega, by omega, rfl⟩

/-! ## What a successful GA booking computed and wrote -/

theorem getGATicketPriceAndRemaining_ok {ed tt : Int} {s s1 : Sess} {p rem : Int}
    (h : GetGATicketPriceAndRemaining ed tt s = (.ok (p, rem), s1)) :
    ∃ r, allocation s.db ed tt = some r ∧ p = r.Price ∧ rem = r.RemainingTickets := by
  have h1 := stmt_ok h
  dsimp only at h1
  rcases hr : allocation s.db ed tt with _ | r
  · rw [hr] at h1; cases h1
  · rw [hr] at h1
    cases h1
    exact ⟨r, rfl, rfl, rfl⟩

theorem gaReserve_ok (req : BookingRequest) (tiers : List TierBookingRequest) :
    ∀ (amount count total n : Int) (s s1 : Sess),
      gaReserve req tiers amount count s = (.ok (total, n), s1) →
      (∀ t ∈ tiers, (allocation s.db req.EventDateID t.TicketTypeID).isSome = true) ∧
      total = amount +
        (tiers.map fun t => unitPrice s.db req.EventDateID t.TicketTypeID * t.Quantity).sum ∧
      n = count + (tiers.map fun t => t.Quantity).sum := by
  induction tiers with
  | nil =>
    intro amount count total n s s1 h
    cases h
    simp
  | cons tier rest ih =>
    intro amount count total n s s1 h
    unfold gaReserve at h
    obtain ⟨rows, sa, hupd, hrest⟩ := Op.bind_ok h
    have hdba : sa.db = s.db :=
      ((txFrame_UpdateGATicketInventory _ _ _).of_eq hupd).1
    split at hrest
    · obtain ⟨lookup, sb, _, hfail⟩ := Op.bind_ok hrest
      cases hfail
    · obtain ⟨⟨p, rem⟩, sb, hget, hrest⟩ := Op.bind_ok hrest
      obtain ⟨r, hr, hp, _⟩ := getGATicketPriceAndRemaining_ok hget
      have hdbb : sb.db = sa.db :=
        ((keeps_GetGATicketPriceAndRemaining readFrame_stable _ _).of_eq hget).1
      obtain ⟨hall, htot, hn⟩ := ih _ _ _ _ _ _ hrest
      rw [hdbb, hdba] at hall htot
      rw [hdba] at hr
      refine ⟨?_, ?_, ?_⟩
      · intro x hx
        rcases List.mem_cons.mp hx with rfl | hx
        · rw [hr]; rfl
        · exact hall x hx
      · rw [htot, List.map_cons, List.sum_cons]
        have : unitPrice s.db req.EventDateID tier.TicketTypeID = p := by
          unfold unitPrice; rw [hr]; exact hp.symm
        rw [this]; ring
      · rw [hn, List.map_cons, List.sum_cons]; ring

theorem insertTicket_ok {eventID userID : String} {tt : Int} {toName : String} {ed : Int}
    {seat : Option Int} {s s1 : Sess} {id : Int}
    (h : insertTicket eventID userID tt toName ed seat s = (.ok id, s1)) :
    s1.tx.ticket = s.tx.ticket ++
      [{ ID := id, EventID := eventID, UserID := userID, TicketTypeID := tt,
         ToName := toName, EventDateID := ed, SeatID := seat }] ∧
    s1.tx.order_hast_tickets = s.tx.order_hast_tickets ∧
    s1.db = s.db ∧ id = s.nextTicketID ∧
    seatCollides s.tx.ticket ed seat = false := by
  have h1 := stmt_ok h
  rcases s with ⟨db, tx, no, nt, faults, trace⟩
  rcases tx with ⟨ev, ve, eds, tts, se, al, es, od, tk, ot⟩
  dsimp only at h1
  by_cases hc : seatCollides tk ed seat = true
  · rw [if_pos hc] at h1; cases h1
  · rw [if_neg hc] at h1
    cases h1
    exact ⟨rfl, rfl, rfl, rfl, by simpa using hc⟩

theorem insertOrderHasTicket_ok {orderID ticketID : Int} {s s1 : Sess} {u : Unit}
    (h : insertOrderHasTicket orderID ticketID s = (.ok u, s1)) :
    s1.tx.ticket = s.tx.ticket ∧
    s1.tx.order_hast_tickets = s.tx.order_hast_tickets ++
      [{ OrderID := orderID, TicketID := ticketID }] ∧
    s1.db = s.db := by
  have h1 := stmt_ok h
  rcases s with ⟨db, tx, no, nt, faults, trace⟩
  cases tx
  cases h1
  exact ⟨rfl, rfl, rfl⟩

theorem createTicket_ok {orderID : Int} {userID eventID : String} {ed tt seatID : Int}
    {toName : String} {s s1 : Sess} {id : Int}
    (h : CreateTicket orderID userID eventID ed tt seatID toName s = (.ok id, s1)) :
    s1.tx.ticket = s.tx.ticket ++
      [{ ID := id, EventID := eventID, UserID := userID, TicketTypeID := tt,
         ToName := toName, EventDateID := ed,
         SeatID := if seatID = 0 then none else some seatID }] ∧
    s1.tx.order_hast_tickets = s.tx.order_hast_tickets ++
      [{ OrderID := orderID, TicketID := id }] ∧
    s1.db = s.db := by
  unfold CreateTicket at h
  obtain ⟨tid, sa, hins, hrest⟩ := Op.bind_ok h
  obtain ⟨u, sb, hjoin, hpure⟩ := Op.bind_ok hrest
  cases hpure
  obtain ⟨ht1, hj1, hd1, _, _⟩ := insertTicket_ok hins
  obtain ⟨ht2, hj2, hd2⟩ := insertOrderHasTicket_ok hjoin
  exact ⟨by rw [ht2, ht1], by rw [hj2, hj1], by rw [hd2, hd1]⟩

theorem gaTierTickets_ok (req : BookingRequest) (ev us : String) (orderID : Int)
    (tier : TierBookingRequest) (n : Nat) :
    ∀ (acc tickets : List TicketResponse) (s s1 : Sess),
      gaTierTickets req ev us orderID tier n acc s = (.ok tickets, s1) →
      s1.tx.ticket.map Ticket.admission = s.tx.ticket.map Ticket.admission ++
        List.replicate n (req.EventDateID, tier.TicketTypeID, none) := by
  induction n with
  | zero =>
    intro acc tickets s s1 h
    cases h
    simp
  | succ n ih =>
    intro acc tickets s s1 h
    unfold gaTierTickets at h
    obtain ⟨tid, sa, hct, hrest⟩ := Op.bind_ok h
    obtain ⟨lookup, sb, hlook, hrest⟩ := Op.bind_ok hrest
    obtain ⟨hrow, _, _⟩ := createTicket_ok hct
    have hsb : sb.tx = sa.tx :=
      ((Op.keeps_attempt (keeps_GetTicketTypeByID readFrame_stable _)).of_eq hlook).2.1
    rw [ih _ _ _ _ hrest, hsb, hrow, List.map_append, List.replicate_succ,
      List.append_assoc]
    rfl

theorem gaTickets_ok (req : BookingRequest) (ev us : String) (orderID : Int)
    (tiers : List TierBookingRequest) :
    ∀ (acc tickets : List TicketResponse) (s s1 : Sess),
      gaTickets req ev us orderID tiers acc s = (.ok tickets, s1) →
      s1.tx.ticket.map Ticket.admission = s.tx.ticket.map Ticket.admission ++
        tiers.flatMap fun t =>
          List.replicate t.Quantity.toNat
            (req.EventDateID, t.TicketTypeID, (none : Option Int)) := by
  induction tiers with
  | nil =>
    intro acc tickets s s1 h
    cases h
    simp
  | cons tier rest ih =>
    intro acc tickets s s1 h
    unfold gaTickets at h
    obtain ⟨t1, sa, htier, hrest⟩ := Op.bind_ok h
    rw [ih _ _ _ _ hrest, gaTierTickets_ok _ _ _ _ _ _ _ _ _ _ htier,
      List.flatMap_cons, List.append_assoc]

theorem salesFrame_stable : Stable SalesFrame where
  refl := fun _ => ⟨rfl, rfl, rfl, rfl⟩
  trans := fun _ _ _ h1 h2 =>
    ⟨h2.1.trans h1.1, h2.2.1.trans h1.2.1, h2.2.2.1.trans h1.2.2.1,
      h2.2.2.2.trans h1.2.2.2⟩
  faults := fun _ => ⟨rfl, rfl, rfl, rfl⟩

theorem salesFrame_UpdateGATicketInventory (ed tt q : Int) :
    Op.Keeps SalesFrame (UpdateGATicketInventory ed tt q) := by
  apply keeps_stmt salesFrame_stable
  rintro ⟨db, tx, no, nt, faults, trace⟩
  cases tx
  exact ⟨rfl, rfl, rfl, rfl⟩

theorem orderFrame_of_salesFrame {s s1 : Sess} (h : SalesFrame s s1) : OrderFrame s s1 :=
  ⟨h.1, h.2.1⟩

theorem createOrder_ticket {u n : Int} {a p : String} {s s1 : Sess} {id : Int}
    (h : CreateOrder u n a p s = (.ok id, s1)) : s1.tx.ticket = s.tx.ticket := by
  have h1 := stmt_ok h
  rcases s with ⟨db, tx, no, nt, faults, trace⟩
  cases tx
  cases h1
  rfl

/-- The unit prices of the admissions of a GA request add up to the sum of price times
quantity when no quantity is below zero. -/
theorem sum_unitPrice_admissions (st : Store) (ed : Int) (tiers : List TierBookingRequest)
    (hq : ∀ t ∈ tiers, 0 ≤ t.Quantity) :
    ((tiers.flatMap fun t =>
        List.replicate t.Quantity.toNat (ed, t.TicketTypeID, (none : Option Int))).map
      fun a => unitPrice st a.1 a.2.1).sum =
    (tiers.map fun t => unitPrice st ed t.TicketTypeID * t.Quantity).sum := by
  induction tiers with
  | nil => rfl
  | cons t rest ih =>
    rw [List.flatMap_cons, List.map_append, List.sum_append, List.map_cons, List.sum_cons,
      ih fun x hx => hq x (List.mem_cons_of_mem _ hx)]
    congr 1
    rw [List.map_replicate, List.sum_replicate, nsmul_eq_mul, mul_comm]
    have := hq t (List.mem_cons_self _ _)
    congr 1
    exact Int.toNat_of_nonneg this

/-! ## C7: the total of a GA booking and quantities below zero -/

/-- What every successful `BookGATickets` call did: each tier has an allocation; the
returned total is the sum of unit price times quantity; the order row the transaction
wrote counts the sum of the quantities and stores the total as formatted by
`formatAmount`; the tickets written are, tier by tier, `max quantity 0` tickets of the
tier's type; the row and the tickets are committed when the trace records the commit,
in particular when the storage fails no statement. When no quantity is below zero the
total is the sum of the unit prices of the tickets written. -/
theorem ga_total_correct (req : BookingRequest) (s s3 : Sess) (resp : BookingResponse)
    (h : BookGATickets req s = (.ok resp, s3)) :
    (∀ t ∈ req.Tiers, (allocation s.db req.EventDateID t.TicketTypeID).isSome = true) ∧
    resp.TotalAmount =
      (req.Tiers.map fun t =>
        unitPrice s.db req.EventDateID t.TicketTypeID * t.Quantity).sum ∧
    s3.tx.order = s.db.order ++
      [{ ID := resp.OrderID, UserID := req.UserID,
         TotalTickets := (req.Tiers.map fun t => t.Quantity).sum,
         Amount := formatAmount resp.TotalAmount, PaymentSource := req.PaymentSource }] ∧
    s3.tx.ticket.map Ticket.admission =
      s.db.ticket.map Ticket.admission ++ gaAdmissions req ∧
    ((∀ t ∈ req.Tiers, 0 ≤ t.Quantity) →
      resp.TotalAmount = ((gaAdmissions req).map fun a => unitPrice s.db a.1 a.2.1).sum) ∧
    ((s3.trace.head? = some TxEvent.committed ∨ s.faults = []) → s3.db = s3.tx) := by
  obtain ⟨ed, s0, hl, _, hw⟩ := book_ga_ok h
  obtain ⟨s1, s2, hb, hfn, hs3⟩ := withTx_ok hw
  have hr0 : ReadFrame s s0 := (keeps_GetEventDateByID readFrame_stable _).of_eq hl
  have hf0 : NoFaults s s0 := (keeps_GetEventDateByID noFaults_stable _).of_eq hl
  obtain ⟨hdb1, htx1, _, _, hf1⟩ := beginx_ok hb
  have hf2 : NoFaults s1 s2 := (noFaults_gaBody req ed).of_eq hfn
  unfold gaBody at hfn
  obtain ⟨⟨total, n⟩, sa, hres, hrest⟩ := Op.bind_ok hfn
  have hsa : SalesFrame s1 sa :=
    (keeps_gaReserve salesFrame_stable _ _
      (fun _ _ => salesFrame_UpdateGATicketInventory _ _ _) _ _).of_eq hres
  obtain ⟨orderID, sb, horder, hrest⟩ := Op.bind_ok hrest
  obtain ⟨tickets, sc, htickets, hpure⟩ := Op.bind_ok hrest
  have hoc : OrderFrame sb sc :=
    (keeps_gaTickets orderFrame_stable orderFrame_insertTicket
      orderFrame_insertOrderHasTicket _ _ _ _ _ _).of_eq htickets
  cases hpure
  obtain ⟨hall, htot, hn⟩ := gaReserve_ok req req.Tiers 0 0 total n s1 sa hres
  obtain ⟨hrow, _, _⟩ := createOrder_ok horder
  have htk := gaTickets_ok _ _ _ _ _ _ _ _ _ htickets
  have hs1 : s1.db = s.db := by rw [hdb1, hr0.1]
  rw [hs1] at hall htot
  have htot2 : total =
      (req.Tiers.map fun t =>
        unitPrice s.db req.EventDateID t.TicketTypeID * t.Quantity).sum := by
    rw [htot]; ring
  have hn2 : n = (req.Tiers.map fun t => t.Quantity).sum := by rw [hn]; ring
  obtain ⟨hcdb, hctx⟩ := commit_db s2
  refine ⟨hall, htot2, ?_, ?_, ?_, ?_⟩
  · rw [hs3, hctx, hoc.2, hrow, hsa.2.1, htx1, hr0.1, hn2]
  · rw [hs3, hctx, htk, createOrder_ticket horder, hsa.2.2.1, htx1, hr0.1]
    rfl
  · intro hq
    rw [htot2]
    exact (sum_unitPrice_admissions s.db req.EventDateID req.Tiers hq).symm
  · intro hc
    rw [hs3, hctx]
    apply hcdb
    rcases hc with hc | hc
    · left; rw [← hs3]; exact hc
    · right; exact hf2 (hf1 (hf0 hc))

/-- The theorem above on the sample catalogue: two tickets at 25.00 and one at 40.00
make 90.00, stored as "90.00" with ticket count 3. -/
theorem ga_total_correct_witness :
    (BookGATickets (gaRequest 1 [⟨1, 2⟩, ⟨2, 1⟩]) (sampleSess [])).2.db.order =
      [{ ID := 1, UserID := 7, TotalTickets := 3, Amount := "90.00",
         PaymentSource := "tok_1" }] ∧
    (9000 : Int) = ((gaAdmissions (gaRequest 1 [⟨1, 2⟩, ⟨2, 1⟩])).map
      fun a => unitPrice (sampleSess []).db a.1 a.2.1).sum :=
  ⟨by rfl,
   (ga_total_correct (gaRequest 1 [⟨1, 2⟩, ⟨2, 1⟩]) (sampleSess [])
      (BookGATickets (gaRequest 1 [⟨1, 2⟩, ⟨2, 1⟩]) (sampleSess [])).2
      { OrderID := 1, TotalAmount := 9000,
        Tickets := [{ ID := 1, TicketType := "General", SeatLabel := none, ToName := "Ann" },
                    { ID := 2, TicketType := "General", SeatLabel := none, ToName := "Ann" },
                    { ID := 3, TicketType := "Premium", SeatLabel := none, ToName := "Ann" }] }
      (by rfl)).2.2.2.2.1 (by decide)⟩

/-- C7, evaluated where it fails. On the sample catalogue the GA request with tiers
(ticket type 1 at 25.00, quantity -1) and (ticket type 2 at 40.00, quantity 1) succeeds
with `TotalAmount` 15.00, the sum of price × quantity, and the order row stores "15.00"
with ticket count 0; the only ticket issued is one of ticket type 2, whose unit price is
40.00. -/
theorem negative_quantity_total :
    (BookGATickets (gaRequest 1 [⟨1, -1⟩, ⟨2, 1⟩]) (sampleSess [])).1 =
      .ok { OrderID := 1, TotalAmount := 1500,
            Tickets := [{ ID := 1, TicketType := "Premium", SeatLabel := none,
                          ToName := "Ann" }] } ∧
    (BookGATickets (gaRequest 1 [⟨1, -1⟩, ⟨2, 1⟩]) (sampleSess [])).2.db.order =
      [{ ID := 1, UserID := 7, TotalTickets := 0, Amount := "15.00",
         PaymentSource := "tok_1" }] ∧
    (BookGATickets (gaRequest 1 [⟨1, -1⟩, ⟨2, 1⟩]) (sampleSess [])).2.db.ticket =
      [{ ID := 1, EventID := "1", UserID := "7", TicketTypeID := 2, ToName := "Ann",
         EventDateID := 1, SeatID := none }] ∧
    ((BookGATickets (gaRequest 1 [⟨1, -1⟩, ⟨2, 1⟩]) (sampleSess [])).2.db.ticket.map
      fun t => unitPrice sampleStore t.EventDateID t.TicketTypeID).sum = 4000 :=
  ⟨by rfl, by rfl, by rfl, by rfl⟩

/-! ## C8: the total of a seated booking -/

/-- The total of a seated booking inside its transaction, with amounts in exact
hundredths: whenever `BookSeatedTickets` returns a response for a request over seats
s_1..s_n, every requested seat has a seat assignment for the occurrence, the returned
`TotalAmount` is the sum of the prices on those seat assignments, the order row the
transaction wrote carries the ticket count n and that total formatted by `formatAmount`
(sign, whole part, point and exactly two decimal digits spelling the total). The row
reaches the committed tables only when the commit takes effect, which a returned response
does not imply. -/
theorem seated_total_correct (req : BookingRequest) (s s3 : Sess) (resp : BookingResponse)
    (h : BookSeatedTickets req s = (.ok resp, s3)) :
    (∀ x ∈ req.Seats, (seatAssignment s.db req.EventDateID x.SeatID).isSome = true) ∧
    resp.TotalAmount =
      (req.Seats.map fun x => seatPrice s.db req.EventDateID x.SeatID).sum ∧
    s3.tx.order = s.db.order ++
      [{ ID := resp.OrderID, UserID := req.UserID, TotalTickets := req.Seats.length,
         Amount := formatAmount resp.TotalAmount, PaymentSource := req.PaymentSource }] ∧
    ((s3.trace.head? = some TxEvent.committed ∨ s.faults = []) → s3.db = s3.tx) ∧
    (∃ whole d1 d0 : Nat, d1 < 10 ∧ d0 < 10 ∧
      resp.TotalAmount.natAbs = whole * 100 + d1 * 10 + d0 ∧
      formatAmount resp.TotalAmount =
        (if resp.TotalAmount < 0 then "-" else "") ++ toString whole ++ "." ++
          (toString d1 ++ toString d0)) := by
  obtain ⟨ed, s0, hl, _, hw⟩ := book_seated_ok h
  obtain ⟨s1, s2, hb, hfn, hs3⟩ := withTx_ok hw
  have hr0 : ReadFrame s s0 := (keeps_GetEventDateByID readFrame_stable _).of_eq hl
  have hf0 : NoFaults s s0 := (keeps_GetEventDateByID noFaults_stable _).of_eq hl
  obtain ⟨hdb1, htx1, _, _, hf1⟩ := beginx_ok hb
  have hf2 : NoFaults s1 s2 := (noFaults_seatedBody req ed).of_eq hfn
  unfold seatedBody at hfn
  obtain ⟨booked, sa, hcheck, hrest⟩ := Op.bind_ok hfn
  have hra : ReadFrame s1 sa := (keeps_CheckSeatAvailability readFrame_stable _ _).of_eq hcheck
  split at hrest
  · cases hrest
  · obtain ⟨total, sb, htotal, hrest⟩ := Op.bind_ok hrest
    have hrb : ReadFrame sa sb := (keeps_seatedTotal readFrame_stable _ _ _).of_eq htotal
    obtain ⟨orderID, sc, horder, hrest⟩ := Op.bind_ok hrest
    obtain ⟨tickets, sd, htickets, hpure⟩ := Op.bind_ok hrest
    have hod : OrderFrame sc sd :=
      (keeps_seatedTickets orderFrame_stable orderFrame_insertTicket
        orderFrame_insertOrderHasTicket _ _ _ _ _ _).of_eq htickets
    cases hpure
    obtain ⟨hall, htot⟩ := seatedTotal_ok req req.Seats 0 total sa sb htotal
    obtain ⟨hrow, _, _⟩ := createOrder_ok horder
    have hsa : sa.db = s.db := by rw [hra.1, hdb1, hr0.1]
    rw [hsa] at hall htot
    have htot2 : total =
        (req.Seats.map fun x => seatPrice s.db req.EventDateID x.SeatID).sum := by
      rw [htot]; ring
    obtain ⟨hcdb, hctx⟩ := commit_db s2
    refine ⟨hall, htot2, ?_, ?_, formatAmount_two_decimals _⟩
    · rw [hs3, hctx, hod.2, hrow, hrb.2.1, hra.2.1, htx1, hr0.1]
    · intro hc
      rw [hs3, hctx]
      apply hcdb
      rcases hc with hc | hc
      · left; rw [← hs3]; exact hc
      · right; exact hf2 (hf1 (hf0 hc))

/-- Seats 1 (40.00) and 2 (55.00) of occurrence 2 of the sample catalogue:
the total is 95.00, the order row counts 2 tickets and stores "95.00". -/
theorem seated_total_correct_witness :
    (BookSeatedTickets (seatedRequest 2 [⟨1, 2⟩, ⟨2, 2⟩]) (sampleSess [])).1.toOption.map
      (fun r => r.TotalAmount) = some 9500 ∧
    (BookSeatedTickets (seatedRequest 2 [⟨1, 2⟩, ⟨2, 2⟩]) (sampleSess [])).2.db.order =
      [{ ID := 1, UserID := 7, TotalTickets := 2, Amount := "95.00",
         PaymentSource := "tok_1" }] ∧
    ((BookSeatedTickets (seatedRequest 2 [⟨1, 2⟩, ⟨2, 2⟩]) (sampleSess [])).2.trace.head? =
        some TxEvent.committed ∨ (sampleSess []).faults = [] →
      (BookSeatedTickets (seatedRequest 2 [⟨1, 2⟩, ⟨2, 2⟩]) (sampleSess [])).2.db =
        (BookSeatedTickets (seatedRequest 2 [⟨1, 2⟩, ⟨2, 2⟩]) (sampleSess [])).2.tx) :=
  ⟨by rfl, by rfl,
   (seated_total_correct (seatedRequest 2 [⟨1, 2⟩, ⟨2, 2⟩]) (sampleSess [])
      (BookSeatedTickets (seatedRequest 2 [⟨1, 2⟩, ⟨2, 2⟩]) (sampleSess [])).2
      { OrderID := 1, TotalAmount := 9500,
        Tickets := [{ ID := 1, TicketType := "Premium", SeatLabel := some "A11",
                      ToName := "Ann" },
                    { ID := 2, TicketType := "Premium", SeatLabel := some "A12",
                      ToName := "Ann" }] }
      (by rfl)).2.2.2.1⟩

/-- C8, evaluated where it fails. On the sample catalogue, when the storage fails the
final commit, `BookSeatedTickets` for seat 2 (55.00) of occurrence 2 returns its response
with `TotalAmount` 55.00 and one ticket, without error, while the committed `order` table
holds no row: there is no stored order whose ticket count is 1 and whose amount is
"55.00". The row existed only in the transaction that was not committed; the same call
on a storage that does not fail stores it. -/
theorem seated_total_reported_without_order_row :
    (BookSeatedTickets (seatedRequest 2 [⟨2, 2⟩])
        (sampleSess (List.replicate 10 none ++ [some (Error.driver "commit failed")]))).1 =
      .ok { OrderID := 1, TotalAmount := 5500,
            Tickets := [{ ID := 1, TicketType := "Premium", SeatLabel := some "A12",
                          ToName := "Ann" }] } ∧
    (BookSeatedTickets (seatedRequest 2 [⟨2, 2⟩])
        (sampleSess (List.replicate 10 none ++
          [some (Error.driver "commit failed")]))).2.db.order = [] ∧
    (BookSeatedTickets (seatedRequest 2 [⟨2, 2⟩])
        (sampleSess (List.replicate 10 none ++
          [some (Error.driver "commit failed")]))).2.trace.head? =
      some TxEvent.commitFailed ∧
    (BookSeatedTickets (seatedRequest 2 [⟨2, 2⟩]) (sampleSess [])).2.db.order =
      [{ ID := 1, UserID := 7, TotalTickets := 1, Amount := "55.00",
         PaymentSource := "tok_1" }] :=
  ⟨by rfl, by rfl, by rfl, by rfl⟩

/-! ## C9, C10: resolving the occurrence -/

theorem readFrame_GetEventDateByID (id : Int) (s : Sess) :
    ReadFrame s (GetEventDateByID id s).2 :=
  keeps_GetEventDateByID readFrame_stable id s

/-- C9. Mode enforcement: for every occurrence the lookup resolves whose seating mode is
not "GA", `BookGATickets` fails with its mode-mismatch error for every request, and for
every occurrence whose seating mode is not "SEATED", `BookSeatedTickets` fails with its
mode-mismatch error; no transaction is opened (the session is the one the lookup left:
committed tables, working tables, counters and transaction trace are unchanged), and the
error is not, and does not wrap, `ErrNotFound`, `ErrInsufficientInventory` or
`ErrSeatAlreadyTaken`. -/
theorem mode_enforcement (req : BookingRequest) (s s1 : Sess) (eventDate : EventDate)
    (hlookup : GetEventDateByID req.EventDateID s = (.ok eventDate, s1)) :
    (eventDate.SeatingMode ≠ "GA" →
      BookGATickets req s = (.error (Error.Errorf "event date is not GA mode"), s1)) ∧
    (eventDate.SeatingMode ≠ "SEATED" →
      BookSeatedTickets req s =
        (.error (Error.Errorf "event date is not SEATED mode"), s1)) ∧
    (s1.db = s.db ∧ s1.tx = s.tx ∧ s1.nextOrderID = s.nextOrderID ∧
      s1.nextTicketID = s.nextTicketID ∧ s1.trace = s.trace) ∧
    (∀ err ∈ [Error.Errorf "event date is not GA mode",
              Error.Errorf "event date is not SEATED mode"],
      ∀ target ∈ [Error.ErrNotFound, Error.ErrInsufficientInventory,
                  Error.ErrSeatAlreadyTaken],
        err ≠ target ∧ err.Is target = false) := by
  have hframe := readFrame_GetEventDateByID req.EventDateID s
  rw [hlookup] at hframe
  refine ⟨fun hm => ?_, fun hm => ?_, hframe, ?_⟩
  · simp only [BookGATickets, hlookup]; rw [if_pos hm]
  · simp only [BookSeatedTickets, hlookup]; rw [if_pos hm]
  · decide

/-- Witness of C9: a GA request against the seated occurrence 2 and a seated request
against the GA occurrence 1 of the sample catalogue. -/
theorem mode_enforcement_witness :
    BookGATickets (gaRequest 2 [⟨1, 1⟩]) (sampleSess []) =
      (.error (Error.Errorf "event date is not GA mode"), sampleSess []) ∧
    BookSeatedTickets (seatedRequest 1 [⟨1, 2⟩]) (sampleSess []) =
      (.error (Error.Errorf "event date is not SEATED mode"), sampleSess []) :=
  ⟨(mode_enforcement (gaRequest 2 [⟨1, 1⟩]) (sampleSess []) (sampleSess [])
      { ID := 2, IDVenue := 1, TotalTickets := 2, EventID := 1, SeatingMode := "SEATED" }
      rfl).1 (by decide),
   (mode_enforcement (seatedRequest 1 [⟨1, 2⟩]) (sampleSess []) (sampleSess [])
      { ID := 1, IDVenue := 1, TotalTickets := 7, EventID := 1, SeatingMode := "GA" }
      rfl).2.1 (by decide)⟩

/-- C10. NotFound: when the occurrence lookup yields no row (`sql.ErrNoRows`), both
`BookGATickets` and `BookSeatedTickets` return exactly the sentinel `ErrNotFound`, with
no response, and leave the session as the lookup left it (committed tables, working
tables, counters and trace unchanged); any other lookup error is returned unchanged.
The lookup yields no row whenever no `event_date` row joined with its event has the
requested id and the storage does not fail the query. -/
theorem not_found (req : BookingRequest) (s s1 : Sess) :
    (GetEventDateByID req.EventDateID s = (.error Error.ErrNoRows, s1) →
      BookGATickets req s = (.error Error.ErrNotFound, s1) ∧
      BookSeatedTickets req s = (.error Error.ErrNotFound, s1) ∧
      s1.db = s.db ∧ s1.tx = s.tx ∧ s1.trace = s.trace) ∧
    (∀ e, GetEventDateByID req.EventDateID s = (.error e, s1) → e ≠ Error.ErrNoRows →
      BookGATickets req s = (.error e, s1) ∧
      BookSeatedTickets req s = (.error e, s1) ∧
      s1.db = s.db ∧ s1.tx = s.tx ∧ s1.trace = s.trace) ∧
    (eventDateRows s.db req.EventDateID = [] → s.pendingFault = none →
      GetEventDateByID req.EventDateID s =
        (.error Error.ErrNoRows, { s with faults := s.faults.tail })) := by
  have hframe := readFrame_GetEventDateByID req.EventDateID s
  refine ⟨fun h => ?_, fun e h hne => ?_, fun hrows hrun => ?_⟩
  · rw [h] at hframe
    refine ⟨?_, ?_, hframe.1, hframe.2.1, hframe.2.2.2.2⟩
    · simp only [BookGATickets, h, if_true]
    · simp only [BookSeatedTickets, h, if_true]
  · rw [h] at hframe
    refine ⟨?_, ?_, hframe.1, hframe.2.1, hframe.2.2.2.2⟩
    · simp only [BookGATickets, h]; rw [if_neg hne]
    · simp only [BookSeatedTickets, h]; rw [if_neg hne]
  · unfold GetEventDateByID
    rw [stmt_of_no_fault _ s hrun]
    simp only [hrows]

/-- Witness of C10: occurrence 99 is not in the sample catalogue, so both calls return
`ErrNotFound`; and a lookup of occurrence 1 that the storage fails with a timeout is
reported with that very error. -/
theorem not_found_witness :
    BookGATickets (gaRequest 99 [⟨1, 1⟩]) (sampleSess []) =
      (.error Error.ErrNotFound, sampleSess []) ∧
    BookSeatedTickets (gaRequest 99 [⟨1, 1⟩]) (sampleSess []) =
      (.error Error.ErrNotFound, sampleSess []) ∧
    BookGATickets (gaRequest 1 [⟨1, 1⟩]) (sampleSess [some (Error.driver "i/o timeout")]) =
      (.error (Error.driver "i/o timeout"), sampleSess []) ∧
    GetEventDateByID (gaRequest 99 [⟨1, 1⟩]).EventDateID (sampleSess []) =
      (.error Error.ErrNoRows, { sampleSess [] with faults := (sampleSess []).faults.tail }) :=
  ⟨((not_found (gaRequest 99 [⟨1, 1⟩]) (sampleSess []) (sampleSess [])).1 rfl).1,
   ((not_found (gaRequest 99 [⟨1, 1⟩]) (sampleSess []) (sampleSess [])).1 rfl).2.1,
   ((not_found (gaRequest 1 [⟨1, 1⟩]) (sampleSess [some (Error.driver "i/o timeout")])
      (sampleSess [])).2.1 (Error.driver "i/o timeout") rfl (by decide)).1,
   (not_found (gaRequest 99 [⟨1, 1⟩]) (sampleSess []) (sampleSess [])).2.2 rfl rfl⟩

/-! ## C11: the remaining count in the InsufficientInventory error -/

/-- C11, evaluated where it fails. On the sample catalogue (ticket type 2: 5 left) the GA
request with tiers (ticket type 2, quantity 1) and (ticket type 2, quantity 5) fails at
its second tier with an error wrapping `ErrInsufficientInventory` that carries the
ticket type 2 and the quantity 5, but the remaining count it reports is 5, the committed
count read on the pool, while inside the transaction the first tier had already brought
the count down to 4. -/
theorem insufficient_inventory_reports_committed_count :
    (BookGATickets (gaRequest 1 [⟨2, 1⟩, ⟨2, 5⟩]) (sampleSess [])).1 =
      .error (Error.Wrapf Error.ErrInsufficientInventory
        "INSUFFICIENT_INVENTORY: Not enough tickets left for ticket type 2 (remaining: 5, requested: 5)") ∧
    ((BookGATickets (gaRequest 1 [⟨2, 1⟩, ⟨2, 5⟩])
        (sampleSess [])).2.tx.event_date_has_ticket_type.map
      fun r => (r.TicketTypeID, r.RemainingTickets)) = [(1, 2), (2, 4)] ∧
    ((BookGATickets (gaRequest 1 [⟨2, 1⟩, ⟨2, 5⟩])
        (sampleSess [])).2.db.event_date_has_ticket_type.map
      fun r => (r.TicketTypeID, r.RemainingTickets)) = [(1, 2), (2, 5)] :=
  ⟨by rfl, by rfl, by rfl⟩

/-! ## Running statements the storage does not fail -/

theorem Sess.quietFor_succ {n : Nat} {s : Sess} (h : s.quietFor (n + 1)) :
    s.pendingFault = none ∧ s.next.quietFor n := by
  rcases s with ⟨db, tx, no, nt, faults, trace⟩
  rcases faults with _ | ⟨f, rest⟩
  · exact ⟨rfl, fun f hf => by simp [Sess.next] at hf⟩
  · have hf : f = none := h f (by simp [List.take])
    subst hf
    refine ⟨rfl, fun g hg => h g ?_⟩
    simp only [Sess.next, List.tail_cons] at hg
    simp [List.take, hg]

theorem Sess.quietFor_of_nil {s : Sess} (h : s.faults = []) (n : Nat) : s.quietFor n := by
  intro f hf
  rw [h] at hf
  simp at hf

theorem Sess.quietFor_begun {n : Nat} {s : Sess} (h : s.next.quietFor n) :
    s.begun.quietFor n := h

theorem stmt_run {α : Type} (exec : Sess → Except Error α × Sess) {s : Sess}
    (h : s.pendingFault = none) : stmt exec s = exec s.next :=
  stmt_of_no_fault exec s h

theorem Op.bind_of_ok {α β : Type} {m : Op α} {f : α → Op β} {s s1 : Sess} {a : α}
    (h : m s = (.ok a, s1)) : (m >>= f) s = f a s1 := by
  rw [Op.bind_apply, h]

theorem Op.bind_of_error {α β : Type} {m : Op α} {f : α → Op β} {s s1 : Sess} {e : Error}
    (h : m s = (.error e, s1)) : (m >>= f) s = (.error e, s1) := by
  rw [Op.bind_apply, h]

theorem getEventDateByID_run {id : Int} {s : Sess} {ed : EventDate} {e : Event} {v : Venue}
    {rest : List (EventDate × Event × Option Venue)}
    (hrows : eventDateRows s.db id = (ed, e, some v) :: rest)
    (h : s.pendingFault = none) :
    GetEventDateByID id s = (.ok ed, s.next) := by
  unfold GetEventDateByID
  rw [stmt_run _ h]
  have : s.next.db = s.db := rfl
  simp only [this, hrows]

theorem beginx_run {s : Sess} (h : s.pendingFault = none) :
    Beginx s = (.ok (), s.begun) := by
  unfold Beginx
  rw [stmt_run _ h]
  rfl

theorem checkSeatAvailability_run {ed : Int} {ids : List Int} {s : Sess}
    (hids : ids ≠ []) (h : s.pendingFault = none) :
    CheckSeatAvailability ed ids s = (.ok (bookedSeatIDs s.db ed ids), s.next) := by
  unfold CheckSeatAvailability
  rw [if_neg (by simpa using hids), stmt_run _ h]
  rfl

theorem mem_bookedSeatIDs (st : Store) (ed : Int) (ids : List Int) (x : Int) :
    x ∈ bookedSeatIDs st ed ids ↔
      x ∈ ids ∧ ∃ t ∈ st.ticket, t.EventDateID = ed ∧ t.SeatID = some x := by
  unfold bookedSeatIDs
  rw [List.mem_filterMap]
  constructor
  · rintro ⟨t, ht, hx⟩
    rcases hs : t.SeatID with _ | sid
    · rw [hs] at hx; cases hx
    · rw [hs] at hx
      dsimp only at hx
      split at hx
      · rename_i hc
        cases hx
        simp only [Bool.and_eq_true, decide_eq_true_eq, List.contains_iff_exists_mem_beq, beq_iff_eq] at hc
        obtain ⟨y, hy, rfl⟩ := hc.2
        exact ⟨hy, t, ht, hc.1, hs⟩
      · cases hx
  · rintro ⟨hx, t, ht, hed, hs⟩
    refine ⟨t, ht, ?_⟩
    rw [hs]
    dsimp only
    rw [if_pos]
    simp only [Bool.and_eq_true, decide_eq_true_eq, List.contains_iff_exists_mem_beq, beq_iff_eq]
    exact ⟨hed, x, hx, rfl⟩

/-! ## C16: the seat pre-check -/

theorem withTx_of_body_error {α : Type} {fn : Op α} {s s1 s2 : Sess} {e : Error}
    (hb : Beginx s = (.ok (), s1)) (hf : fn s1 = (.error e, s2)) :
    WithTx fn s = (.error e, (Rollback s2).2) := by
  simp only [WithTx, hb, hf]

theorem withTx_of_body_ok {α : Type} {fn : Op α} {s s1 s2 : Sess} {a : α}
    (hb : Beginx s = (.ok (), s1)) (hf : fn s1 = (.ok a, s2)) :
    WithTx fn s = (.ok a, (Commit s2).2) := by
  simp only [WithTx, hb, hf]

theorem bookSeated_of_lookup {req : BookingRequest} {s s1 : Sess} {ed : EventDate}
    (hl : GetEventDateByID req.EventDateID s = (.ok ed, s1))
    (hmode : ed.SeatingMode = "SEATED") :
    BookSeatedTickets req s = WithTx (seatedBody req ed) s1 := by
  simp only [BookSeatedTickets, hl]
  rw [if_neg (not_not.mpr hmode)]

theorem bookGA_of_lookup {req : BookingRequest} {s s1 : Sess} {ed : EventDate}
    (hl : GetEventDateByID req.EventDateID s = (.ok ed, s1))
    (hmode : ed.SeatingMode = "GA") :
    BookGATickets req s = WithTx (gaBody req ed) s1 := by
  simp only [BookGATickets, hl]
  rw [if_neg (not_not.mpr hmode)]

/-- C16. Seat pre-check. `CheckSeatAvailability` returns the empty list for an empty
request, without a statement; for a request that is not empty and a query the storage
does not fail, it returns exactly the requested seat ids that an existing ticket of the
occurrence references. And for every request against a resolved SEATED occurrence in
which at least one requested seat already has a ticket for the occurrence (the storage
failing none of the three statements up to the pre-check), `BookSeatedTickets` fails
with the error wrapping `ErrSeatAlreadyTaken` and the committed tables are unchanged:
none of the requested seats is booked, free or not. -/
theorem seat_precheck :
    (∀ (eventDateID : Int) (s : Sess),
      CheckSeatAvailability eventDateID [] s = (.ok [], s)) ∧
    (∀ (eventDateID : Int) (seatIDs : List Int) (s : Sess),
      seatIDs ≠ [] → s.pendingFault = none →
      ∃ booked, CheckSeatAvailability eventDateID seatIDs s = (.ok booked, s.next) ∧
        ∀ x, x ∈ booked ↔
          x ∈ seatIDs ∧
            ∃ t ∈ s.db.ticket, t.EventDateID = eventDateID ∧ t.SeatID = some x) ∧
    (∀ (req : BookingRequest) (s : Sess) (ed : EventDate) (e : Event) (v : Venue)
        (rest : List (EventDate × Event × Option Venue)),
      eventDateRows s.db req.EventDateID = (ed, e, some v) :: rest →
      ed.SeatingMode = "SEATED" →
      s.quietFor 3 →
      (∃ x ∈ req.Seats, ∃ t ∈ s.db.ticket,
        t.EventDateID = req.EventDateID ∧ t.SeatID = some x.SeatID) →
      ∃ s1, BookSeatedTickets req s = (.error seatTaken, s1) ∧ s1.db = s.db ∧
        seatTaken.Is Error.ErrSeatAlreadyTaken = true) := by
  refine ⟨fun _ _ => rfl, fun ed ids s hids hp => ?_, ?_⟩
  · exact ⟨_, checkSeatAvailability_run hids hp, mem_bookedSeatIDs s.db ed ids⟩
  · intro req s ed e v rest hrows hmode hquiet ⟨x, hx, t, ht, hted, htseat⟩
    obtain ⟨hp0, hq2⟩ := Sess.quietFor_succ hquiet
    obtain ⟨hp1, hq1⟩ := Sess.quietFor_succ hq2
    have hl := getEventDateByID_run hrows hp0
    have hb := beginx_run hp1
    have hp2 : s.next.begun.pendingFault = none :=
      (Sess.quietFor_succ (Sess.quietFor_begun hq1)).1
    have hids : req.Seats.map (fun x => x.SeatID) ≠ [] := by
      intro h
      rw [List.map_eq_nil_iff] at h
      rw [h] at hx
      cases hx
    have hcheck := @checkSeatAvailability_run req.EventDateID _ _ hids hp2
    have hmem : x.SeatID ∈ bookedSeatIDs s.db req.EventDateID
        (req.Seats.map fun x => x.SeatID) :=
      (mem_bookedSeatIDs _ _ _ _).mpr ⟨List.mem_map_of_mem _ hx, t, ht, hted, htseat⟩
    have hlen : (bookedSeatIDs s.db req.EventDateID
        (req.Seats.map fun x => x.SeatID)).length > 0 := List.length_pos_of_mem hmem
    have hbody : seatedBody req ed s.next.begun = (.error seatTaken, s.next.begun.next) := by
      unfold seatedBody
      rw [Op.bind_of_ok hcheck]
      have : s.next.begun.db = s.db := rfl
      rw [this, if_pos hlen]
      rfl
    refine ⟨(Rollback s.next.begun.next).2, ?_, ?_, by decide⟩
    · rw [bookSeated_of_lookup hl hmode]
      exact withTx_of_body_error hb hbody
    · rw [rollback_db]
      rfl

/-- Witness of C16: on the sample catalogue after seat 1 was booked, the pre-check for
seats 1 and 2 returns seat 1, and the request for seats 2 and 1 fails with
`ErrSeatAlreadyTaken` wrapped, leaving seat 2 unbooked. -/
theorem seat_precheck_witness :
    CheckSeatAvailability 2 [1, 2]
        (BookSeatedTickets (seatedRequest 2 [⟨1, 2⟩]) (sampleSess [])).2 =
      (.ok [1], (BookSeatedTickets (seatedRequest 2 [⟨1, 2⟩]) (sampleSess [])).2.next) ∧
    (∃ s1, BookSeatedTickets (seatedRequest 2 [⟨2, 2⟩, ⟨1, 2⟩])
        (BookSeatedTickets (seatedRequest 2 [⟨1, 2⟩]) (sampleSess [])).2 =
          (.error seatTaken, s1) ∧
      s1.db = (BookSeatedTickets (seatedRequest 2 [⟨1, 2⟩]) (sampleSess [])).2.db ∧
      seatTaken.Is Error.ErrSeatAlreadyTaken = true) ∧
    (BookSeatedTickets (seatedRequest 2 [⟨1, 2⟩]) (sampleSess [])).2.db.ticket.map
      (fun t => t.SeatID) = [some 1] :=
  ⟨by rfl,
   seat_precheck.2.2 (seatedRequest 2 [⟨2, 2⟩, ⟨1, 2⟩])
     (BookSeatedTickets (seatedRequest 2 [⟨1, 2⟩]) (sampleSess [])).2
     { ID := 2, IDVenue := 1, TotalTickets := 2, EventID := 1, SeatingMode := "SEATED" }
     { ID := 1, Slug := "gala", Title := "Gala", Description := "" }
     { ID := 1, Name := "Hall", Capacity := 100 } [] (by rfl) rfl (by decide)
     ⟨⟨1, 2⟩, by decide,
      { ID := 1, EventID := "1", UserID := "7", TicketTypeID := 2, ToName := "Ann",
        EventDateID := 2, SeatID := some 1 }, by decide, rfl, rfl⟩,
   by rfl⟩

/-! ## C17: the uniqueness constraint is authoritative -/

theorem isPrefixOf_append_right {sub a : List Char} (b : List Char)
    (h : sub.isPrefixOf a = true) : sub.isPrefixOf (a ++ b) = true := by
  induction sub generalizing a with
  | nil => simp
  | cons x xs ih =>
    cases a with
    | nil => simp at h
    | cons y ys =>
      rw [List.cons_append, List.isPrefixOf_cons₂] at *
      rw [Bool.and_eq_true] at *
      exact ⟨h.1, ih h.2⟩

theorem containsChars_nil (l : List Char) : containsChars l [] = true := by
  cases l <;> simp [containsChars]

theorem containsChars_append_right {a sub : List Char} (b : List Char)
    (h : containsChars a sub = true) : containsChars (a ++ b) sub = true := by
  induction a with
  | nil =>
    have : sub = [] := by simpa [containsChars] using h
    rw [this]
    exact containsChars_nil _
  | cons c a ih =>
    rw [List.cons_append]
    unfold containsChars at h ⊢
    rw [Bool.or_eq_true] at h ⊢
    rcases h with h | h
    · left
      rw [← List.cons_append]
      exact isPrefixOf_append_right b h
    · right
      exact ih h

theorem stringsContains_append_right {a sub : String} (b : String)
    (h : stringsContains a sub = true) : stringsContains (a ++ b) sub = true := by
  unfold stringsContains at *
  show containsChars (a ++ b).data sub.data = true
  rw [String.data_append]
  exact containsChars_append_right _ h

/-- The duplicate-entry error of the unique key is recognised by
`isUniqueConstraintError`, whatever the occurrence and the seat. -/
theorem isUniqueConstraintError_duplicateEntry (ed : Int) (seat : Option Int) :
    isUniqueConstraintError (some (duplicateEntry ed seat)) = true := by
  unfold isUniqueConstraintError duplicateEntry
  simp only [Error.text, Bool.or_eq_true]
  left; left
  apply stringsContains_append_right
  apply stringsContains_append_right
  apply stringsContains_append_right
  apply stringsContains_append_right
  decide

/-! ## Running a booking the storage does not fail -/

theorem stmt_quiet {α : Type} (exec : Sess → Except Error α × Sess) {s : Sess}
    (h : s.faults = []) : stmt exec s = exec s := by
  rcases s with ⟨db, tx, no, nt, faults, trace⟩
  simp only at h
  subst h
  rfl

theorem getSeatPriceAndTicketType_quiet {ed sid : Int} {s : Sess} {r : EventDateHasSeat}
    (h : s.faults = []) (ha : seatAssignment s.db ed sid = some r) :
    GetSeatPriceAndTicketType ed sid s = (.ok (r.Price, r.TicketTypeID), s) := by
  unfold GetSeatPriceAndTicketType
  rw [stmt_quiet _ h]
  simp only [ha]

theorem attempt_getSeatByID_quiet {id : Int} {s : Sess} (h : s.faults = []) :
    Op.attempt (GetSeatByID id) s = (.ok (seatLookup s.db id), s) := by
  unfold Op.attempt GetSeatByID
  rw [stmt_quiet _ h]
  unfold seatLookup
  cases s.db.seat.find? fun t => t.ID = id <;> rfl

theorem attempt_getTicketTypeByID_quiet {id : Int} {s : Sess} (h : s.faults = []) :
    Op.attempt (GetTicketTypeByID id) s = (.ok (ticketTypeLookup s.db id), s) := by
  unfold Op.attempt GetTicketTypeByID
  rw [stmt_quiet _ h]
  unfold ticketTypeLookup
  cases s.db.ticket_type.find? fun t => t.ID = id <;> rfl

theorem createTicket_quiet {orderID : Int} {userID eventID : String} {ed tt seatID : Int}
    {toName : String} {s : Sess} (h : s.faults = [])
    (hc : seatCollides s.tx.ticket ed (seatValue seatID) = false) :
    ∃ s1, CreateTicket orderID userID eventID ed tt seatID toName s =
        (.ok s.nextTicketID, s1) ∧
      s1.faults = [] ∧ s1.db = s.db ∧
      s1.tx.ticket = s.tx.ticket ++
        [{ ID := s.nextTicketID, EventID := eventID, UserID := userID, TicketTypeID := tt,
           ToName := toName, EventDateID := ed, SeatID := seatValue seatID }] ∧
      s1.tx.order_hast_tickets = s.tx.order_hast_tickets ++
        [{ OrderID := orderID, TicketID := s.nextTicketID }] ∧
      s1.tx.event_date_has_ticket_type = s.tx.event_date_has_ticket_type ∧
      s1.tx.order = s.tx.order := by
  rcases s with ⟨db, tx, no, nt, faults, trace⟩
  simp only at h
  subst h
  rcases tx with ⟨a1, a2, a3, a4, a5, a6, a7, a8, a9, a10⟩
  simp only [seatValue] at hc
  simp only [CreateTicket, Op.bind_apply, insertTicket, stmt, hc, insertOrderHasTicket,
    Op.pure_apply, seatValue]
  exact ⟨_, rfl, rfl, rfl, rfl, rfl, rfl, rfl⟩

theorem createTicket_collides {orderID : Int} {userID eventID : String} {ed tt seatID : Int}
    {toName : String} {s : Sess} (h : s.faults = [])
    (hc : seatCollides s.tx.ticket ed (seatValue seatID) = true) :
    CreateTicket orderID userID eventID ed tt seatID toName s =
      (.error (duplicateEntry ed (seatValue seatID)), s) := by
  rcases s with ⟨db, tx, no, nt, faults, trace⟩
  simp only at h
  subst h
  simp only [seatValue] at hc
  simp only [CreateTicket, Op.bind_apply, insertTicket, stmt, hc, seatValue]
  rfl
theorem createOrder_quiet {u n : Int} {a p : String} {s : Sess} (h : s.faults = []) :
    ∃ s1, CreateOrder u n a p s = (.ok s.nextOrderID, s1) ∧
      s1.faults = [] ∧ s1.db = s.db ∧
      s1.tx.order = s.tx.order ++
        [{ ID := s.nextOrderID, UserID := u, TotalTickets := n, Amount := a,
           PaymentSource := p }] ∧
      s1.tx.ticket = s.tx.ticket ∧
      s1.tx.order_hast_tickets = s.tx.order_hast_tickets ∧
      s1.tx.event_date_has_ticket_type = s.tx.event_date_has_ticket_type ∧
      s1.nextTicketID = s.nextTicketID := by
  rcases s with ⟨db, tx, no, nt, faults, trace⟩
  simp only at h
  subst h
  rcases tx with ⟨a1, a2, a3, a4, a5, a6, a7, a8, a9, a10⟩
  exact ⟨_, rfl, rfl, rfl, rfl, rfl, rfl, rfl, rfl⟩

theorem seatedTotal_quiet (req : BookingRequest) (seats : List SeatBookingRequest) :
    ∀ (amount : Int) (s : Sess), s.faults = [] →
      (∀ x ∈ seats, (seatAssignment s.db req.EventDateID x.SeatID).isSome = true) →
      seatedTotal req seats amount s =
        (.ok (amount + (seats.map fun x => seatPrice s.db req.EventDateID x.SeatID).sum),
          s) := by
  induction seats with
  | nil => intro amount s _ _; simp [seatedTotal, Op.pure_apply]
  | cons x rest ih =>
    intro amount s h ha
    obtain ⟨r, hr⟩ := Option.isSome_iff_exists.mp (ha x (List.mem_cons_self _ _))
    unfold seatedTotal
    rw [Op.bind_of_ok (getSeatPriceAndTicketType_quiet h hr)]
    show seatedTotal req rest (amount + r.Price) s = _
    rw [ih _ s h fun y hy => ha y (List.mem_cons_of_mem _ hy)]
    simp only [List.map_cons, List.sum_cons, seatPrice, hr, add_assoc]

theorem getEventDateByID_quiet {id : Int} {s : Sess} {ed : EventDate} {e : Event} {v : Venue}
    {rest : List (EventDate × Event × Option Venue)}
    (hrows : eventDateRows s.db id = (ed, e, some v) :: rest) (h : s.faults = []) :
    GetEventDateByID id s = (.ok ed, s) := by
  unfold GetEventDateByID
  rw [stmt_quiet _ h]
  simp only [hrows]

theorem beginx_quiet {s : Sess} (h : s.faults = []) :
    Beginx s = (.ok (), s.begun) ∧ s.begun.faults = [] := by
  unfold Beginx
  rw [stmt_quiet _ h]
  rcases s with ⟨db, tx, no, nt, faults, trace⟩
  simp only at h
  subst h
  exact ⟨rfl, rfl⟩

theorem createSeatTicket_collides {req : BookingRequest} {ev us : String}
    {orderID tt seatID : Int} {s : Sess} (h : s.pendingFault = none)
    (hc : seatCollides s.tx.ticket req.EventDateID (seatValue seatID) = true) :
    createSeatTicket req ev us orderID tt seatID s = (.error seatTaken, s.next) := by
  have hct : CreateTicket orderID us ev req.EventDateID tt seatID req.CustomerName s =
      (.error (duplicateEntry req.EventDateID (seatValue seatID)), s.next) := by
    simp only [CreateTicket, Op.bind_apply, insertTicket]
    rw [stmt_run _ h]
    rcases s with ⟨db, tx, no, nt, faults, trace⟩
    simp only [seatValue] at hc
    simp only [Sess.next, hc, seatValue]
    rfl
  unfold createSeatTicket
  simp only [hct, isUniqueConstraintError_duplicateEntry]
  rfl

theorem createSeatTicket_quiet {req : BookingRequest} {ev us : String}
    {orderID tt seatID : Int} {s : Sess} (h : s.faults = [])
    (hc : seatCollides s.tx.ticket req.EventDateID (seatValue seatID) = false) :
    ∃ s1, createSeatTicket req ev us orderID tt seatID s = (.ok s.nextTicketID, s1) ∧
      s1.faults = [] ∧ s1.db = s.db ∧
      s1.tx.ticket = s.tx.ticket ++
        [{ ID := s.nextTicketID, EventID := ev, UserID := us, TicketTypeID := tt,
           ToName := req.CustomerName, EventDateID := req.EventDateID,
           SeatID := seatValue seatID }] ∧
      s1.tx.order_hast_tickets = s.tx.order_hast_tickets ++
        [{ OrderID := orderID, TicketID := s.nextTicketID }] ∧
      s1.tx.event_date_has_ticket_type = s.tx.event_date_has_ticket_type ∧
      s1.tx.order = s.tx.order := by
  obtain ⟨s1, hrun, hrest⟩ := @createTicket_quiet orderID us ev req.EventDateID tt
    seatID req.CustomerName s h hc
  refine ⟨s1, ?_, hrest⟩
  unfold createSeatTicket
  simp only [hrun]
theorem seatCollides_append_left {tickets : List Ticket} {ed : Int} {seat : Option Int}
    (row : Ticket) (h : seatCollides tickets ed seat = true) :
    seatCollides (tickets ++ [row]) ed seat = true := by
  cases seat with
  | none => simp [seatCollides] at h
  | some sid =>
    simp only [seatCollides, List.any_append, Bool.or_eq_true] at h ⊢
    exact Or.inl h

theorem seatCollides_append_self (tickets : List Ticket) (row : Ticket) {sid : Int}
    (h : row.SeatID = some sid) :
    seatCollides (tickets ++ [row]) row.EventDateID (some sid) = true := by
  simp [seatCollides, h]

/-- The ticket loop of a seated booking on a storage that does not fail: when a
requested seat collides with a row of the working ticket table, or a seat id other than 0
is requested twice, the loop ends with the `ErrSeatAlreadyTaken` error. -/
theorem seatedTickets_clash (req : BookingRequest) (ev us : String) (orderID : Int)
    (st : Store) :
    ∀ (seats : List SeatBookingRequest) (acc : List TicketResponse) (s : Sess),
      s.faults = [] → s.db = st →
      (∀ x ∈ seats, (seatAssignment st req.EventDateID x.SeatID).isSome = true) →
      ((∃ y ∈ seats,
          seatCollides s.tx.ticket req.EventDateID (seatValue y.SeatID) = true) ∨
        ¬ ((seats.map fun x => x.SeatID).filter fun i => i ≠ 0).Nodup) →
      ∃ s1, seatedTickets req ev us orderID seats acc s = (.error seatTaken, s1) ∧
        s1.db = st := by
  intro seats
  induction seats with
  | nil =>
    intro acc s _ _ _ hclash
    rcases hclash with ⟨y, hy, _⟩ | hdup
    · cases hy
    · exact absurd List.nodup_nil hdup
  | cons x rest ih =>
    intro acc s hq hdb ha hclash
    obtain ⟨r, hr⟩ := Option.isSome_iff_exists.mp (ha x (List.mem_cons_self _ _))
    rw [← hdb] at hr
    unfold seatedTickets
    rw [Op.bind_of_ok (getSeatPriceAndTicketType_quiet hq hr)]
    dsimp only
    by_cases hc : seatCollides s.tx.ticket req.EventDateID (seatValue x.SeatID) = true
    · have hp : s.pendingFault = none := by simp [Sess.pendingFault, hq]
      refine ⟨s.next, ?_, hdb⟩
      rw [Op.bind_of_error (createSeatTicket_collides hp hc)]
    · have hc0 : seatCollides s.tx.ticket req.EventDateID (seatValue x.SeatID) = false := by
        simpa using hc
      obtain ⟨s1, hrun, hq1, hdb1, htk, _⟩ :=
        @createSeatTicket_quiet req ev us orderID r.TicketTypeID x.SeatID s hq hc0
      rw [Op.bind_of_ok hrun, Op.bind_of_ok (attempt_getSeatByID_quiet hq1),
        Op.bind_of_ok (attempt_getTicketTypeByID_quiet hq1)]
      apply ih _ s1 hq1 (hdb1.trans hdb) fun y hy => ha y (List.mem_cons_of_mem _ hy)
      rw [htk]
      rcases hclash with ⟨y, hy, hcy⟩ | hdup
      · rcases List.mem_cons.mp hy with rfl | hy
        · exact absurd hcy hc
        · exact Or.inl ⟨y, hy, seatCollides_append_left _ hcy⟩
      · by_cases hx : x.SeatID = 0
        · right
          simpa [List.filter_cons, hx] using hdup
        · rw [List.map_cons, List.filter_cons, if_pos (by simpa using hx),
            List.nodup_cons, not_and_or, not_not] at hdup
          rcases hdup with hmem | hdup
          · left
            obtain ⟨hmem, -⟩ := List.mem_filter.mp hmem
            obtain ⟨y, hy, hyx⟩ := List.mem_map.mp hmem
            refine ⟨y, hy, ?_⟩
            have hv : seatValue y.SeatID = some x.SeatID := by
              simp [seatValue, hyx, hx]
            rw [hv]
            exact seatCollides_append_self _
              { ID := s.nextTicketID, EventID := ev, UserID := us,
                TicketTypeID := r.TicketTypeID, ToName := req.CustomerName,
                EventDateID := req.EventDateID, SeatID := seatValue x.SeatID }
              (by simp [seatValue, hx])
          · exact Or.inr hdup
/-- C17. The constraint is authoritative. The duplicate-entry error of the unique key on
(occurrence id, seat id) carries the signature `isUniqueConstraintError` looks for. A
ticket creation of `BookSeatedTickets` that the key refuses, because the working ticket
table already holds a row for that occurrence and seat, is reported as the error wrapping
`ErrSeatAlreadyTaken`. And on a storage that does not fail, every request against a
resolved SEATED occurrence that passes the pre-check (no requested seat has a ticket),
whose seats all have a seat assignment and that names a seat id other than 0 twice,
fails with that error; the transaction is rolled back and the committed tables are
unchanged, so neither the order row nor the tickets already inserted persist. -/
theorem constraint_is_authoritative :
    (∀ (eventDateID : Int) (seatID : Option Int),
      isUniqueConstraintError (some (duplicateEntry eventDateID seatID)) = true) ∧
    (∀ (req : BookingRequest) (eventIDStr userIDStr : String)
        (orderID ticketTypeID seatID : Int) (s : Sess),
      s.pendingFault = none →
      seatCollides s.tx.ticket req.EventDateID (seatValue seatID) = true →
      createSeatTicket req eventIDStr userIDStr orderID ticketTypeID seatID s =
          (.error seatTaken, s.next) ∧
        seatTaken.Is Error.ErrSeatAlreadyTaken = true) ∧
    (∀ (req : BookingRequest) (s : Sess) (ed : EventDate) (e : Event) (v : Venue)
        (rest : List (EventDate × Event × Option Venue)),
      eventDateRows s.db req.EventDateID = (ed, e, some v) :: rest →
      ed.SeatingMode = "SEATED" →
      s.faults = [] →
      bookedSeatIDs s.db req.EventDateID (req.Seats.map fun x => x.SeatID) = [] →
      (∀ x ∈ req.Seats, (seatAssignment s.db req.EventDateID x.SeatID).isSome = true) →
      ¬ ((req.Seats.map fun x => x.SeatID).filter fun i => i ≠ 0).Nodup →
      ∃ s1, BookSeatedTickets req s = (.error seatTaken, s1) ∧ s1.db = s.db ∧
        s1.trace.head? = some TxEvent.rolledBack) := by
  refine ⟨isUniqueConstraintError_duplicateEntry, ?_, ?_⟩
  · intro req ev us orderID tt seatID s hp hc
    exact ⟨createSeatTicket_collides hp hc, by decide⟩
  · intro req s ed e v rest hrows hmode hq hpre ha hdup
    have hl := getEventDateByID_quiet hrows hq
    obtain ⟨hb, hqb⟩ := beginx_quiet hq
    have hids : req.Seats.map (fun x => x.SeatID) ≠ [] := by
      intro h
      rw [h] at hdup
      exact hdup (by simp)
    have hcheck : CheckSeatAvailability req.EventDateID (req.Seats.map fun x => x.SeatID)
        s.begun = (.ok [], s.begun) := by
      unfold CheckSeatAvailability
      rw [if_neg (by simpa using hids), stmt_quiet _ hqb]
      have : s.begun.db = s.db := rfl
      rw [this, hpre]
    obtain ⟨s2, horder, hq2, hdb2, -, htk2, -⟩ :=
      @createOrder_quiet req.UserID req.Seats.length
        (formatAmount (0 + (req.Seats.map fun x =>
          seatPrice s.begun.db req.EventDateID x.SeatID).sum))
        req.PaymentSource s.begun hqb
    obtain ⟨s3, hloop, hdb3⟩ :=
      seatedTickets_clash req (toString ed.EventID) (toString req.UserID)
        s.begun.nextOrderID s.db req.Seats [] s2 hq2 hdb2 ha (Or.inr hdup)
    have hbody : seatedBody req ed s.begun = (.error seatTaken, s3) := by
      unfold seatedBody
      rw [Op.bind_of_ok hcheck]
      rw [if_neg (by simp)]
      rw [Op.bind_of_ok (seatedTotal_quiet req req.Seats 0 s.begun hqb ha),
        Op.bind_of_ok horder, Op.bind_of_error hloop]
    refine ⟨(Rollback s3).2, ?_, ?_, ?_⟩
    · rw [bookSeated_of_lookup hl hmode]
      exact withTx_of_body_error hb hbody
    · rw [rollback_db, hdb3]
    · rcases s3 with ⟨db, tx, no, nt, faults, trace⟩
      rfl

/-- Witness of C17: on the sample catalogue the request naming seat 1 twice passes the
pre-check and fails with `ErrSeatAlreadyTaken` wrapped; no order and no ticket
persists. -/
theorem constraint_is_authoritative_witness :
    (∃ s1, BookSeatedTickets (seatedRequest 2 [⟨1, 2⟩, ⟨1, 2⟩]) (sampleSess []) =
        (.error seatTaken, s1) ∧ s1.db = (sampleSess []).db ∧
        s1.trace.head? = some TxEvent.rolledBack) ∧
    (BookSeatedTickets (seatedRequest 2 [⟨1, 2⟩, ⟨1, 2⟩]) (sampleSess [])).2.tx.ticket.map
      (fun t => t.SeatID) = [some 1] ∧
    (BookSeatedTickets (seatedRequest 2 [⟨1, 2⟩, ⟨1, 2⟩]) (sampleSess [])).2.db.order = [] :=
  ⟨constraint_is_authoritative.2.2 (seatedRequest 2 [⟨1, 2⟩, ⟨1, 2⟩]) (sampleSess [])
     { ID := 2, IDVenue := 1, TotalTickets := 2, EventID := 1, SeatingMode := "SEATED" }
     { ID := 1, Slug := "gala", Title := "Gala", Description := "" }
     { ID := 1, Name := "Hall", Capacity := 100 } [] (by rfl) rfl rfl (by rfl)
     (by decide) (by decide),
   by rfl, by rfl⟩
/-! ## C12: selling out an allocation -/

theorem catalogFrame_stable : Stable CatalogFrame where
  refl := fun _ => ⟨rfl, rfl, rfl, rfl, rfl, rfl, rfl⟩
  trans := fun _ _ _ h1 h2 =>
    ⟨h2.1.trans h1.1, h2.2.1.trans h1.2.1, h2.2.2.1.trans h1.2.2.1,
      h2.2.2.2.1.trans h1.2.2.2.1, h2.2.2.2.2.1.trans h1.2.2.2.2.1,
      h2.2.2.2.2.2.1.trans h1.2.2.2.2.2.1, h2.2.2.2.2.2.2.trans h1.2.2.2.2.2.2⟩
  faults := fun _ => ⟨rfl, rfl, rfl, rfl, rfl, rfl, rfl⟩

theorem catalogFrame_UpdateGATicketInventory (ed tt q : Int) :
    Op.Keeps CatalogFrame (UpdateGATicketInventory ed tt q) := by
  apply keeps_stmt catalogFrame_stable
  rintro ⟨db, tx, no, nt, faults, trace⟩
  cases tx
  exact ⟨rfl, rfl, rfl, rfl, rfl, rfl, rfl⟩

theorem catalogFrame_CreateOrder (u n : Int) (a p : String) :
    Op.Keeps CatalogFrame (CreateOrder u n a p) := by
  apply keeps_stmt catalogFrame_stable
  rintro ⟨db, tx, no, nt, faults, trace⟩
  cases tx
  exact ⟨rfl, rfl, rfl, rfl, rfl, rfl, rfl⟩

theorem catalogFrame_insertTicket (eventID userID : String) (tt : Int) (toName : String)
    (ed : Int) (seat : Option Int) :
    Op.Keeps CatalogFrame (insertTicket eventID userID tt toName ed seat) := by
  apply keeps_stmt catalogFrame_stable
  rintro ⟨db, tx, no, nt, faults, trace⟩
  cases tx
  dsimp only
  split <;> exact ⟨rfl, rfl, rfl, rfl, rfl, rfl, rfl⟩

theorem catalogFrame_insertOrderHasTicket (o t : Int) :
    Op.Keeps CatalogFrame (insertOrderHasTicket o t) := by
  apply keeps_stmt catalogFrame_stable
  rintro ⟨db, tx, no, nt, faults, trace⟩
  cases tx
  exact ⟨rfl, rfl, rfl, rfl, rfl, rfl, rfl⟩

theorem catalogFrame_gaBody (req : BookingRequest) (eventDate : EventDate) :
    Op.Keeps CatalogFrame (gaBody req eventDate) :=
  keeps_gaBody catalogFrame_stable req eventDate
    (fun _ _ => catalogFrame_UpdateGATicketInventory _ _ _)
    catalogFrame_CreateOrder catalogFrame_insertTicket catalogFrame_insertOrderHasTicket

theorem catalogFrame_seatedBody (req : BookingRequest) (eventDate : EventDate) :
    Op.Keeps CatalogFrame (seatedBody req eventDate) :=
  keeps_seatedBody catalogFrame_stable
    catalogFrame_CreateOrder catalogFrame_insertTicket catalogFrame_insertOrderHasTicket
    req eventDate

theorem inventoryFrame_stable : Stable InventoryFrame where
  refl := fun _ => rfl
  trans := fun _ _ _ h1 h2 => h2.trans h1
  faults := fun _ => rfl

theorem inventoryFrame_insertTicket (eventID userID : String) (tt : Int) (toName : String)
    (ed : Int) (seat : Option Int) :
    Op.Keeps InventoryFrame (insertTicket eventID userID tt toName ed seat) := by
  apply keeps_stmt inventoryFrame_stable
  rintro ⟨db, tx, no, nt, faults, trace⟩
  cases tx
  dsimp only
  split <;> rfl

theorem inventoryFrame_insertOrderHasTicket (o t : Int) :
    Op.Keeps InventoryFrame (insertOrderHasTicket o t) := by
  apply keeps_stmt inventoryFrame_stable
  rintro ⟨db, tx, no, nt, faults, trace⟩
  cases tx
  rfl

theorem inventoryFrame_gaTickets (req : BookingRequest) (ev us : String) (orderID : Int)
    (tiers : List TierBookingRequest) (acc : List TicketResponse) :
    Op.Keeps InventoryFrame (gaTickets req ev us orderID tiers acc) :=
  keeps_gaTickets inventoryFrame_stable inventoryFrame_insertTicket
    inventoryFrame_insertOrderHasTicket req ev us orderID tiers acc

theorem gaTierTickets_quiet (req : BookingRequest) (ev us : String) (orderID : Int)
    (tier : TierBookingRequest) (n : Nat) :
    ∀ (acc : List TicketResponse) (s : Sess), s.faults = [] →
      ∃ tickets s1, gaTierTickets req ev us orderID tier n acc s = (.ok tickets, s1) ∧
        tickets.length = acc.length + n ∧ s1.faults = [] := by
  induction n with
  | zero => intro acc s h; exact ⟨acc, s, rfl, rfl, h⟩
  | succ n ih =>
    intro acc s h
    obtain ⟨s1, hrun, hq1, -⟩ :=
      @createTicket_quiet orderID us ev req.EventDateID tier.TicketTypeID 0
        req.CustomerName s h (by rfl)
    unfold gaTierTickets
    rw [Op.bind_of_ok hrun, Op.bind_of_ok (attempt_getTicketTypeByID_quiet hq1)]
    obtain ⟨tickets, s2, hrest, hlen, hq2⟩ := ih
      (acc ++ [{ ID := s.nextTicketID,
                 TicketType := ticketTypeName tier.TicketTypeID
                   (ticketTypeLookup s1.db tier.TicketTypeID),
                 SeatLabel := none, ToName := req.CustomerName }]) s1 hq1
    refine ⟨tickets, s2, hrest, ?_, hq2⟩
    rw [hlen, List.length_append, List.length_singleton]
    omega

theorem gaTickets_quiet (req : BookingRequest) (ev us : String) (orderID : Int)
    (tiers : List TierBookingRequest) :
    ∀ (acc : List TicketResponse) (s : Sess), s.faults = [] →
      ∃ tickets s1, gaTickets req ev us orderID tiers acc s = (.ok tickets, s1) ∧
        tickets.length = acc.length + (tiers.map fun t => t.Quantity.toNat).sum ∧
        s1.faults = [] := by
  induction tiers with
  | nil => intro acc s h; exact ⟨acc, s, rfl, by simp, h⟩
  | cons tier rest ih =>
    intro acc s h
    obtain ⟨t1, s1, hrun, hlen1, hq1⟩ :=
      gaTierTickets_quiet req ev us orderID tier tier.Quantity.toNat acc s h
    obtain ⟨t2, s2, hrest, hlen2, hq2⟩ := ih t1 s1 hq1
    unfold gaTickets
    rw [Op.bind_of_ok hrun]
    refine ⟨t2, s2, hrest, ?_, hq2⟩
    rw [hlen2, hlen1, List.map_cons, List.sum_cons]
    omega
theorem updateGATicketInventory_quiet {ed tt q : Int} {s : Sess} (h : s.faults = []) :
    ∃ s1, UpdateGATicketInventory ed tt q s =
        (.ok ((s.tx.event_date_has_ticket_type.filter (gaRowChanged ed tt q)).length : Int),
          s1) ∧
      s1.faults = [] ∧ s1.db = s.db ∧
      s1.tx.event_date_has_ticket_type =
        s.tx.event_date_has_ticket_type.map (gaRowUpdate ed tt q) := by
  rcases s with ⟨db, tx, no, nt, faults, trace⟩
  simp only at h
  subst h
  rcases tx with ⟨a1, a2, a3, a4, a5, a6, a7, a8, a9, a10⟩
  exact ⟨_, rfl, rfl, rfl, rfl⟩

theorem getGATicketPriceAndRemaining_quiet {ed tt : Int} {s : Sess}
    {r : EventDateHasTicketType} (h : s.faults = []) (ha : allocation s.db ed tt = some r) :
    GetGATicketPriceAndRemaining ed tt s = (.ok (r.Price, r.RemainingTickets), s) := by
  unfold GetGATicketPriceAndRemaining
  rw [stmt_quiet _ h]
  simp only [ha]

theorem allocation_mem {st : Store} {ed tt : Int} {r : EventDateHasTicketType}
    (h : allocation st ed tt = some r) :
    r ∈ st.event_date_has_ticket_type ∧ r.EventDateID = ed ∧ r.TicketTypeID = tt := by
  unfold allocation at h
  have h1 := List.find?_some h
  have h2 := List.mem_of_find?_eq_some h
  simp only [Bool.and_eq_true, decide_eq_true_eq] at h1
  exact ⟨h2, h1.1, h1.2⟩

theorem find_allocation_map (rows : List EventDateHasTicketType) (ed tt ed1 tt1 q : Int) :
    (rows.map (gaRowUpdate ed1 tt1 q)).find?
        (fun r => r.EventDateID = ed && r.TicketTypeID = tt) =
      (rows.find? fun r => r.EventDateID = ed && r.TicketTypeID = tt).map
        (gaRowUpdate ed1 tt1 q) := by
  induction rows with
  | nil => rfl
  | cons a rest ih =>
    have hkey : (gaRowUpdate ed1 tt1 q a).EventDateID = a.EventDateID ∧
        (gaRowUpdate ed1 tt1 q a).TicketTypeID = a.TicketTypeID := by
      unfold gaRowUpdate
      split <;> exact ⟨rfl, rfl⟩
    simp only [List.map_cons, List.find?_cons, hkey.1, hkey.2]
    split
    · rfl
    · exact ih

theorem eventDateRows_congr {st st1 : Store} (h1 : st1.event = st.event)
    (h2 : st1.venue = st.venue) (h3 : st1.event_date = st.event_date) (id : Int) :
    eventDateRows st1 id = eventDateRows st id := by
  unfold eventDateRows
  rw [h1, h2, h3]
theorem gaBody_sells_all {req : BookingRequest} {ed : EventDate} {s : Sess} {t : Int}
    {r : EventDateHasTicketType} (hq : s.faults = [])
    (htiers : req.Tiers = [⟨t, r.RemainingTickets⟩])
    (htx : s.tx.event_date_has_ticket_type = s.db.event_date_has_ticket_type)
    (halloc : allocation s.db req.EventDateID t = some r)
    (hR : 1 ≤ r.RemainingTickets) :
    ∃ resp s1, gaBody req ed s = (.ok resp, s1) ∧
      resp.TotalAmount = r.Price * r.RemainingTickets ∧
      (resp.Tickets.length : Int) = r.RemainingTickets ∧
      s1.faults = [] ∧
      s1.tx.event_date_has_ticket_type =
        s.db.event_date_has_ticket_type.map
          (gaRowUpdate req.EventDateID t r.RemainingTickets) := by
  obtain ⟨hmem, hed, htt⟩ := allocation_mem halloc
  obtain ⟨sU, hU, hqU, hdbU, hallocU⟩ :=
    @updateGATicketInventory_quiet req.EventDateID t r.RemainingTickets s hq
  have hR0 : r.RemainingTickets ≠ 0 := by omega
  rw [filter_gaRowChanged _ _ _ hR0] at hU
  have hne : ((s.tx.event_date_has_ticket_type.filter
      (gaRowMatches req.EventDateID t r.RemainingTickets)).length : Int) ≠ 0 := by
    have : r ∈ s.tx.event_date_has_ticket_type.filter
        (gaRowMatches req.EventDateID t r.RemainingTickets) := by
      rw [htx, List.mem_filter, gaRowMatches_iff]
      exact ⟨hmem, hed, htt, le_refl _⟩
    have := List.length_pos_of_mem this
    omega
  have hprice := getGATicketPriceAndRemaining_quiet hqU (hdbU.symm ▸ halloc)
  obtain ⟨sO, hO, hqO, -, -, -, -, hallocO, -⟩ :=
    @createOrder_quiet req.UserID (0 + r.RemainingTickets)
      (formatAmount (0 + r.Price * r.RemainingTickets)) req.PaymentSource sU hqU
  obtain ⟨tickets, sT, hT, hlen, hqT⟩ :=
    gaTickets_quiet req (toString ed.EventID) (toString req.UserID) sU.nextOrderID
      [⟨t, r.RemainingTickets⟩] [] sO hqO
  have hframe := (inventoryFrame_gaTickets req (toString ed.EventID) (toString req.UserID)
    sU.nextOrderID [⟨t, r.RemainingTickets⟩] []).of_eq hT
  refine ⟨{ OrderID := sU.nextOrderID, TotalAmount := 0 + r.Price * r.RemainingTickets,
            Tickets := tickets }, sT, ?_, by simp, ?_, hqT, ?_⟩
  · have hres : gaReserve req [⟨t, r.RemainingTickets⟩] 0 0 s =
        (.ok (0 + r.Price * r.RemainingTickets, 0 + r.RemainingTickets), sU) := by
      unfold gaReserve
      rw [Op.bind_of_ok hU]
      dsimp only
      rw [if_neg hne, Op.bind_of_ok hprice]
      rfl
    unfold gaBody
    rw [htiers, Op.bind_of_ok hres]
    dsimp only
    rw [Op.bind_of_ok hO, Op.bind_of_ok hT]
    rfl
  · rw [hlen]
    simp only [List.length_nil, List.map_cons, List.map_nil, List.sum_cons, List.sum_nil]
    omega
  · rw [hframe, hallocO, hallocU, htx]
theorem allocKeyUnique_map_update {rows : List EventDateHasTicketType} (ed tt q : Int)
    (h : AllocKeyUnique rows) : AllocKeyUnique (rows.map (gaRowUpdate ed tt q)) := by
  unfold AllocKeyUnique at h ⊢
  rw [List.map_map]
  have : ((fun r : EventDateHasTicketType => (r.EventDateID, r.TicketTypeID)) ∘
      gaRowUpdate ed tt q) = fun r => (r.EventDateID, r.TicketTypeID) := by
    funext r
    simp only [Function.comp, gaRowUpdate]
    split <;> rfl
  rw [this]
  exact h

/-- A GA request for one tier whose allocation holds fewer tickets than requested, on a
storage that does not fail: the booking is refused with the insufficient-inventory error
carrying the remaining count, and the committed tables are unchanged. -/
theorem bookGA_refused {req : BookingRequest} {s : Sess} {ed : EventDate} {e : Event}
    {v : Venue} {rest : List (EventDate × Event × Option Venue)} {t q : Int}
    {r : EventDateHasTicketType} (hq : s.faults = [])
    (hrows : eventDateRows s.db req.EventDateID = (ed, e, some v) :: rest)
    (hmode : ed.SeatingMode = "GA")
    (hkey : AllocKeyUnique s.db.event_date_has_ticket_type)
    (halloc : allocation s.db req.EventDateID t = some r)
    (htiers : req.Tiers = [⟨t, q⟩])
    (hlt : r.RemainingTickets < q) :
    ∃ s1, BookGATickets req s =
        (.error (insufficientInventory ⟨t, q⟩ (.ok (r.Price, r.RemainingTickets))), s1) ∧
      s1.db = s.db := by
  have hl := getEventDateByID_quiet hrows hq
  obtain ⟨hb, hqb⟩ := beginx_quiet hq
  obtain ⟨hmem, hed, htt⟩ := allocation_mem halloc
  obtain ⟨sU, hU, hqU, hdbU, -⟩ :=
    @updateGATicketInventory_quiet req.EventDateID t q s.begun hqb
  have hnone : s.begun.tx.event_date_has_ticket_type.filter
      (gaRowChanged req.EventDateID t q) = [] := by
    rw [List.filter_eq_nil_iff]
    intro a ha hm
    replace hm := ((gaRowChanged_iff _ _ _ _).mp hm).1
    have hdb : s.begun.tx = s.db := rfl
    rw [hdb] at ha
    have : a = r := allocKey_inj hkey ha hmem (hm.1.trans hed.symm) (hm.2.1.trans htt.symm)
    rw [this] at hm
    omega
  rw [hnone] at hU
  have hlook : Op.attempt (GetGATicketPriceAndRemaining req.EventDateID t) sU =
      (.ok (.ok (r.Price, r.RemainingTickets)), sU) := by
    unfold Op.attempt
    have hdb : sU.db = s.db := hdbU
    rw [getGATicketPriceAndRemaining_quiet hqU (hdb.symm ▸ halloc)]
  have hres : gaReserve req [⟨t, q⟩] 0 0 s.begun =
      (.error (insufficientInventory ⟨t, q⟩ (.ok (r.Price, r.RemainingTickets))), sU) := by
    unfold gaReserve
    rw [Op.bind_of_ok hU]
    dsimp only
    rw [if_pos (by rfl), Op.bind_of_ok hlook]
    rfl
  have hbody : gaBody req ed s.begun =
      (.error (insufficientInventory ⟨t, q⟩ (.ok (r.Price, r.RemainingTickets))), sU) := by
    unfold gaBody
    rw [htiers, Op.bind_of_error hres]
  refine ⟨(Rollback sU).2, ?_, ?_⟩
  · rw [bookGA_of_lookup hl hmode]
    exact withTx_of_body_error hb hbody
  · rw [rollback_db, hdbU]
    rfl
/-- Sell-out, with amounts in exact hundredths. On a storage that does not fail, for every
resolved GA occurrence whose allocation table has one row per (occurrence, ticket type)
and holds for ticket type `t` a row of price `p` and remaining `R ≥ 1`: the request for
exactly `R` units of `t` succeeds, returns `R` tickets and the total `p * R` of the exact
amounts, and leaves the committed remaining count at 0; and every request for `q ≥ 1`
units of `t` made on the tables it left fails with the error wrapping
`ErrInsufficientInventory` whose message reports remaining 0, and leaves the committed
tables, so the remaining count 0, unchanged. The float64 value Go returns for the total
is `p * R` only when that product is exact in float64. -/
theorem sell_out (req : BookingRequest) (s : Sess) (ed : EventDate) (e : Event) (v : Venue)
    (rest : List (EventDate × Event × Option Venue)) (t : Int) (r : EventDateHasTicketType)
    (hq : s.faults = [])
    (hrows : eventDateRows s.db req.EventDateID = (ed, e, some v) :: rest)
    (hmode : ed.SeatingMode = "GA")
    (hkey : AllocKeyUnique s.db.event_date_has_ticket_type)
    (halloc : allocation s.db req.EventDateID t = some r)
    (hR : 1 ≤ r.RemainingTickets)
    (htiers : req.Tiers = [⟨t, r.RemainingTickets⟩]) :
    ∃ resp s1, BookGATickets req s = (.ok resp, s1) ∧
      resp.TotalAmount = r.Price * r.RemainingTickets ∧
      (resp.Tickets.length : Int) = r.RemainingTickets ∧
      allocation s1.db req.EventDateID t = some { r with RemainingTickets := 0 } ∧
      ∀ (req2 : BookingRequest) (q : Int) (s2 : Sess),
        s2.db = s1.db → s2.faults = [] → req2.EventDateID = req.EventDateID →
        req2.Tiers = [⟨t, q⟩] → 1 ≤ q →
        ∃ s3, BookGATickets req2 s2 =
            (.error (wrapf Error.ErrInsufficientInventory
              (": Not enough tickets left for ticket type " ++ toString t ++
               " (remaining: " ++ toString (0 : Int) ++ ", requested: " ++
               toString q ++ ")")), s3) ∧
          s3.db = s2.db ∧
          allocation s3.db req.EventDateID t = some { r with RemainingTickets := 0 } := by
  have hl := getEventDateByID_quiet hrows hq
  obtain ⟨hb, hqb⟩ := beginx_quiet hq
  obtain ⟨resp, sT, hbody, htotal, hcount, hqT, hallocT⟩ :=
    @gaBody_sells_all req ed s.begun t r hqb htiers rfl halloc hR
  obtain ⟨-, hev, hve, hedt, -⟩ := (catalogFrame_gaBody req ed).of_eq hbody
  obtain ⟨hmem, hed, htt⟩ := allocation_mem halloc
  have hdb : (Commit sT).2.db = sT.tx := (commit_db sT).1 (Or.inr hqT)
  have hzero : allocation (Commit sT).2.db req.EventDateID t =
      some { r with RemainingTickets := 0 } := by
    unfold allocation at halloc ⊢
    have hsdb : s.begun.db = s.db := rfl
    rw [hdb, hallocT, hsdb, find_allocation_map, halloc, Option.map_some']
    have hm : gaRowMatches req.EventDateID t r.RemainingTickets r = true :=
      (gaRowMatches_iff _ _ _ _).mpr ⟨hed, htt, le_refl _⟩
    simp only [gaRowUpdate, hm, if_true, sub_self]
  refine ⟨resp, (Commit sT).2, ?_, htotal, hcount, hzero, ?_⟩
  · rw [bookGA_of_lookup hl hmode]
    exact withTx_of_body_ok hb hbody
  · intro req2 q s2 hdb2 hq2 hid htiers2 hq1
    have hrows2 : eventDateRows s2.db req2.EventDateID = (ed, e, some v) :: rest := by
      rw [hid, ← hrows]
      apply eventDateRows_congr
      · rw [hdb2, hdb, hev]; rfl
      · rw [hdb2, hdb, hve]; rfl
      · rw [hdb2, hdb, hedt]; rfl
    have hkey2 : AllocKeyUnique s2.db.event_date_has_ticket_type := by
      rw [hdb2, hdb, hallocT]
      exact allocKeyUnique_map_update _ _ _ hkey
    have halloc2 : allocation s2.db req2.EventDateID t =
        some { r with RemainingTickets := 0 } := by
      rw [hid, hdb2]
      exact hzero
    obtain ⟨s3, hrun, hdb3⟩ := bookGA_refused hq2 hrows2 hmode hkey2 halloc2 htiers2
      (show (0 : Int) < q by omega)
    refine ⟨s3, hrun, hdb3, ?_⟩
    rw [hdb3, hdb2]
    exact hzero

/-- On the sample catalogue (ticket type 1 at 25.00, 2 left) the request
for 2 units succeeds with total 50.00 and 2 tickets, and the request for 1 unit after it
fails reporting remaining 0. -/
theorem sell_out_witness :
    (∃ resp s1, BookGATickets (gaRequest 1 [⟨1, 2⟩]) (sampleSess []) = (.ok resp, s1) ∧
      resp.TotalAmount = 2500 * 2 ∧
      (resp.Tickets.length : Int) = 2 ∧
      allocation s1.db 1 1 =
        some { EventDateID := 1, TicketTypeID := 1, MaxQuantity := 2, RemainingTickets := 0,
               Price := 2500 } ∧
      ∀ (req2 : BookingRequest) (q : Int) (s2 : Sess),
        s2.db = s1.db → s2.faults = [] → req2.EventDateID = 1 →
        req2.Tiers = [⟨1, q⟩] → 1 ≤ q →
        ∃ s3, BookGATickets req2 s2 =
            (.error (wrapf Error.ErrInsufficientInventory
              (": Not enough tickets left for ticket type " ++ toString (1 : Int) ++
               " (remaining: " ++ toString (0 : Int) ++ ", requested: " ++
               toString q ++ ")")), s3) ∧
          s3.db = s2.db ∧
          allocation s3.db 1 1 =
            some { EventDateID := 1, TicketTypeID := 1, MaxQuantity := 2,
                   RemainingTickets := 0, Price := 2500 }) ∧
    (BookGATickets (gaRequest 1 [⟨1, 1⟩])
        (BookGATickets (gaRequest 1 [⟨1, 2⟩]) (sampleSess [])).2).1 =
      .error (Error.Wrapf Error.ErrInsufficientInventory
        "INSUFFICIENT_INVENTORY: Not enough tickets left for ticket type 1 (remaining: 0, requested: 1)") :=
  ⟨sell_out (gaRequest 1 [⟨1, 2⟩]) (sampleSess [])
     { ID := 1, IDVenue := 1, TotalTickets := 7, EventID := 1, SeatingMode := "GA" }
     { ID := 1, Slug := "gala", Title := "Gala", Description := "" }
     { ID := 1, Name := "Hall", Capacity := 100 } [] 1
     { EventDateID := 1, TicketTypeID := 1, MaxQuantity := 2, RemainingTickets := 2,
       Price := 2500 }
     rfl (by rfl) rfl (by decide) (by rfl) (by decide) rfl,
   by rfl⟩
/-! ## The tickets a booking issues -/

theorem attempt_getTicketTypeByID_run (id : Int) (s : Sess) :
    Op.attempt (GetTicketTypeByID id) s =
      (.ok (match s.pendingFault with
            | some e => .error e
            | none => ticketTypeLookup s.db id), s.next) := by
  rcases s with ⟨db, tx, no, nt, faults, trace⟩
  rcases faults with _ | ⟨_ | e, rest⟩
  · simp only [Op.attempt, GetTicketTypeByID, stmt, Sess.pendingFault, ticketTypeLookup]
    cases db.ticket_type.find? fun t => t.ID = id <;> rfl
  · simp only [Op.attempt, GetTicketTypeByID, stmt, Sess.pendingFault, ticketTypeLookup]
    cases db.ticket_type.find? fun t => t.ID = id <;> rfl
  · rfl

theorem attempt_getSeatByID_run (id : Int) (s : Sess) :
    Op.attempt (GetSeatByID id) s =
      (.ok (match s.pendingFault with
            | some e => .error e
            | none => seatLookup s.db id), s.next) := by
  rcases s with ⟨db, tx, no, nt, faults, trace⟩
  rcases faults with _ | ⟨_ | e, rest⟩
  · simp only [Op.attempt, GetSeatByID, stmt, Sess.pendingFault, seatLookup]
    cases db.seat.find? fun t => t.ID = id <;> rfl
  · simp only [Op.attempt, GetSeatByID, stmt, Sess.pendingFault, seatLookup]
    cases db.seat.find? fun t => t.ID = id <;> rfl
  · rfl

theorem pendingFault_of_quiet {s : Sess} (h : s.faults = []) : s.pendingFault = none := by
  simp [Sess.pendingFault, h]

theorem ticketType_faithful {st : Store} {id : Int} {s : Sess} (hdb : s.db = st) :
    (∀ t, (match s.pendingFault with
            | some e => (.error e : Except Error TicketType)
            | none => ticketTypeLookup s.db id) = .ok t →
        ticketTypeLookup st id = .ok t) ∧
    (s.faults = [] → (match s.pendingFault with
            | some e => (.error e : Except Error TicketType)
            | none => ticketTypeLookup s.db id) = ticketTypeLookup st id) := by
  constructor
  · intro t h
    cases hp : s.pendingFault with
    | none => rw [hp] at h; rw [← hdb]; exact h
    | some e => rw [hp] at h; cases h
  · intro hq
    rw [pendingFault_of_quiet hq, hdb]

theorem seat_faithful {st : Store} {id : Int} {s : Sess} (hdb : s.db = st) :
    (∀ t, (match s.pendingFault with
            | some e => (.error e : Except Error Seat)
            | none => seatLookup s.db id) = .ok t →
        seatLookup st id = .ok t) ∧
    (s.faults = [] → (match s.pendingFault with
            | some e => (.error e : Except Error Seat)
            | none => seatLookup s.db id) = seatLookup st id) := by
  constructor
  · intro t h
    cases hp : s.pendingFault with
    | none => rw [hp] at h; rw [← hdb]; exact h
    | some e => rw [hp] at h; cases h
  · intro hq
    rw [pendingFault_of_quiet hq, hdb]
theorem noFaults_CreateTicket (orderID : Int) (userID eventID : String)
    (ed tt seatID : Int) (toName : String) :
    Op.Keeps NoFaults (CreateTicket orderID userID eventID ed tt seatID toName) :=
  keeps_CreateTicket noFaults_stable
    (fun _ _ _ _ _ _ => noFaults_stmt _ fun ⟨_, _, _, _, _, _⟩ => by
      dsimp only; split <;> rfl)
    (fun _ _ => noFaults_stmt _ fun ⟨_, _, _, _, _, _⟩ => rfl) _ _ _ _ _ _ _

theorem Issue.Faithful.mono {st st1 : Store} {q q1 : Prop} {i : Issue}
    (h : i.Faithful st q) (hst : st = st1) (hq : q1 → q) : i.Faithful st1 q1 := by
  subst hst
  exact ⟨h.1, h.2.1, fun h1 => h.2.2 (hq h1)⟩

theorem Sess.next_faults_of_quiet {s : Sess} (h : s.faults = []) : s.next.faults = [] := by
  simp [Sess.next, h]

theorem gaTierTickets_issues (req : BookingRequest) (ev us : String) (orderID : Int)
    (tier : TierBookingRequest) (n : Nat) :
    ∀ (acc tickets : List TicketResponse) (s s1 : Sess),
      gaTierTickets req ev us orderID tier n acc s = (.ok tickets, s1) →
      ∃ issues : List Issue, issues.length = n ∧
        (∀ i ∈ issues, i.ticketTypeID = tier.TicketTypeID ∧ i.seatID = 0 ∧ i.seat = none ∧
          i.Faithful s.db (s.faults = [])) ∧
        s1.tx.ticket = s.tx.ticket ++ issues.map (Issue.row req ev us) ∧
        s1.tx.order_hast_tickets =
          s.tx.order_hast_tickets ++ issues.map (Issue.join orderID) ∧
        tickets = acc ++ issues.map (Issue.response req) ∧
        s1.db = s.db ∧ NoFaults s s1 := by
  induction n with
  | zero =>
    intro acc tickets s s1 h
    cases h
    exact ⟨[], rfl, fun i hi => (by cases hi), by simp, by simp, by simp, rfl, fun h => h⟩
  | succ n ih =>
    intro acc tickets s s1 h
    unfold gaTierTickets at h
    obtain ⟨tid, sa, hct, hrest⟩ := Op.bind_ok h
    obtain ⟨lk, sb, hlook, hrest⟩ := Op.bind_ok hrest
    rw [attempt_getTicketTypeByID_run] at hlook
    obtain ⟨hlk, hsb⟩ := Prod.mk.inj hlook
    have hlk := Except.ok.inj hlk
    subst hsb
    obtain ⟨hrow, hjoin, hdba⟩ := createTicket_ok hct
    have hfa : NoFaults s sa := (noFaults_CreateTicket _ _ _ _ _ _ _).of_eq hct
    obtain ⟨issues, hlen, hall, htk, hj, hresp, hdb, hf⟩ := ih _ _ _ _ hrest
    have hdbn : sa.next.db = s.db := hdba
    obtain ⟨hf1, hf2⟩ := @ticketType_faithful s.db tier.TicketTypeID sa hdba
    refine ⟨⟨tid, tier.TicketTypeID, 0, lk, none⟩ :: issues, by simp [hlen], ?_, ?_, ?_,
      ?_, hdb.trans hdbn, fun h0 => hf (Sess.next_faults_of_quiet (hfa h0))⟩
    · intro i hi
      rcases List.mem_cons.mp hi with rfl | hi
      · refine ⟨rfl, rfl, rfl, ?_, ?_, ?_⟩
        · intro t ht
          exact hf1 t (hlk.trans ht)
        · intro x hx
          cases hx
        · intro h0
          exact ⟨hlk.symm.trans (hf2 (hfa h0)), fun r hr => (by cases hr)⟩
      · obtain ⟨h1, h2, h3, h4⟩ := hall i hi
        exact ⟨h1, h2, h3, h4.mono hdbn fun h0 => Sess.next_faults_of_quiet (hfa h0)⟩
    · rw [htk]
      have : sa.next.tx = sa.tx := rfl
      rw [this, hrow, List.map_cons, List.append_assoc]
      rfl
    · rw [hj]
      have : sa.next.tx = sa.tx := rfl
      rw [this, hjoin, List.map_cons, List.append_assoc]
      rfl
    · rw [hresp, List.map_cons, List.append_assoc, ← hlk]
      rfl
theorem gaTickets_issues (req : BookingRequest) (ev us : String) (orderID : Int)
    (tiers : List TierBookingRequest) :
    ∀ (acc tickets : List TicketResponse) (s s1 : Sess),
      gaTickets req ev us orderID tiers acc s = (.ok tickets, s1) →
      ∃ issues : List Issue,
        issues.map (fun i => i.ticketTypeID) =
          tiers.flatMap (fun t => List.replicate t.Quantity.toNat t.TicketTypeID) ∧
        (∀ i ∈ issues, i.seatID = 0 ∧ i.seat = none ∧ i.Faithful s.db (s.faults = [])) ∧
        s1.tx.ticket = s.tx.ticket ++ issues.map (Issue.row req ev us) ∧
        s1.tx.order_hast_tickets =
          s.tx.order_hast_tickets ++ issues.map (Issue.join orderID) ∧
        tickets = acc ++ issues.map (Issue.response req) ∧
        s1.db = s.db ∧ NoFaults s s1 := by
  induction tiers with
  | nil =>
    intro acc tickets s s1 h
    cases h
    exact ⟨[], rfl, fun i hi => (by cases hi), by simp, by simp, by simp, rfl, fun h => h⟩
  | cons tier rest ih =>
    intro acc tickets s s1 h
    unfold gaTickets at h
    obtain ⟨t1, sa, htier, hrest⟩ := Op.bind_ok h
    obtain ⟨i1, hlen, hall1, htk1, hj1, hresp1, hdb1, hf1⟩ :=
      gaTierTickets_issues _ _ _ _ _ _ _ _ _ _ htier
    obtain ⟨i2, htypes, hall2, htk2, hj2, hresp2, hdb2, hf2⟩ := ih _ _ _ _ hrest
    refine ⟨i1 ++ i2, ?_, ?_, ?_, ?_, ?_, hdb2.trans hdb1, fun h0 => hf2 (hf1 h0)⟩
    · rw [List.map_append, htypes, List.flatMap_cons]
      congr 1
      rw [← hlen]
      apply List.ext_getElem
      · simp
      · intro k h1 h2
        simp only [List.getElem_map, List.getElem_replicate]
        exact (hall1 _ (List.getElem_mem _)).1
    · intro i hi
      rcases List.mem_append.mp hi with hi | hi
      · obtain ⟨-, h2, h3, h4⟩ := hall1 i hi
        exact ⟨h2, h3, h4⟩
      · obtain ⟨h2, h3, h4⟩ := hall2 i hi
        exact ⟨h2, h3, h4.mono hdb1 hf1⟩
    · rw [htk2, htk1, List.map_append, List.append_assoc]
    · rw [hj2, hj1, List.map_append, List.append_assoc]
    · rw [hresp2, hresp1, List.map_append, List.append_assoc]

/-- What a GA booking that returned a response did: the occurrence was resolved, and the
transaction wrote one order row, and for each issued ticket one `ticket` row and one
`order_hast_tickets` row, the issued tickets being those the tiers ask for, in tier
order; the response lists them. -/
theorem bookGA_issues {req : BookingRequest} {s s3 : Sess} {resp : BookingResponse}
    (h : BookGATickets req s = (.ok resp, s3)) :
    ∃ (ed : EventDate) (issues : List Issue),
      issues.map (fun i => i.ticketTypeID) =
        req.Tiers.flatMap (fun t => List.replicate t.Quantity.toNat t.TicketTypeID) ∧
      (∀ i ∈ issues, i.seatID = 0 ∧ i.seat = none ∧ i.Faithful s.db (s.faults = [])) ∧
      s3.tx.ticket = s.db.ticket ++
        issues.map (Issue.row req (toString ed.EventID) (toString req.UserID)) ∧
      s3.tx.order_hast_tickets =
        s.db.order_hast_tickets ++ issues.map (Issue.join resp.OrderID) ∧
      s3.tx.order = s.db.order ++
        [{ ID := resp.OrderID, UserID := req.UserID,
           TotalTickets := (req.Tiers.map fun t => t.Quantity).sum,
           Amount := formatAmount resp.TotalAmount,
           PaymentSource := req.PaymentSource }] ∧
      resp.Tickets = issues.map (Issue.response req) ∧
      ((s3.trace.head? = some TxEvent.committed ∨ s.faults = []) → s3.db = s3.tx) := by
  obtain ⟨ed, s0, hl, _, hw⟩ := book_ga_ok h
  obtain ⟨s1, s2, hb, hfn, hs3⟩ := withTx_ok hw
  have hr0 : ReadFrame s s0 := (keeps_GetEventDateByID readFrame_stable _).of_eq hl
  have hf0 : NoFaults s s0 := (keeps_GetEventDateByID noFaults_stable _).of_eq hl
  obtain ⟨hdb1, htx1, _, _, hf1⟩ := beginx_ok hb
  have hf2 : NoFaults s1 s2 := (noFaults_gaBody req ed).of_eq hfn
  have hfn0 := hfn
  unfold gaBody at hfn
  obtain ⟨⟨total, count⟩, sa, hres, hrest⟩ := Op.bind_ok hfn
  obtain ⟨orderID, sb, horder, hrest⟩ := Op.bind_ok hrest
  obtain ⟨tickets, sc, htickets, hpure⟩ := Op.bind_ok hrest
  cases hpure
  have hsa : SalesFrame s1 sa :=
    (keeps_gaReserve salesFrame_stable req req.Tiers
      (fun _ _ => salesFrame_UpdateGATicketInventory _ _ _) 0 0).of_eq hres
  have hfa : NoFaults s1 sa :=
    (keeps_gaReserve noFaults_stable req req.Tiers
      (fun _ _ => noFaults_stmt _ fun ⟨_, _, _, _, _, _⟩ => rfl) 0 0).of_eq hres
  have hfb : NoFaults sa sb :=
    (noFaults_stmt _ fun ⟨_, _, _, _, _, _⟩ => rfl).of_eq horder
  obtain ⟨-, -, hcount⟩ := gaReserve_ok req req.Tiers 0 0 total count s1 sa hres
  obtain ⟨hrow, hdbb, -⟩ := createOrder_ok horder
  have htkb := createOrder_ticket horder
  have hjb : sb.tx.order_hast_tickets = sa.tx.order_hast_tickets := by
    have h1 := stmt_ok horder
    rcases sa with ⟨db, tx, no, nt, faults, trace⟩
    cases tx
    cases h1
    rfl
  obtain ⟨issues, htypes, hall, htk, hj, hresp, hdbc, -⟩ :=
    gaTickets_issues _ _ _ _ _ _ _ _ _ htickets
  have hod : OrderFrame sb s2 :=
    (keeps_gaTickets orderFrame_stable orderFrame_insertTicket
      orderFrame_insertOrderHasTicket _ _ _ _ _ _).of_eq htickets
  have hdbs : sb.db = s.db := by rw [hdbb, hsa.1, hdb1, hr0.1]
  obtain ⟨hcdb, hctx⟩ := commit_db s2
  refine ⟨ed, issues, htypes, ?_, ?_, ?_, ?_, by simpa using hresp, ?_⟩
  · intro i hi
    obtain ⟨h2, h3, h4⟩ := hall i hi
    exact ⟨h2, h3, h4.mono hdbs fun h0 => hfb (hfa (hf1 (hf0 h0)))⟩
  · rw [hs3, hctx, htk, htkb, hsa.2.2.1, htx1, hr0.1]
  · rw [hs3, hctx, hj, hjb, hsa.2.2.2, htx1, hr0.1]
  · rw [hs3, hctx, hod.2, hrow, hsa.2.1, htx1, hr0.1, hcount, zero_add]
  · intro hc
    rw [hs3, hctx]
    apply hcdb
    rcases hc with hc | hc
    · left; rw [← hs3]; exact hc
    · right; exact hf2 (hf1 (hf0 hc))
theorem length_replicate_tiers (tiers : List TierBookingRequest)
    (hq : ∀ t ∈ tiers, 0 ≤ t.Quantity) :
    (((tiers.flatMap fun t => List.replicate t.Quantity.toNat t.TicketTypeID).length : Nat) :
        Int) = (tiers.map fun t => t.Quantity).sum := by
  induction tiers with
  | nil => rfl
  | cons t rest ih =>
    have h0 := hq t (List.mem_cons_self _ _)
    have h1 := ih fun x hx => hq x (List.mem_cons_of_mem _ hx)
    simp only [List.flatMap_cons, List.length_append, List.length_replicate, List.map_cons,
      List.sum_cons, Nat.cast_add] at h1 ⊢
    rw [h1, Int.toNat_of_nonneg h0]

/-- The tickets a GA booking issues inside its transaction: whenever `BookGATickets`
returns a response for a request whose quantities are all at least zero, the number of
tickets in the response, the number of `ticket` rows and of `order_hast_tickets` rows the
transaction wrote, and the ticket count on the order row it wrote all equal the sum of
the requested quantities. The tickets are issued in tier order, `q_i` of them with ticket
type `t_i`; every written `ticket` row bears the request's holder name and has no seat id,
the join rows link exactly these rows to the new order, and every response ticket bears
the holder name and has no seat label. The rows reach the committed tables only when the
commit takes effect, which a returned response does not imply. -/
theorem ga_ticket_issuance (req : BookingRequest) (s s3 : Sess) (resp : BookingResponse)
    (h : BookGATickets req s = (.ok resp, s3))
    (hq : ∀ t ∈ req.Tiers, 0 ≤ t.Quantity) :
    (resp.Tickets.length : Int) = (req.Tiers.map fun t => t.Quantity).sum ∧
    (s3.tx.ticket.length : Int) =
      s.db.ticket.length + (req.Tiers.map fun t => t.Quantity).sum ∧
    (s3.tx.order_hast_tickets.length : Int) =
      s.db.order_hast_tickets.length + (req.Tiers.map fun t => t.Quantity).sum ∧
    s3.tx.order = s.db.order ++
      [{ ID := resp.OrderID, UserID := req.UserID,
         TotalTickets := (req.Tiers.map fun t => t.Quantity).sum,
         Amount := formatAmount resp.TotalAmount,
         PaymentSource := req.PaymentSource }] ∧
    (∀ x ∈ resp.Tickets, x.ToName = req.CustomerName ∧ x.SeatLabel = none) ∧
    ((s3.trace.head? = some TxEvent.committed ∨ s.faults = []) → s3.db = s3.tx) ∧
    ∃ rows : List Ticket,
      s3.tx.ticket = s.db.ticket ++ rows ∧
      s3.tx.order_hast_tickets = s.db.order_hast_tickets ++
        rows.map (fun r => { OrderID := resp.OrderID, TicketID := r.ID }) ∧
      rows.map (fun r => r.TicketTypeID) =
        req.Tiers.flatMap (fun t => List.replicate t.Quantity.toNat t.TicketTypeID) ∧
      resp.Tickets.map (fun x => x.ID) = rows.map (fun r => r.ID) ∧
      ∀ r ∈ rows, r.ToName = req.CustomerName ∧ r.SeatID = none ∧
        r.EventDateID = req.EventDateID ∧ r.UserID = toString req.UserID := by
  obtain ⟨ed, issues, htypes, hall, htk, hj, horder, hresp, hcommit⟩ := bookGA_issues h
  have hlen : ((issues.length : Nat) : Int) = (req.Tiers.map fun t => t.Quantity).sum := by
    rw [← length_replicate_tiers req.Tiers hq, ← htypes, List.length_map]
  refine ⟨?_, ?_, ?_, horder, ?_, hcommit,
    issues.map (Issue.row req (toString ed.EventID) (toString req.UserID)), htk, ?_, ?_, ?_,
    ?_⟩
  · rw [hresp, List.length_map, hlen]
  · rw [htk, List.length_append, List.length_map, Nat.cast_add, hlen]
  · rw [hj, List.length_append, List.length_map, Nat.cast_add, hlen]
  · intro x hx
    rw [hresp] at hx
    obtain ⟨i, hi, rfl⟩ := List.mem_map.mp hx
    refine ⟨rfl, ?_⟩
    simp only [Issue.response, (hall i hi).2.1, Option.map_none']
  · rw [hj, List.map_map]
    rfl
  · rw [List.map_map, ← htypes]
    rfl
  · rw [hresp, List.map_map, List.map_map]
    rfl
  · intro r hr
    obtain ⟨i, hi, rfl⟩ := List.mem_map.mp hr
    refine ⟨rfl, ?_, rfl, rfl⟩
    simp only [Issue.row, (hall i hi).1]
    rfl

/-- On the sample catalogue, with a storage that does not fail, the request for 1 unit of ticket type 1 and
2 units of ticket type 2 issues three tickets, of types 1, 2, 2 in that order, without
seat, and the order row counts 3 tickets. -/
theorem ga_ticket_issuance_witness :
    ((3 : Nat) : Int) =
      ((gaRequest 1 [⟨1, 1⟩, ⟨2, 2⟩]).Tiers.map fun t => t.Quantity).sum ∧
    ((BookGATickets (gaRequest 1 [⟨1, 1⟩, ⟨2, 2⟩]) (sampleSess [])).2.db.ticket.map
        fun t => (t.ID, t.TicketTypeID, t.SeatID, t.ToName)) =
      [(1, 1, none, "Ann"), (2, 2, none, "Ann"), (3, 2, none, "Ann")] ∧
    (BookGATickets (gaRequest 1 [⟨1, 1⟩, ⟨2, 2⟩]) (sampleSess [])).2.db.order_hast_tickets =
      [⟨1, 1⟩, ⟨1, 2⟩, ⟨1, 3⟩] ∧
    ((BookGATickets (gaRequest 1 [⟨1, 1⟩, ⟨2, 2⟩]) (sampleSess [])).2.db.order.map
        fun o => o.TotalTickets) = [3] :=
  ⟨(ga_ticket_issuance (gaRequest 1 [⟨1, 1⟩, ⟨2, 2⟩]) (sampleSess [])
      (BookGATickets (gaRequest 1 [⟨1, 1⟩, ⟨2, 2⟩]) (sampleSess [])).2
      { OrderID := 1, TotalAmount := 10500,
        Tickets := [{ ID := 1, TicketType := "General", SeatLabel := none, ToName := "Ann" },
                    { ID := 2, TicketType := "Premium", SeatLabel := none, ToName := "Ann" },
                    { ID := 3, TicketType := "Premium", SeatLabel := none,
                      ToName := "Ann" }] }
      (by rfl) (by decide)).1,
   by rfl, by rfl, by rfl⟩

/-- C13, evaluated where it fails. On the sample catalogue, when the storage fails the
final commit, `BookGATickets` for 1 unit of ticket type 1 and 2 units of ticket type 2
returns its response with three tickets, without error, while the committed tables hold
no `ticket` row, no `order_hast_tickets` row and no `order` row: the response counts 3
tickets where the store gained 0 rows. -/
theorem ga_tickets_reported_without_rows :
    (BookGATickets (gaRequest 1 [⟨1, 1⟩, ⟨2, 2⟩])
        (sampleSess (List.replicate 16 none ++ [some (Error.driver "commit failed")]))).1 =
      .ok { OrderID := 1, TotalAmount := 10500,
            Tickets := [{ ID := 1, TicketType := "General", SeatLabel := none,
                          ToName := "Ann" },
                        { ID := 2, TicketType := "Premium", SeatLabel := none,
                          ToName := "Ann" },
                        { ID := 3, TicketType := "Premium", SeatLabel := none,
                          ToName := "Ann" }] } ∧
    (BookGATickets (gaRequest 1 [⟨1, 1⟩, ⟨2, 2⟩])
        (sampleSess (List.replicate 16 none ++
          [some (Error.driver "commit failed")]))).2.db.ticket = [] ∧
    (BookGATickets (gaRequest 1 [⟨1, 1⟩, ⟨2, 2⟩])
        (sampleSess (List.replicate 16 none ++
          [some (Error.driver "commit failed")]))).2.db.order_hast_tickets = [] ∧
    (BookGATickets (gaRequest 1 [⟨1, 1⟩, ⟨2, 2⟩])
        (sampleSess (List.replicate 16 none ++
          [some (Error.driver "commit failed")]))).2.db.order = [] ∧
    (BookGATickets (gaRequest 1 [⟨1, 1⟩, ⟨2, 2⟩])
        (sampleSess (List.replicate 16 none ++
          [some (Error.driver "commit failed")]))).2.trace.head? =
      some TxEvent.commitFailed :=
  ⟨by rfl, by rfl, by rfl, by rfl, by rfl⟩

theorem createSeatTicket_ok {req : BookingRequest} {ev us : String}
    {orderID tt seatID : Int} {s s1 : Sess} {id : Int}
    (h : createSeatTicket req ev us orderID tt seatID s = (.ok id, s1)) :
    CreateTicket orderID us ev req.EventDateID tt seatID req.CustomerName s =
      (.ok id, s1) := by
  unfold createSeatTicket at h
  rcases hc : CreateTicket orderID us ev req.EventDateID tt seatID req.CustomerName s
    with ⟨r, s2⟩
  rw [hc] at h
  cases r with
  | ok a => exact h
  | error e =>
    dsimp only at h
    split at h <;> cases h

theorem seatedTickets_issues (req : BookingRequest) (ev us : String) (orderID : Int)
    (seats : List SeatBookingRequest) :
    ∀ (acc tickets : List TicketResponse) (s s1 : Sess),
      seatedTickets req ev us orderID seats acc s = (.ok tickets, s1) →
      ∃ issues : List Issue,
        issues.map (fun i => i.seatID) = seats.map (fun x => x.SeatID) ∧
        (∀ i ∈ issues,
          (∃ r, seatAssignment s.db req.EventDateID i.seatID = some r ∧
            i.ticketTypeID = r.TicketTypeID) ∧
          i.seat.isSome = true ∧ i.Faithful s.db (s.faults = [])) ∧
        s1.tx.ticket = s.tx.ticket ++ issues.map (Issue.row req ev us) ∧
        s1.tx.order_hast_tickets =
          s.tx.order_hast_tickets ++ issues.map (Issue.join orderID) ∧
        tickets = acc ++ issues.map (Issue.response req) ∧
        s1.db = s.db ∧ NoFaults s s1 := by
  induction seats with
  | nil =>
    intro acc tickets s s1 h
    cases h
    exact ⟨[], rfl, fun i hi => (by cases hi), by simp, by simp, by simp, rfl, fun h => h⟩
  | cons x rest ih =>
    intro acc tickets s s1 h
    unfold seatedTickets at h
    obtain ⟨⟨price, tt⟩, sp, hprice, hrest⟩ := Op.bind_ok h
    obtain ⟨tid, sa, hct, hrest⟩ := Op.bind_ok hrest
    obtain ⟨lks, sb, hlooks, hrest⟩ := Op.bind_ok hrest
    obtain ⟨lkt, sc, hlookt, hrest⟩ := Op.bind_ok hrest
    rw [attempt_getSeatByID_run] at hlooks
    obtain ⟨hlks, hsb⟩ := Prod.mk.inj hlooks
    have hlks := Except.ok.inj hlks
    subst hsb
    rw [attempt_getTicketTypeByID_run] at hlookt
    obtain ⟨hlkt, hsc⟩ := Prod.mk.inj hlookt
    have hlkt := Except.ok.inj hlkt
    subst hsc
    obtain ⟨r, hr, -, htt⟩ := getSeatPriceAndTicketType_ok hprice
    have hrp : ReadFrame s sp :=
      (keeps_GetSeatPriceAndTicketType readFrame_stable _ _).of_eq hprice
    have hfp : NoFaults s sp :=
      (keeps_GetSeatPriceAndTicketType noFaults_stable _ _).of_eq hprice
    have hct := createSeatTicket_ok hct
    obtain ⟨hrow, hjoin, hdba⟩ := createTicket_ok hct
    have hfa : NoFaults sp sa := (noFaults_CreateTicket _ _ _ _ _ _ _).of_eq hct
    obtain ⟨issues, hseats, hall, htk, hj, hresp, hdb, hf⟩ := ih _ _ _ _ hrest
    have hdbs : sa.db = s.db := hdba.trans hrp.1
    have hdbn : sa.next.next.db = s.db := hdbs
    have hq1 : s.faults = [] → sa.faults = [] := fun h0 => hfa (hfp h0)
    have hq2 : s.faults = [] → sa.next.faults = [] := fun h0 =>
      Sess.next_faults_of_quiet (hq1 h0)
    have hq3 : s.faults = [] → sa.next.next.faults = [] := fun h0 =>
      Sess.next_faults_of_quiet (hq2 h0)
    obtain ⟨hs1, hs2⟩ := @seat_faithful s.db x.SeatID sa hdbs
    obtain ⟨ht1, ht2⟩ := @ticketType_faithful s.db tt sa.next hdbs
    refine ⟨⟨tid, tt, x.SeatID, lkt, some lks⟩ :: issues, by simp [hseats], ?_, ?_, ?_, ?_,
      hdb.trans hdbn, fun h0 => hf (hq3 h0)⟩
    · intro i hi
      rcases List.mem_cons.mp hi with rfl | hi
      · refine ⟨⟨r, hr, htt⟩, rfl, ?_, ?_, ?_⟩
        · intro t ht
          exact ht1 t (hlkt.trans ht)
        · intro y hy
          exact hs1 y (hlks.trans (Option.some.inj hy))
        · intro h0
          refine ⟨hlkt.symm.trans (ht2 (hq2 h0)), fun r hr => ?_⟩
          rw [← Option.some.inj hr]
          exact hlks.symm.trans (hs2 (hq1 h0))
      · obtain ⟨⟨r1, hr1, htt1⟩, h3, h4⟩ := hall i hi
        refine ⟨⟨r1, ?_, htt1⟩, h3, h4.mono hdbn hq3⟩
        rw [← hdbn]
        exact hr1
    · rw [htk]
      have : sa.next.next.tx = sa.tx := rfl
      rw [this, hrow, hrp.2.1, List.map_cons, List.append_assoc]
      rfl
    · rw [hj]
      have : sa.next.next.tx = sa.tx := rfl
      rw [this, hjoin, hrp.2.1, List.map_cons, List.append_assoc]
      rfl
    · rw [hresp, List.map_cons, List.append_assoc, ← hlkt, ← hlks]
      rfl
theorem createOrder_joins {u n : Int} {a p : String} {s s1 : Sess} {id : Int}
    (h : CreateOrder u n a p s = (.ok id, s1)) :
    s1.tx.order_hast_tickets = s.tx.order_hast_tickets := by
  have h1 := stmt_ok h
  rcases s with ⟨db, tx, no, nt, faults, trace⟩
  cases tx
  cases h1
  rfl

/-- What a seated booking that returned a response did: the transaction wrote one order
row, and for each requested seat, in request order, one `ticket` row of the ticket type
on the seat assignment and one `order_hast_tickets` row; the response lists them. -/
theorem bookSeated_issues {req : BookingRequest} {s s3 : Sess} {resp : BookingResponse}
    (h : BookSeatedTickets req s = (.ok resp, s3)) :
    ∃ (ed : EventDate) (issues : List Issue),
      issues.map (fun i => i.seatID) = req.Seats.map (fun x => x.SeatID) ∧
      (∀ i ∈ issues,
        (∃ r, seatAssignment s.db req.EventDateID i.seatID = some r ∧
          i.ticketTypeID = r.TicketTypeID) ∧
        i.seat.isSome = true ∧ i.Faithful s.db (s.faults = [])) ∧
      s3.tx.ticket = s.db.ticket ++
        issues.map (Issue.row req (toString ed.EventID) (toString req.UserID)) ∧
      s3.tx.order_hast_tickets =
        s.db.order_hast_tickets ++ issues.map (Issue.join resp.OrderID) ∧
      resp.Tickets = issues.map (Issue.response req) ∧
      ((s3.trace.head? = some TxEvent.committed ∨ s.faults = []) → s3.db = s3.tx) := by
  obtain ⟨ed, s0, hl, _, hw⟩ := book_seated_ok h
  obtain ⟨s1, s2, hb, hfn, hs3⟩ := withTx_ok hw
  have hr0 : ReadFrame s s0 := (keeps_GetEventDateByID readFrame_stable _).of_eq hl
  have hf0 : NoFaults s s0 := (keeps_GetEventDateByID noFaults_stable _).of_eq hl
  obtain ⟨hdb1, htx1, _, _, hf1⟩ := beginx_ok hb
  have hf2 : NoFaults s1 s2 := (noFaults_seatedBody req ed).of_eq hfn
  unfold seatedBody at hfn
  obtain ⟨booked, sa, hcheck, hrest⟩ := Op.bind_ok hfn
  have hra : ReadFrame s1 sa := (keeps_CheckSeatAvailability readFrame_stable _ _).of_eq hcheck
  have hfa : NoFaults s1 sa := (keeps_CheckSeatAvailability noFaults_stable _ _).of_eq hcheck
  split at hrest
  · cases hrest
  · obtain ⟨total, sb, htotal, hrest⟩ := Op.bind_ok hrest
    have hrb : ReadFrame sa sb := (keeps_seatedTotal readFrame_stable _ _ _).of_eq htotal
    have hfb : NoFaults sa sb := (keeps_seatedTotal noFaults_stable _ _ _).of_eq htotal
    obtain ⟨orderID, sc, horder, hrest⟩ := Op.bind_ok hrest
    have hfc : NoFaults sb sc :=
      (noFaults_stmt _ fun ⟨_, _, _, _, _, _⟩ => rfl).of_eq horder
    obtain ⟨tickets, sd, htickets, hpure⟩ := Op.bind_ok hrest
    cases hpure
    obtain ⟨-, hdbc, -⟩ := createOrder_ok horder
    have htkc := createOrder_ticket horder
    have hjc := createOrder_joins horder
    obtain ⟨issues, hseats, hall, htk, hj, hresp, hdbd, -⟩ :=
      seatedTickets_issues _ _ _ _ _ _ _ _ _ htickets
    have hdbs : sc.db = s.db := by rw [hdbc, hrb.1, hra.1, hdb1, hr0.1]
    obtain ⟨hcdb, hctx⟩ := commit_db s2
    refine ⟨ed, issues, hseats, ?_, ?_, ?_, by simpa using hresp, ?_⟩
    · intro i hi
      obtain ⟨⟨r, hr, htt⟩, h3, h4⟩ := hall i hi
      refine ⟨⟨r, ?_, htt⟩, h3, h4.mono hdbs fun h0 => hfc (hfb (hfa (hf1 (hf0 h0))))⟩
      rw [← hdbs]
      exact hr
    · rw [hs3, hctx, htk, htkc, hrb.2.1, hra.2.1, htx1, hr0.1]
    · rw [hs3, hctx, hj, hjc, hrb.2.1, hra.2.1, htx1, hr0.1]
    · intro hc
      rw [hs3, hctx]
      apply hcdb
      rcases hc with hc | hc
      · left; rw [← hs3]; exact hc
      · right; exact hf2 (hf1 (hf0 hc))

/-- The tickets a seated booking issues inside its transaction: whenever
`BookSeatedTickets` returns a response for a request over seats s_1..s_n whose seat ids
are all non-zero, the transaction wrote exactly n `ticket` rows; the i-th is bound to
seat s_i and carries the ticket-type id of the seat assignment of (occurrence, s_i),
whatever `ticketTypeId` the request gave for that seat; the response has n tickets, the
i-th with the id of the i-th row, each with a seat label present and the request's holder
name. The rows reach the committed tables only when the commit takes effect, which a
returned response does not imply. -/
theorem seated_ticket_issuance (req : BookingRequest) (s s3 : Sess) (resp : BookingResponse)
    (h : BookSeatedTickets req s = (.ok resp, s3))
    (hnz : ∀ x ∈ req.Seats, x.SeatID ≠ 0) :
    s3.tx.ticket.length = s.db.ticket.length + req.Seats.length ∧
    resp.Tickets.length = req.Seats.length ∧
    (∀ x ∈ resp.Tickets, x.SeatLabel.isSome = true ∧ x.ToName = req.CustomerName) ∧
    ((s3.trace.head? = some TxEvent.committed ∨ s.faults = []) → s3.db = s3.tx) ∧
    ∃ rows : List Ticket,
      s3.tx.ticket = s.db.ticket ++ rows ∧
      rows.map (fun r => r.SeatID) = req.Seats.map (fun x => some x.SeatID) ∧
      rows.map (fun r => some r.TicketTypeID) =
        req.Seats.map (fun x =>
          (seatAssignment s.db req.EventDateID x.SeatID).map fun a => a.TicketTypeID) ∧
      resp.Tickets.map (fun x => x.ID) = rows.map (fun r => r.ID) ∧
      ∀ r ∈ rows, r.EventDateID = req.EventDateID ∧ r.ToName = req.CustomerName := by
  obtain ⟨ed, issues, hseats, hall, htk, hj, hresp, hcommit⟩ := bookSeated_issues h
  have hlen : issues.length = req.Seats.length := by
    have := congrArg List.length hseats
    simpa using this
  refine ⟨?_, ?_, ?_, hcommit,
    issues.map (Issue.row req (toString ed.EventID) (toString req.UserID)), htk, ?_, ?_, ?_,
    ?_⟩
  · rw [htk, List.length_append, List.length_map, hlen]
  · rw [hresp, List.length_map, hlen]
  · intro x hx
    rw [hresp] at hx
    obtain ⟨i, hi, rfl⟩ := List.mem_map.mp hx
    refine ⟨?_, rfl⟩
    obtain ⟨-, hsome, -⟩ := hall i hi
    simp only [Issue.response, Option.isSome_map']
    exact hsome
  · have e1 : req.Seats.map (fun x => some x.SeatID) =
        (req.Seats.map fun x => x.SeatID).map some := by
      rw [List.map_map]; rfl
    rw [e1, ← hseats, List.map_map, List.map_map]
    apply List.map_congr_left
    intro i hi
    have hmem : i.seatID ∈ req.Seats.map (fun x => x.SeatID) := by
      rw [← hseats]
      exact List.mem_map_of_mem _ hi
    obtain ⟨x, hx, hxi⟩ := List.mem_map.mp hmem
    have hne : i.seatID ≠ 0 := hxi ▸ hnz x hx
    simp [Issue.row, seatValue, hne]
  · have e1 : req.Seats.map (fun x =>
          (seatAssignment s.db req.EventDateID x.SeatID).map fun a => a.TicketTypeID) =
        (req.Seats.map fun x => x.SeatID).map fun sid =>
          (seatAssignment s.db req.EventDateID sid).map fun a => a.TicketTypeID := by
      rw [List.map_map]; rfl
    rw [e1, ← hseats, List.map_map, List.map_map]
    apply List.map_congr_left
    intro i hi
    obtain ⟨⟨r, hr, htt⟩, -, -⟩ := hall i hi
    simp [Issue.row, hr, htt]
  · rw [hresp, List.map_map, List.map_map]
    rfl
  · intro r hr
    obtain ⟨i, hi, rfl⟩ := List.mem_map.mp hr
    exact ⟨rfl, rfl⟩
/-- With a storage that does not fail: seats 1 and 2 of occurrence 2 of the sample catalogue, requested with
ticket-type ids 99 and 1: two rows are added, bound to seats 1 and 2, both of ticket
type 2 as the seat assignments say, and both response tickets carry a seat label. -/
theorem seated_ticket_issuance_witness :
    (BookSeatedTickets (seatedRequest 2 [⟨1, 99⟩, ⟨2, 1⟩]) (sampleSess [])).2.tx.ticket.length =
      (sampleSess []).db.ticket.length + (seatedRequest 2 [⟨1, 99⟩, ⟨2, 1⟩]).Seats.length ∧
    ((BookSeatedTickets (seatedRequest 2 [⟨1, 99⟩, ⟨2, 1⟩]) (sampleSess [])).2.db.ticket.map
        fun t => (t.ID, t.SeatID, t.TicketTypeID)) = [(1, some 1, 2), (2, some 2, 2)] ∧
    (BookSeatedTickets (seatedRequest 2 [⟨1, 99⟩, ⟨2, 1⟩]) (sampleSess [])).1.toOption.map
        (fun r => r.Tickets) =
      some [{ ID := 1, TicketType := "Premium", SeatLabel := some "A11", ToName := "Ann" },
            { ID := 2, TicketType := "Premium", SeatLabel := some "A12", ToName := "Ann" }] :=
  ⟨(seated_ticket_issuance (seatedRequest 2 [⟨1, 99⟩, ⟨2, 1⟩]) (sampleSess [])
      (BookSeatedTickets (seatedRequest 2 [⟨1, 99⟩, ⟨2, 1⟩]) (sampleSess [])).2
      { OrderID := 1, TotalAmount := 9500,
        Tickets := [{ ID := 1, TicketType := "Premium", SeatLabel := some "A11",
                      ToName := "Ann" },
                    { ID := 2, TicketType := "Premium", SeatLabel := some "A12",
                      ToName := "Ann" }] }
      (by rfl) (by decide)).1,
   by rfl, by rfl⟩

/-- C14, evaluated where it fails. On the sample catalogue, when the storage fails the
final commit, `BookSeatedTickets` for seats 1 and 2 of occurrence 2 returns its response
with two tickets, each with a seat label, without error, while the committed `ticket`
table holds no row: 0 rows were added where the claim counts 2, and no stored ticket is
bound to seat 1 or to seat 2. -/
theorem seated_tickets_reported_without_rows :
    (BookSeatedTickets (seatedRequest 2 [⟨1, 99⟩, ⟨2, 1⟩])
        (sampleSess (List.replicate 16 none ++ [some (Error.driver "commit failed")]))).1 =
      .ok { OrderID := 1, TotalAmount := 9500,
            Tickets := [{ ID := 1, TicketType := "Premium", SeatLabel := some "A11",
                          ToName := "Ann" },
                        { ID := 2, TicketType := "Premium", SeatLabel := some "A12",
                          ToName := "Ann" }] } ∧
    (BookSeatedTickets (seatedRequest 2 [⟨1, 99⟩, ⟨2, 1⟩])
        (sampleSess (List.replicate 16 none ++
          [some (Error.driver "commit failed")]))).2.db.ticket = [] ∧
    (BookSeatedTickets (seatedRequest 2 [⟨1, 99⟩, ⟨2, 1⟩])
        (sampleSess (List.replicate 16 none ++
          [some (Error.driver "commit failed")]))).2.db.order_hast_tickets = [] ∧
    (BookSeatedTickets (seatedRequest 2 [⟨1, 99⟩, ⟨2, 1⟩])
        (sampleSess (List.replicate 16 none ++
          [some (Error.driver "commit failed")]))).2.trace.head? =
      some TxEvent.commitFailed :=
  ⟨by rfl, by rfl, by rfl, by rfl⟩

/-! ## C15: catalogue lookups are best-effort -/

theorem Op.bind_cases {α β : Type} {m : Op α} {f : α → Op β} {s s2 : Sess} {e : Error}
    (h : (m >>= f) s = (.error e, s2)) :
    m s = (.error e, s2) ∨ ∃ a s1, m s = (.ok a, s1) ∧ f a s1 = (.error e, s2) := by
  rw [Op.bind_apply] at h
  rcases hm : m s with ⟨r, s1⟩
  rw [hm] at h
  cases r with
  | error e1 => left; simpa using h
  | ok a => right; exact ⟨a, s1, rfl, h⟩

/-- A failure of the inner ticket loop of a GA booking is the failure of a
`CreateTicket` call, made on the session the iterations before it left. -/
theorem gaTierTickets_error (req : BookingRequest) (ev us : String) (orderID : Int)
    (tier : TierBookingRequest) (n : Nat) :
    ∀ (acc : List TicketResponse) (s s1 : Sess) (e : Error),
      gaTierTickets req ev us orderID tier n acc s = (.error e, s1) →
      ∃ (k : Nat) (done : List TicketResponse) (s0 : Sess), k < n ∧
        gaTierTickets req ev us orderID tier k acc s = (.ok done, s0) ∧
        CreateTicket orderID us ev req.EventDateID tier.TicketTypeID 0 req.CustomerName s0 =
          (.error e, s1) := by
  induction n with
  | zero => intro acc s s1 e h; cases h
  | succ n ih =>
    intro acc s s1 e h
    unfold gaTierTickets at h
    rcases Op.bind_cases h with hct | ⟨tid, sa, hct, hrest⟩
    · exact ⟨0, acc, s, Nat.succ_pos _, rfl, hct⟩
    · rcases Op.bind_cases hrest with hlook | ⟨lk, sb, hlook, hrest⟩
      · rw [attempt_getTicketTypeByID_run] at hlook
        cases hlook
      · obtain ⟨k, done, s0, hk, hrun, hfail⟩ := ih _ _ _ _ hrest
        refine ⟨k + 1, done, s0, Nat.succ_lt_succ hk, ?_, hfail⟩
        unfold gaTierTickets
        rw [Op.bind_of_ok hct, Op.bind_of_ok hlook]
        exact hrun

/-- A failure of the ticket loop of a GA booking is the failure of the inner loop of one
tier, run on the session the tiers before it left. -/
theorem gaTickets_error (req : BookingRequest) (ev us : String) (orderID : Int)
    (tiers : List TierBookingRequest) :
    ∀ (acc : List TicketResponse) (s s1 : Sess) (e : Error),
      gaTickets req ev us orderID tiers acc s = (.error e, s1) →
      ∃ (pre : List TierBookingRequest) (tier : TierBookingRequest)
        (post : List TierBookingRequest) (done : List TicketResponse) (s0 : Sess),
        tiers = pre ++ tier :: post ∧
        gaTickets req ev us orderID pre acc s = (.ok done, s0) ∧
        gaTierTickets req ev us orderID tier tier.Quantity.toNat done s0 =
          (.error e, s1) := by
  induction tiers with
  | nil => intro acc s s1 e h; cases h
  | cons tier rest ih =>
    intro acc s s1 e h
    unfold gaTickets at h
    rcases Op.bind_cases h with htier | ⟨t1, sa, htier, hrest⟩
    · exact ⟨[], tier, rest, acc, s, rfl, rfl, htier⟩
    · obtain ⟨pre, x, post, done, s0, hsplit, hrun, hfail⟩ := ih _ _ _ _ hrest
      refine ⟨tier :: pre, x, post, done, s0, by rw [hsplit]; rfl, ?_, hfail⟩
      unfold gaTickets
      rw [Op.bind_of_ok htier]
      exact hrun

/-- A failure of the ticket loop of a seated booking is the failure of the read of a seat
assignment or of a ticket creation, made on the session the seats before it left. -/
theorem seatedTickets_error (req : BookingRequest) (ev us : String) (orderID : Int)
    (seats : List SeatBookingRequest) :
    ∀ (acc : List TicketResponse) (s s1 : Sess) (e : Error),
      seatedTickets req ev us orderID seats acc s = (.error e, s1) →
      ∃ (pre : List SeatBookingRequest) (x : SeatBookingRequest)
        (post : List SeatBookingRequest) (done : List TicketResponse) (s0 : Sess),
        seats = pre ++ x :: post ∧
        seatedTickets req ev us orderID pre acc s = (.ok done, s0) ∧
        (GetSeatPriceAndTicketType req.EventDateID x.SeatID s0 = (.error e, s1) ∨
          ∃ (price ticketTypeID : Int) (sp : Sess),
            GetSeatPriceAndTicketType req.EventDateID x.SeatID s0 =
              (.ok (price, ticketTypeID), sp) ∧
            createSeatTicket req ev us orderID ticketTypeID x.SeatID sp = (.error e, s1)) := by
  induction seats with
  | nil => intro acc s s1 e h; cases h
  | cons x rest ih =>
    intro acc s s1 e h
    unfold seatedTickets at h
    rcases Op.bind_cases h with hprice | ⟨⟨price, tt⟩, sp, hprice, hrest⟩
    · exact ⟨[], x, rest, acc, s, rfl, rfl, Or.inl hprice⟩
    · rcases Op.bind_cases hrest with hct | ⟨tid, sa, hct, hrest⟩
      · exact ⟨[], x, rest, acc, s, rfl, rfl, Or.inr ⟨price, tt, sp, hprice, hct⟩⟩
      · rcases Op.bind_cases hrest with hlook | ⟨lks, sb, hlooks, hrest⟩
        · rw [attempt_getSeatByID_run] at hlook
          cases hlook
        · rcases Op.bind_cases hrest with hlook | ⟨lkt, sc, hlookt, hrest⟩
          · rw [attempt_getTicketTypeByID_run] at hlook
            cases hlook
          · obtain ⟨pre, y, post, done, s0, hsplit, hrun, hfail⟩ := ih _ _ _ _ hrest
            refine ⟨x :: pre, y, post, done, s0, by rw [hsplit]; rfl, ?_, hfail⟩
            unfold seatedTickets
            rw [Op.bind_of_ok hprice]
            dsimp only
            rw [Op.bind_of_ok hct, Op.bind_of_ok hlooks, Op.bind_of_ok hlookt]
            exact hrun
/-- C15. Catalogue lookups are best-effort. The ticket-type lookup and the seat lookup
made for the response never return an error to the booking: the call is one statement
whose failure, by the storage or because the catalogue has no such row, is kept as a
value. So a failure of the ticket loop of a GA booking is the failure of a `CreateTicket`
call, and a failure of the ticket loop of a seated booking is the failure of the read of
a seat assignment or of a ticket creation, each made on the session the iterations
before it left: when those succeed the loop returns its tickets. A failed ticket-type
lookup for id `t` gives the name "TicketType-" followed by the decimal of `t`, a failed
seat lookup for id `s` the label "Seat-" followed by the decimal of `s`, and a lookup
that returned a row gives the catalogue name and section, row and number concatenated.
In every booking that returned a response, each response ticket is named from its own
lookups in this way; a row a lookup returned is the catalogue row, and when the storage
fails no statement each lookup returned what the catalogue holds. -/
theorem lookups_best_effort :
    (∀ (t : Int) (s : Sess),
      Op.attempt (GetTicketTypeByID t) s =
        (.ok (match s.pendingFault with
              | some e => .error e
              | none => ticketTypeLookup s.db t), s.next)) ∧
    (∀ (seatID : Int) (s : Sess),
      Op.attempt (GetSeatByID seatID) s =
        (.ok (match s.pendingFault with
              | some e => .error e
              | none => seatLookup s.db seatID), s.next)) ∧
    (∀ (req : BookingRequest) (ev us : String) (orderID : Int)
        (tiers : List TierBookingRequest) (acc : List TicketResponse) (s s1 : Sess)
        (e : Error),
      gaTickets req ev us orderID tiers acc s = (.error e, s1) →
      ∃ (pre : List TierBookingRequest) (tier : TierBookingRequest)
        (post : List TierBookingRequest) (k : Nat) (done0 done : List TicketResponse)
        (s0 s2 : Sess),
        tiers = pre ++ tier :: post ∧ k < tier.Quantity.toNat ∧
        gaTickets req ev us orderID pre acc s = (.ok done0, s0) ∧
        gaTierTickets req ev us orderID tier k done0 s0 = (.ok done, s2) ∧
        CreateTicket orderID us ev req.EventDateID tier.TicketTypeID 0 req.CustomerName s2 =
          (.error e, s1)) ∧
    (∀ (req : BookingRequest) (ev us : String) (orderID : Int)
        (seats : List SeatBookingRequest) (acc : List TicketResponse) (s s1 : Sess)
        (e : Error),
      seatedTickets req ev us orderID seats acc s = (.error e, s1) →
      ∃ (pre : List SeatBookingRequest) (x : SeatBookingRequest)
        (post : List SeatBookingRequest) (done : List TicketResponse) (s0 : Sess),
        seats = pre ++ x :: post ∧
        seatedTickets req ev us orderID pre acc s = (.ok done, s0) ∧
        (GetSeatPriceAndTicketType req.EventDateID x.SeatID s0 = (.error e, s1) ∨
          ∃ (price ticketTypeID : Int) (sp : Sess),
            GetSeatPriceAndTicketType req.EventDateID x.SeatID s0 =
              (.ok (price, ticketTypeID), sp) ∧
            createSeatTicket req ev us orderID ticketTypeID x.SeatID sp =
              (.error e, s1))) ∧
    (∀ (t : Int) (e : Error), ticketTypeName t (.error e) = "TicketType-" ++ toString t) ∧
    (∀ (t : Int) (row : TicketType), ticketTypeName t (.ok row) = row.Name) ∧
    (∀ (seatID : Int) (e : Error), seatLabel seatID (.error e) = "Seat-" ++ toString seatID) ∧
    (∀ (seatID : Int) (row : Seat),
      seatLabel seatID (.ok row) = row.Section ++ row.Row ++ row.Number) ∧
    (∀ (req : BookingRequest) (s s3 : Sess) (resp : BookingResponse),
      BookGATickets req s = (.ok resp, s3) →
      ∃ issues : List Issue,
        resp.Tickets = issues.map (Issue.response req) ∧
        issues.map (fun i => i.ticketTypeID) =
          req.Tiers.flatMap (fun t => List.replicate t.Quantity.toNat t.TicketTypeID) ∧
        ∀ i ∈ issues, i.seat = none ∧ i.Faithful s.db (s.faults = [])) ∧
    (∀ (req : BookingRequest) (s s3 : Sess) (resp : BookingResponse),
      BookSeatedTickets req s = (.ok resp, s3) →
      ∃ issues : List Issue,
        resp.Tickets = issues.map (Issue.response req) ∧
        issues.map (fun i => i.seatID) = req.Seats.map (fun x => x.SeatID) ∧
        ∀ i ∈ issues,
          (∃ r, seatAssignment s.db req.EventDateID i.seatID = some r ∧
            i.ticketTypeID = r.TicketTypeID) ∧
          i.seat.isSome = true ∧ i.Faithful s.db (s.faults = [])) := by
  refine ⟨attempt_getTicketTypeByID_run, attempt_getSeatByID_run, ?_, ?_,
    fun _ _ => rfl, fun _ _ => rfl, fun _ _ => rfl, fun _ _ => rfl, ?_, ?_⟩
  · intro req ev us orderID tiers acc s s1 e h
    obtain ⟨pre, tier, post, done0, s0, hsplit, hrun, hfail⟩ :=
      gaTickets_error req ev us orderID tiers acc s s1 e h
    obtain ⟨k, done, s2, hk, hrun2, hfail2⟩ :=
      gaTierTickets_error req ev us orderID tier _ done0 s0 s1 e hfail
    exact ⟨pre, tier, post, k, done0, done, s0, s2, hsplit, hk, hrun, hrun2, hfail2⟩
  · exact seatedTickets_error
  · intro req s s3 resp h
    obtain ⟨ed, issues, htypes, hall, -, -, -, hresp, -⟩ := bookGA_issues h
    exact ⟨issues, hresp, htypes, fun i hi => ⟨(hall i hi).2.1, (hall i hi).2.2⟩⟩
  · intro req s s3 resp h
    obtain ⟨ed, issues, hseats, hall, -, -, hresp, -⟩ := bookSeated_issues h
    exact ⟨issues, hresp, hseats, hall⟩

/-- Witness of C15: on the sample catalogue a GA booking whose ticket-type lookup the
storage fails, and a seated booking whose seat lookup and ticket-type lookup it fails,
still succeed and are committed, with the synthetic names; without failures the names
are those of the catalogue. -/
theorem lookups_best_effort_witness :
    Op.attempt (GetTicketTypeByID 1) (sampleSess [some (Error.driver "bad connection")]) =
      (.ok (.error (Error.driver "bad connection")), sampleSess []) ∧
    (BookGATickets (gaRequest 1 [⟨1, 1⟩])
        (sampleSess (List.replicate 7 none ++
          [some (Error.driver "bad connection")]))).1.toOption.map (fun r => r.Tickets) =
      some [{ ID := 1, TicketType := "TicketType-1", SeatLabel := none, ToName := "Ann" }] ∧
    (BookGATickets (gaRequest 1 [⟨1, 1⟩])
        (sampleSess (List.replicate 7 none ++
          [some (Error.driver "bad connection")]))).2.db.ticket.length = 1 ∧
    (BookSeatedTickets (seatedRequest 2 [⟨1, 2⟩])
        (sampleSess (List.replicate 8 none ++
          [some (Error.driver "bad connection"),
           some (Error.driver "bad connection")]))).1.toOption.map (fun r => r.Tickets) =
      some [{ ID := 1, TicketType := "TicketType-2", SeatLabel := some "Seat-1",
              ToName := "Ann" }] ∧
    (BookSeatedTickets (seatedRequest 2 [⟨1, 2⟩]) (sampleSess [])).1.toOption.map
        (fun r => r.Tickets) =
      some [{ ID := 1, TicketType := "Premium", SeatLabel := some "A11", ToName := "Ann" }] :=
  ⟨lookups_best_effort.1 1 (sampleSess [some (Error.driver "bad connection")]),
   by rfl, by rfl, by rfl, by rfl⟩
/-! ## C18, C19, C20: the transport layer -/

/-- The response of `CreateBooking` to an error of the booking service that is not one
of the three sentinel values themselves: 500 INTERNAL_ERROR. -/
theorem bookingFailure_other (err : Error) (h1 : err ≠ Error.ErrInsufficientInventory)
    (h2 : err ≠ Error.ErrSeatAlreadyTaken) (h3 : err ≠ Error.ErrNotFound) :
    handlers.bookingFailure err = handlers.InternalServerError "Failed to create booking" := by
  unfold handlers.bookingFailure
  rw [if_neg h1, if_neg h2, if_neg h3]

/-- A request that passes the field checks of `CreateBooking` is routed by its tiers
first. -/
theorem createBooking_routes (req : BookingRequest) (s : Sess)
    (h1 : req.EventDateID ≠ 0) (h2 : req.CustomerName ≠ "") (h3 : req.PaymentSource ≠ "")
    (h4 : req.UserID ≠ 0) :
    handlers.CreateBooking (some req) s =
      if req.Tiers.length > 0 then handlers.bookingResult (BookGATickets req s)
      else if req.Seats.length > 0 then handlers.bookingResult (BookSeatedTickets req s)
      else (handlers.BadRequest "Either tiers or seats must be provided", s) := by
  unfold handlers.CreateBooking
  dsimp only
  rw [if_neg h1, if_neg h2, if_neg h3, if_neg h4]

/-- C18, evaluated where it fails. On the sample catalogue a GA request for 3 tickets of
ticket type 1 (2 left) makes `BookGATickets` fail with an error wrapping
`ErrInsufficientInventory`, and a seated request for seat 1 after seat 1 was booked makes
`BookSeatedTickets` fail with an error wrapping `ErrSeatAlreadyTaken`; `CreateBooking`
answers both with status 500 and code "INTERNAL_ERROR", because it compares the error
with the sentinels by identity. A missing occurrence is answered with 404 "NOT_FOUND". -/
theorem business_failures_reported_as_internal_error :
    (∃ e, (BookGATickets (gaRequest 1 [⟨1, 3⟩]) (sampleSess [])).1 = .error e ∧
      e.Is Error.ErrInsufficientInventory = true) ∧
    (handlers.CreateBooking (some (gaRequest 1 [⟨1, 3⟩])) (sampleSess [])).1 =
      handlers.Error 500 "INTERNAL_ERROR" "Failed to create booking" ∧
    (∃ e, (BookSeatedTickets (seatedRequest 2 [⟨1, 2⟩])
        (BookSeatedTickets (seatedRequest 2 [⟨1, 2⟩]) (sampleSess [])).2).1 = .error e ∧
      e.Is Error.ErrSeatAlreadyTaken = true) ∧
    (handlers.CreateBooking (some (seatedRequest 2 [⟨1, 2⟩]))
        (BookSeatedTickets (seatedRequest 2 [⟨1, 2⟩]) (sampleSess [])).2).1 =
      handlers.Error 500 "INTERNAL_ERROR" "Failed to create booking" ∧
    (handlers.CreateBooking (some (gaRequest 99 [⟨1, 1⟩])) (sampleSess [])).1 =
      handlers.Error 404 "NOT_FOUND" "Event date not found" :=
  ⟨⟨_, by rfl, by rfl⟩, by rfl, ⟨_, by rfl, by rfl⟩, by rfl, by rfl⟩

/-- What `CreateBooking` answers to the failures of the booking service, in general: an
error built by wrapping (as the InsufficientInventory and SeatAlreadyTaken errors of the
service are) gets 500 INTERNAL_ERROR, and so does a mode mismatch; the sentinel
`ErrNotFound` gets 404 NOT_FOUND. -/
theorem bookingFailure_cases :
    (∀ inner msg, handlers.bookingFailure (Error.Wrapf inner msg) =
      handlers.Error 500 "INTERNAL_ERROR" "Failed to create booking") ∧
    (∀ msg, handlers.bookingFailure (Error.Errorf msg) =
      handlers.Error 500 "INTERNAL_ERROR" "Failed to create booking") ∧
    (∀ msg, handlers.bookingFailure (Error.driver msg) =
      handlers.Error 500 "INTERNAL_ERROR" "Failed to create booking") ∧
    handlers.bookingFailure Error.ErrNotFound =
      handlers.Error 404 "NOT_FOUND" "Event date not found" :=
  ⟨fun _ _ => rfl, fun _ => rfl, fun _ => rfl, rfl⟩

/-- C19, refuted as stated: on the sample catalogue a GA request against the seated
occurrence 2 (a mode mismatch) and a GA request whose UPDATE the storage fails (an
unexpected failure) get the same status and error code from `CreateBooking`. -/
theorem mode_mismatch_pair_equals_unexpected_pair :
    (BookGATickets (gaRequest 2 [⟨1, 1⟩]) (sampleSess [])).1 =
      .error (Error.Errorf "event date is not GA mode") ∧
    (BookGATickets (gaRequest 1 [⟨1, 1⟩])
      (sampleSess [none, none, some (Error.driver "connection lost")])).1 =
      .error (Error.driver "connection lost") ∧
    ((handlers.CreateBooking (some (gaRequest 2 [⟨1, 1⟩])) (sampleSess [])).1.status,
     (handlers.CreateBooking (some (gaRequest 2 [⟨1, 1⟩])) (sampleSess [])).1.code) =
    ((handlers.CreateBooking (some (gaRequest 1 [⟨1, 1⟩]))
        (sampleSess [none, none, some (Error.driver "connection lost")])).1.status,
     (handlers.CreateBooking (some (gaRequest 1 [⟨1, 1⟩]))
        (sampleSess [none, none, some (Error.driver "connection lost")])).1.code) :=
  ⟨by rfl, by rfl, by rfl⟩

/-- C19, amended. `CreateBooking` has no error kind for a mode mismatch: for every
request that passes its field checks and meets an occurrence of the other seating mode,
the answer is 500 "INTERNAL_ERROR", the answer it gives to every error that is none of
the three sentinel values (an unexpected storage failure among them); and the (status,
error code) pairs its error mapping gives to `ErrNotFound`, `ErrInsufficientInventory`,
`ErrSeatAlreadyTaken` and to an error that is none of them are pairwise different. -/
theorem error_pairs (req : BookingRequest) (s s1 : Sess) (eventDate : EventDate)
    (h1 : req.EventDateID ≠ 0) (h2 : req.CustomerName ≠ "") (h3 : req.PaymentSource ≠ "")
    (h4 : req.UserID ≠ 0)
    (hlookup : GetEventDateByID req.EventDateID s = (.ok eventDate, s1)) :
    (req.Tiers ≠ [] → eventDate.SeatingMode ≠ "GA" →
      handlers.CreateBooking (some req) s =
        (handlers.Error 500 "INTERNAL_ERROR" "Failed to create booking", s1)) ∧
    (req.Tiers = [] → req.Seats ≠ [] → eventDate.SeatingMode ≠ "SEATED" →
      handlers.CreateBooking (some req) s =
        (handlers.Error 500 "INTERNAL_ERROR" "Failed to create booking", s1)) ∧
    (∀ err, err ≠ Error.ErrInsufficientInventory → err ≠ Error.ErrSeatAlreadyTaken →
      err ≠ Error.ErrNotFound →
      handlers.bookingFailure err =
        handlers.Error 500 "INTERNAL_ERROR" "Failed to create booking") ∧
    ([Error.ErrNotFound, Error.ErrInsufficientInventory, Error.ErrSeatAlreadyTaken,
      Error.driver "connection lost"].map fun err =>
        ((handlers.bookingFailure err).status, (handlers.bookingFailure err).code)) =
      [(404, some "NOT_FOUND"), (409, some "INSUFFICIENT_INVENTORY"),
       (409, some "SEAT_ALREADY_TAKEN"), (500, some "INTERNAL_ERROR")] ∧
    [((404 : Nat), some "NOT_FOUND"), (409, some "INSUFFICIENT_INVENTORY"),
      (409, some "SEAT_ALREADY_TAKEN"), (500, some "INTERNAL_ERROR")].Nodup := by
  refine ⟨fun ht hm => ?_, fun ht hs hm => ?_, bookingFailure_other, by rfl, by decide⟩
  · rw [createBooking_routes req s h1 h2 h3 h4,
      if_pos (List.length_pos.mpr ht)]
    simp only [BookGATickets, hlookup]
    rw [if_pos hm]
    rfl
  · rw [createBooking_routes req s h1 h2 h3 h4]
    have ht0 : ¬ req.Tiers.length > 0 := by rw [ht]; simp
    rw [if_neg ht0, if_pos (List.length_pos.mpr hs)]
    simp only [BookSeatedTickets, hlookup]
    rw [if_pos hm]
    rfl

/-- Witness of C19 (amended): a GA request against the seated occurrence 2 of the sample
catalogue is answered 500 INTERNAL_ERROR. -/
theorem error_pairs_witness :
    handlers.CreateBooking (some (gaRequest 2 [⟨1, 1⟩])) (sampleSess []) =
      (handlers.Error 500 "INTERNAL_ERROR" "Failed to create booking", sampleSess []) :=
  (error_pairs (gaRequest 2 [⟨1, 1⟩]) (sampleSess []) (sampleSess [])
    { ID := 2, IDVenue := 1, TotalTickets := 2, EventID := 1, SeatingMode := "SEATED" }
    (by decide) (by decide) (by decide) (by decide) rfl).1 (by decide) (by decide)

/-- C20, refuted as stated: on the sample catalogue a request against the GA occurrence 1
with both tiers and seats non-empty is not rejected: `CreateBooking` answers 201 with
the GA booking of its tiers, and the order and the ticket are committed. -/
theorem tiers_and_seats_booked_as_ga :
    (handlers.CreateBooking
        (some { gaRequest 1 [⟨1, 1⟩] with Seats := [⟨1, 2⟩] }) (sampleSess [])).1 =
      { status := 201,
        body := .booking { OrderID := 1, TotalAmount := 2500,
                           Tickets := [{ ID := 1, TicketType := "General", SeatLabel := none,
                                         ToName := "Ann" }] } } ∧
    (handlers.CreateBooking
        (some { gaRequest 1 [⟨1, 1⟩] with Seats := [⟨1, 2⟩] }) (sampleSess [])).2.db.order =
      [{ ID := 1, UserID := 7, TotalTickets := 1, Amount := "25.00",
         PaymentSource := "tok_1" }] ∧
    (handlers.CreateBooking
        (some { gaRequest 1 [⟨1, 1⟩] with Seats := [⟨1, 2⟩] })
        (sampleSess [])).2.db.ticket.length = 1 :=
  ⟨by rfl, by rfl, by rfl⟩

/-- C20, amended. For every request that passes the field checks of `CreateBooking`: with
both tiers and seats empty it is rejected with 400 "BAD_REQUEST" and no statement is
issued; with tiers non-empty it is handled by `BookGATickets`, whether or not seats are
given (seats given along with tiers are ignored); with tiers empty and seats non-empty
it is handled by `BookSeatedTickets`. -/
theorem request_routing (req : BookingRequest) (s : Sess)
    (h1 : req.EventDateID ≠ 0) (h2 : req.CustomerName ≠ "") (h3 : req.PaymentSource ≠ "")
    (h4 : req.UserID ≠ 0) :
    (req.Tiers = [] → req.Seats = [] →
      handlers.CreateBooking (some req) s =
        (handlers.Error 400 "BAD_REQUEST" "Either tiers or seats must be provided", s)) ∧
    (req.Tiers ≠ [] →
      handlers.CreateBooking (some req) s =
        handlers.bookingResult (BookGATickets req s)) ∧
    (req.Tiers = [] → req.Seats ≠ [] →
      handlers.CreateBooking (some req) s =
        handlers.bookingResult (BookSeatedTickets req s)) := by
  rw [createBooking_routes req s h1 h2 h3 h4]
  refine ⟨fun ht hs => ?_, fun ht => ?_, fun ht hs => ?_⟩
  · rw [ht, hs]; rfl
  · rw [if_pos (List.length_pos.mpr ht)]
  · have ht0 : ¬ req.Tiers.length > 0 := by rw [ht]; simp
    rw [if_neg ht0, if_pos (List.length_pos.mpr hs)]

/-- Witness of C20 (amended): on the sample catalogue a request without tiers and seats
is answered 400, a request with tiers is booked as GA and a request with seats only is
booked as seated. -/
theorem request_routing_witness :
    handlers.CreateBooking (some (gaRequest 1 [])) (sampleSess []) =
      (handlers.Error 400 "BAD_REQUEST" "Either tiers or seats must be provided",
       sampleSess []) ∧
    handlers.CreateBooking (some (gaRequest 1 [⟨1, 1⟩])) (sampleSess []) =
      handlers.bookingResult (BookGATickets (gaRequest 1 [⟨1, 1⟩]) (sampleSess [])) ∧
    handlers.CreateBooking (some (seatedRequest 2 [⟨1, 2⟩])) (sampleSess []) =
      handlers.bookingResult
        (BookSeatedTickets (seatedRequest 2 [⟨1, 2⟩]) (sampleSess [])) :=
  ⟨(request_routing (gaRequest 1 []) (sampleSess []) (by decide) (by decide) (by decide)
      (by decide)).1 rfl rfl,
   (request_routing (gaRequest 1 [⟨1, 1⟩]) (sampleSess []) (by decide) (by decide)
      (by decide) (by decide)).2.1 (by decide),
   (request_routing (seatedRequest 2 [⟨1, 2⟩]) (sampleSess []) (by decide) (by decide)
      (by decide) (by decide)).2.2 rfl (by decide)⟩

/-! ## C21: `CreateTicket` as one unit -/

theorem createTicket_error_cases {orderID : Int} {userID eventID : String}
    {ed tt seatID : Int} {toName : String} {s s1 : Sess} {e : Error}
    (h : CreateTicket orderID userID eventID ed tt seatID toName s = (.error e, s1)) :
    insertTicket eventID userID tt toName ed (seatValue seatID) s = (.error e, s1) ∨
    ∃ id sa, insertTicket eventID userID tt toName ed (seatValue seatID) s = (.ok id, sa) ∧
      insertOrderHasTicket orderID id sa = (.error e, s1) := by
  unfold CreateTicket at h
  rcases Op.bind_cases h with h1 | ⟨id, sa, h1, hrest⟩
  · exact Or.inl h1
  · rcases Op.bind_cases hrest with h2 | ⟨u, sb, h2, hpure⟩
    · exact Or.inr ⟨id, sa, h1, h2⟩
    · cases hpure

/-- C21. `CreateTicket` as one unit. When it returns a ticket id, the transaction holds
one more `ticket` row, with that id (the next id of the table) and the given columns, and
one more `order_hast_tickets` row linking that id to the given order; the stored seat id
is absent exactly when the `seatID` argument is 0 and is `seatID` otherwise. It returns
an error exactly when one of its two inserts does, and that error. And in a `WithTx`
whose callback runs `CreateTicket` after some steps and returns its error, a failure of
either insert makes `WithTx` return that error and roll back: the committed tables are
those from before the call, so neither row persists. -/
theorem createTicket_unit :
    (∀ (orderID : Int) (userID eventID : String) (eventDateID ticketTypeID seatID : Int)
        (toName : String) (s s1 : Sess) (ticketID : Int),
      CreateTicket orderID userID eventID eventDateID ticketTypeID seatID toName s =
          (.ok ticketID, s1) →
      ticketID = s.nextTicketID ∧
      s1.tx.ticket = s.tx.ticket ++
        [{ ID := ticketID, EventID := eventID, UserID := userID,
           TicketTypeID := ticketTypeID, ToName := toName, EventDateID := eventDateID,
           SeatID := if seatID = 0 then none else some seatID }] ∧
      s1.tx.order_hast_tickets = s.tx.order_hast_tickets ++
        [{ OrderID := orderID, TicketID := ticketID }] ∧
      s1.tx.order = s.tx.order ∧ s1.db = s.db) ∧
    (∀ seatID : Int, ((if seatID = 0 then none else some seatID) = none ↔ seatID = 0) ∧
      (seatID ≠ 0 → (if seatID = 0 then none else some seatID) = some seatID)) ∧
    (∀ (orderID : Int) (userID eventID : String) (eventDateID ticketTypeID seatID : Int)
        (toName : String) (s s1 : Sess) (e : Error),
      CreateTicket orderID userID eventID eventDateID ticketTypeID seatID toName s =
          (.error e, s1) ↔
      (insertTicket eventID userID ticketTypeID toName eventDateID (seatValue seatID) s =
          (.error e, s1) ∨
        ∃ id sa,
          insertTicket eventID userID ticketTypeID toName eventDateID (seatValue seatID) s =
            (.ok id, sa) ∧
          insertOrderHasTicket orderID id sa = (.error e, s1))) ∧
    (∀ (α β : Type) (before : Op β) (after : β → Int → Op α)
        (orderID : β → Int) (userID eventID : String)
        (eventDateID ticketTypeID seatID : Int) (toName : String)
        (s s0 sa sb : Sess) (b : β) (e : Error),
      Beginx s = (.ok (), s0) → before s0 = (.ok b, sa) →
      CreateTicket (orderID b) userID eventID eventDateID ticketTypeID seatID toName sa =
          (.error e, sb) →
      ∃ s1, WithTx (before >>= fun b =>
            CreateTicket (orderID b) userID eventID eventDateID ticketTypeID seatID toName
              >>= after b) s = (.error e, s1) ∧
        s1.db = sa.db ∧ s1.trace.head? = some TxEvent.rolledBack) := by
  refine ⟨?_, ?_, ?_, ?_⟩
  · intro orderID userID eventID ed tt seatID toName s s1 id h
    obtain ⟨hrow, hjoin, hdb⟩ := createTicket_ok h
    unfold CreateTicket at h
    obtain ⟨tid, sa, hins, hrest⟩ := Op.bind_ok h
    obtain ⟨u, sb, hj, hpure⟩ := Op.bind_ok hrest
    cases hpure
    obtain ⟨-, -, -, hid, -⟩ := insertTicket_ok hins
    have ho1 := (orderFrame_insertTicket _ _ _ _ _ _).of_eq hins
    have ho2 := (orderFrame_insertOrderHasTicket _ _).of_eq hj
    exact ⟨hid, hrow, hjoin, ho2.2.trans ho1.2, hdb⟩
  · intro seatID
    constructor
    · constructor
      · intro h
        by_contra hne
        rw [if_neg hne] at h
        cases h
      · intro h
        rw [if_pos h]
    · intro hne
      rw [if_neg hne]
  · intro orderID userID eventID ed tt seatID toName s s1 e
    constructor
    · exact createTicket_error_cases
    · rintro (h1 | ⟨id, sa, h1, h2⟩)
      · unfold CreateTicket
        unfold seatValue at h1
        exact Op.bind_of_error h1
      · unfold CreateTicket
        unfold seatValue at h1
        rw [Op.bind_of_ok h1]
        exact Op.bind_of_error h2
  · intro α β before after orderID userID eventID ed tt seatID toName s s0 sa sb b e hb
      hbefore hct
    have hdb : sb.db = sa.db :=
      ((keeps_CreateTicket txFrame_stable txFrame_insertTicket txFrame_insertOrderHasTicket
        _ _ _ _ _ _ _).of_eq hct).1
    refine ⟨(Rollback sb).2, ?_, ?_, ?_⟩
    · apply withTx_of_body_error hb
      rw [Op.bind_of_ok hbefore]
      exact Op.bind_of_error hct
    · rw [rollback_db, hdb]
    · rcases sb with ⟨db, tx, no, nt, faults, trace⟩
      rfl

/-- Witness of C21: on the sample catalogue, in an open transaction, `CreateTicket` for
seat 1 writes ticket 1 with seat 1 and the join row to order 5, and for seat id 0 a
ticket without seat; when the storage fails the second insert, the call returns that
error. -/
theorem createTicket_unit_witness :
    (∃ s1, CreateTicket 5 "7" "1" 2 2 1 "Ann" (sampleSess []) = (.ok 1, s1) ∧
      s1.tx.ticket = [{ ID := 1, EventID := "1", UserID := "7", TicketTypeID := 2,
                        ToName := "Ann", EventDateID := 2, SeatID := some 1 }] ∧
      s1.tx.order_hast_tickets = [{ OrderID := 5, TicketID := 1 }]) ∧
    ((CreateTicket 5 "7" "1" 1 1 0 "Ann" (sampleSess [])).2.tx.ticket.map fun t => t.SeatID) =
      [none] ∧
    (CreateTicket 5 "7" "1" 2 2 1 "Ann"
        (sampleSess [none, some (Error.driver "connection lost")])).1 =
      .error (Error.driver "connection lost") :=
  ⟨⟨_, rfl, (createTicket_unit.1 5 "7" "1" 2 2 1 "Ann" (sampleSess []) _ 1 rfl).2.1,
      (createTicket_unit.1 5 "7" "1" 2 2 1 "Ann" (sampleSess []) _ 1 rfl).2.2.1⟩,
   by rfl, by rfl⟩
/-! ## C22: the scoped transaction -/

/-- C22. `WithTx`, for every callback `fn`. When the transaction cannot be begun, the
result is the begin error and the session is the one `Beginx` left: `fn` is not run, no
transaction event is recorded and no table changes. Otherwise `fn` is run once, on the
session `Beginx` left. When `fn` returns a value, `WithTx` returns it and `Commit` is
issued on the session `fn` left (the last transaction event is the commit, which takes
effect unless the storage fails it); when `fn` returns an error, `WithTx` returns exactly
that error and `Rollback` is issued instead (the last event is the rollback, and the
committed tables are those `fn` left). So the commit is issued if and only if `fn`
returned no error. -/
theorem withTx_scoped (α : Type) (fn : Op α) (s : Sess) :
    (∀ e s0, Beginx s = (.error e, s0) →
      WithTx fn s = (.error e, s0) ∧ s0.trace = s.trace ∧ s0.db = s.db ∧ s0.tx = s.tx) ∧
    (∀ s0, Beginx s = (.ok (), s0) →
      (∀ a s1, fn s0 = (.ok a, s1) →
        WithTx fn s = (.ok a, (Commit s1).2) ∧
        ((Commit s1).2.trace = TxEvent.committed :: s1.trace ∧ (Commit s1).2.db = s1.tx ∨
          (Commit s1).2.trace = TxEvent.commitFailed :: s1.trace ∧
            (Commit s1).2.db = s1.db) ∧
        (s1.pendingFault = none →
          (Commit s1).2.trace = TxEvent.committed :: s1.trace ∧ (Commit s1).2.db = s1.tx)) ∧
      (∀ e s1, fn s0 = (.error e, s1) →
        WithTx fn s = (.error e, (Rollback s1).2) ∧
        (Rollback s1).2.trace = TxEvent.rolledBack :: s1.trace ∧
        (Rollback s1).2.db = s1.db) ∧
      (((WithTx fn s).2.trace.head? = some TxEvent.committed ∨
          (WithTx fn s).2.trace.head? = some TxEvent.commitFailed) ↔
        ∃ a, (fn s0).1 = .ok a) ∧
      ((WithTx fn s).2.trace.head? = some TxEvent.rolledBack ↔
        ∃ e, (fn s0).1 = .error e)) := by
  constructor
  · intro e s0 hb
    refine ⟨by simp only [WithTx, hb], ?_⟩
    rcases s with ⟨db, tx, no, nt, faults, trace⟩
    rcases faults with _ | ⟨_ | e1, rest⟩
    · cases hb
    · cases hb
    · cases hb
      exact ⟨rfl, rfl, rfl⟩
  · intro s0 hb
    have hok : ∀ a s1, fn s0 = (.ok a, s1) → WithTx fn s = (.ok a, (Commit s1).2) :=
      fun a s1 h => withTx_of_body_ok hb h
    have herr : ∀ e s1, fn s0 = (.error e, s1) →
        WithTx fn s = (.error e, (Rollback s1).2) :=
      fun e s1 h => withTx_of_body_error hb h
    have hroll : ∀ s1 : Sess, (Rollback s1).2.trace = TxEvent.rolledBack :: s1.trace := by
      rintro ⟨db, tx, no, nt, faults, trace⟩
      rfl
    refine ⟨?_, ?_, ?_, ?_⟩
    · intro a s1 h
      refine ⟨hok a s1 h, ?_, ?_⟩
      · rcases commit_cases s1 with ⟨h1, h2⟩ | ⟨h1, h2⟩
        · exact Or.inl ⟨h2, h1⟩
        · exact Or.inr ⟨h2, h1⟩
      · intro hp
        rcases s1 with ⟨db, tx, no, nt, faults, trace⟩
        rcases faults with _ | ⟨_ | e1, rest⟩
        · exact ⟨rfl, rfl⟩
        · exact ⟨rfl, rfl⟩
        · cases hp
    · intro e s1 h
      exact ⟨herr e s1 h, hroll s1, rollback_db s1⟩
    · rcases hfs : fn s0 with ⟨r, s1⟩
      cases r with
      | ok a =>
        rw [hok a s1 hfs]
        constructor
        · intro _
          exact ⟨a, rfl⟩
        · intro _
          rcases commit_cases s1 with ⟨-, h2⟩ | ⟨-, h2⟩
          · left; rw [h2]; rfl
          · right; rw [h2]; rfl
      | error e =>
        rw [herr e s1 hfs, hroll s1]
        constructor
        · rintro (h | h) <;> cases h
        · rintro ⟨a, ha⟩
          cases ha
    · rcases hfs : fn s0 with ⟨r, s1⟩
      cases r with
      | ok a =>
        rw [hok a s1 hfs]
        constructor
        · intro h
          rcases commit_cases s1 with ⟨-, h2⟩ | ⟨-, h2⟩ <;> rw [h2] at h <;> cases h
        · rintro ⟨e, he⟩
          cases he
      | error e =>
        rw [herr e s1 hfs, hroll s1]
        constructor
        · intro _
          exact ⟨e, rfl⟩
        · intro _
          rfl

/-- Witness of C22 on the sample catalogue: a callback that creates an order is
committed; a callback that creates an order and then fails is rolled back and its error
returned; when the storage fails the begin, the callback is not run. -/
theorem withTx_scoped_witness :
    (WithTx (CreateOrder 7 1 "25.00" "tok_1") (sampleSess [])).1 = .ok 1 ∧
    (WithTx (CreateOrder 7 1 "25.00" "tok_1") (sampleSess [])).2.db.order.length = 1 ∧
    (WithTx (CreateOrder 7 1 "25.00" "tok_1") (sampleSess [])).2.trace =
      [TxEvent.committed, TxEvent.begun] ∧
    WithTx (CreateOrder 7 1 "25.00" "tok_1" >>= fun _ =>
        (Op.fail (Error.Errorf "stop") : Op Int)) (sampleSess []) =
      (.error (Error.Errorf "stop"),
        (Rollback (CreateOrder 7 1 "25.00" "tok_1" (sampleSess []).begun).2).2) ∧
    (WithTx (CreateOrder 7 1 "25.00" "tok_1" >>= fun _ =>
        (Op.fail (Error.Errorf "stop") : Op Int)) (sampleSess [])).2.db.order = [] ∧
    WithTx (CreateOrder 7 1 "25.00" "tok_1")
        (sampleSess [some (Error.driver "connection lost")]) =
      (.error (Error.driver "connection lost"), sampleSess []) :=
  ⟨by rfl, by rfl, by rfl,
   ((withTx_scoped Int (CreateOrder 7 1 "25.00" "tok_1" >>= fun _ =>
      (Op.fail (Error.Errorf "stop") : Op Int)) (sampleSess [])).2 (sampleSess []).begun
      rfl).2.1 (Error.Errorf "stop") _ rfl |>.1,
   by rfl,
   ((withTx_scoped Int (CreateOrder 7 1 "25.00" "tok_1")
      (sampleSess [some (Error.driver "connection lost")])).1
      (Error.driver "connection lost") (sampleSess []) rfl).1⟩
/-! ## C23: orders and tickets are append-only -/

theorem seated_order_row {req : BookingRequest} {s s3 : Sess} {resp : BookingResponse}
    (h : BookSeatedTickets req s = (.ok resp, s3)) :
    s3.tx.order = s.db.order ++
      [{ ID := resp.OrderID, UserID := req.UserID, TotalTickets := req.Seats.length,
         Amount := formatAmount resp.TotalAmount, PaymentSource := req.PaymentSource }] ∧
    ((s3.trace.head? = some TxEvent.committed ∨ s.faults = []) → s3.db = s3.tx) := by
  obtain ⟨ed, s0, hl, _, hw⟩ := book_seated_ok h
  obtain ⟨s1, s2, hb, hfn, hs3⟩ := withTx_ok hw
  have hr0 : ReadFrame s s0 := (keeps_GetEventDateByID readFrame_stable _).of_eq hl
  have hf0 : NoFaults s s0 := (keeps_GetEventDateByID noFaults_stable _).of_eq hl
  obtain ⟨hdb1, htx1, _, _, hf1⟩ := beginx_ok hb
  have hf2 : NoFaults s1 s2 := (noFaults_seatedBody req ed).of_eq hfn
  unfold seatedBody at hfn
  obtain ⟨booked, sa, hcheck, hrest⟩ := Op.bind_ok hfn
  have hra : ReadFrame s1 sa := (keeps_CheckSeatAvailability readFrame_stable _ _).of_eq hcheck
  split at hrest
  · cases hrest
  · obtain ⟨total, sb, htotal, hrest⟩ := Op.bind_ok hrest
    have hrb : ReadFrame sa sb := (keeps_seatedTotal readFrame_stable _ _ _).of_eq htotal
    obtain ⟨orderID, sc, horder, hrest⟩ := Op.bind_ok hrest
    obtain ⟨tickets, sd, htickets, hpure⟩ := Op.bind_ok hrest
    have hod : OrderFrame sc sd :=
      (keeps_seatedTickets orderFrame_stable orderFrame_insertTicket
        orderFrame_insertOrderHasTicket _ _ _ _ _ _).of_eq htickets
    cases hpure
    obtain ⟨hrow, _, _⟩ := createOrder_ok horder
    obtain ⟨hcdb, hctx⟩ := commit_db s2
    refine ⟨?_, ?_⟩
    · rw [hs3, hctx, hod.2, hrow, hrb.2.1, hra.2.1, htx1, hr0.1]
    · intro hc
      rw [hs3, hctx]
      apply hcdb
      rcases hc with hc | hc
      · left; rw [← hs3]; exact hc
      · right; exact hf2 (hf1 (hf0 hc))

theorem book_ga_committed {req : BookingRequest} {s s3 : Sess} {resp : BookingResponse}
    (h : BookGATickets req s = (.ok resp, s3)) : s3.db = s3.tx ∨ s3.db = s.db := by
  obtain ⟨ed, s0, hl, _, hw⟩ := book_ga_ok h
  obtain ⟨s1, s2, hb, hfn, hs3⟩ := withTx_ok hw
  have hr0 : ReadFrame s s0 := (keeps_GetEventDateByID readFrame_stable _).of_eq hl
  obtain ⟨hdb1, -⟩ := beginx_ok hb
  have hdb2 : s2.db = s1.db := ((txFrame_gaBody req ed).of_eq hfn).1
  rw [hs3, (commit_db s2).2]
  rcases commit_cases s2 with ⟨hc, -⟩ | ⟨hc, -⟩
  · exact Or.inl hc
  · exact Or.inr (by rw [hc, hdb2, hdb1, hr0.1])

theorem book_seated_committed {req : BookingRequest} {s s3 : Sess} {resp : BookingResponse}
    (h : BookSeatedTickets req s = (.ok resp, s3)) : s3.db = s3.tx ∨ s3.db = s.db := by
  obtain ⟨ed, s0, hl, _, hw⟩ := book_seated_ok h
  obtain ⟨s1, s2, hb, hfn, hs3⟩ := withTx_ok hw
  have hr0 : ReadFrame s s0 := (keeps_GetEventDateByID readFrame_stable _).of_eq hl
  obtain ⟨hdb1, -⟩ := beginx_ok hb
  have hdb2 : s2.db = s1.db := ((txFrame_seatedBody req ed).of_eq hfn).1
  rw [hs3, (commit_db s2).2]
  rcases commit_cases s2 with ⟨hc, -⟩ | ⟨hc, -⟩
  · exact Or.inl hc
  · exact Or.inr (by rw [hc, hdb2, hdb1, hr0.1])

/-- Orders and tickets are append-only. For every request, session and storage-failure
schedule, the committed `order`, `ticket` and `order_hast_tickets` tables before a call of
`BookGATickets` or `BookSeatedTickets` are prefixes of those after it: every row present
before is present after, unchanged and in place, whether the call returns a response or
an error. A call that returns a response has written exactly one order row in its
transaction, after the rows present before; the row reaches the committed table only when
the commit takes effect, which a returned response does not imply. -/
theorem orders_tickets_append_only (req : BookingRequest) (s : Sess) :
    (List.IsPrefix s.db.order (BookGATickets req s).2.db.order ∧
      List.IsPrefix s.db.ticket (BookGATickets req s).2.db.ticket ∧
      List.IsPrefix s.db.order_hast_tickets
        (BookGATickets req s).2.db.order_hast_tickets) ∧
    (List.IsPrefix s.db.order (BookSeatedTickets req s).2.db.order ∧
      List.IsPrefix s.db.ticket (BookSeatedTickets req s).2.db.ticket ∧
      List.IsPrefix s.db.order_hast_tickets
        (BookSeatedTickets req s).2.db.order_hast_tickets) ∧
    (∀ resp s3, (BookGATickets req s = (.ok resp, s3) ∨
        BookSeatedTickets req s = (.ok resp, s3)) →
      ∃ row : Order, row.ID = resp.OrderID ∧ s3.tx.order = s.db.order ++ [row] ∧
        ((s3.trace.head? = some TxEvent.committed ∨ s.faults = []) →
          s3.db.order = s.db.order ++ [row])) := by
  refine ⟨?_, ?_, ?_⟩
  · rcases hrun : BookGATickets req s with ⟨r, s3⟩
    cases r with
    | error e =>
      have hdb : s3.db = s.db := by
        have := (book_db req s).1.1 e (by rw [hrun])
        rw [hrun] at this
        exact this
      dsimp only
      rw [hdb]
      exact ⟨List.prefix_refl _, List.prefix_refl _, List.prefix_refl _⟩
    | ok resp =>
      dsimp only
      rcases book_ga_committed hrun with hc | hc
      · obtain ⟨ed, issues, -, -, htk, hj, horder, -, -⟩ := bookGA_issues hrun
        rw [hc, htk, hj, horder]
        exact ⟨List.prefix_append _ _, List.prefix_append _ _, List.prefix_append _ _⟩
      · rw [hc]
        exact ⟨List.prefix_refl _, List.prefix_refl _, List.prefix_refl _⟩
  · rcases hrun : BookSeatedTickets req s with ⟨r, s3⟩
    cases r with
    | error e =>
      have hdb : s3.db = s.db := by
        have := (book_db req s).2.1 e (by rw [hrun])
        rw [hrun] at this
        exact this
      dsimp only
      rw [hdb]
      exact ⟨List.prefix_refl _, List.prefix_refl _, List.prefix_refl _⟩
    | ok resp =>
      dsimp only
      rcases book_seated_committed hrun with hc | hc
      · obtain ⟨ed, issues, -, -, htk, hj, -, -⟩ := bookSeated_issues hrun
        obtain ⟨horder, -⟩ := seated_order_row hrun
        rw [hc, htk, hj, horder]
        exact ⟨List.prefix_append _ _, List.prefix_append _ _, List.prefix_append _ _⟩
      · rw [hc]
        exact ⟨List.prefix_refl _, List.prefix_refl _, List.prefix_refl _⟩
  · rintro resp s3 (h | h)
    · obtain ⟨ed, issues, -, -, -, -, horder, -, hcommit⟩ := bookGA_issues h
      exact ⟨_, rfl, horder, fun hc => by rw [hcommit hc, horder]⟩
    · obtain ⟨horder, hcommit⟩ := seated_order_row h
      exact ⟨_, rfl, horder, fun hc => by rw [hcommit hc, horder]⟩

/-- On the tables a first GA booking of the sample catalogue left, a
second booking keeps the first order and its ticket in place and adds its own after
them, and a refused booking leaves them as they are. -/
theorem orders_tickets_append_only_witness :
    List.IsPrefix (BookGATickets (gaRequest 1 [⟨1, 1⟩]) (sampleSess [])).2.db.order
      (BookGATickets (gaRequest 1 [⟨2, 2⟩])
        (BookGATickets (gaRequest 1 [⟨1, 1⟩]) (sampleSess [])).2).2.db.order ∧
    ((BookGATickets (gaRequest 1 [⟨2, 2⟩])
        (BookGATickets (gaRequest 1 [⟨1, 1⟩]) (sampleSess [])).2).2.db.order.map
      fun o => (o.ID, o.TotalTickets, o.Amount)) = [(1, 1, "25.00"), (2, 2, "80.00")] ∧
    ((BookGATickets (gaRequest 1 [⟨1, 9⟩])
        (BookGATickets (gaRequest 1 [⟨1, 1⟩]) (sampleSess [])).2).2.db.order.map
      fun o => (o.ID, o.TotalTickets, o.Amount)) = [(1, 1, "25.00")] :=
  ⟨(orders_tickets_append_only (gaRequest 1 [⟨2, 2⟩])
      (BookGATickets (gaRequest 1 [⟨1, 1⟩]) (sampleSess [])).2).1.1,
   by rfl, by rfl⟩

/-- C23, evaluated where it fails. On the sample catalogue a first GA booking is
committed and leaves order 1; a second booking, whose final commit the storage fails,
returns its response for order 2 without error, while the committed `order` table is the
one the first booking left: the successful call added no order row. The rows present
before it are in place. -/
theorem successful_call_adds_no_order_row :
    ((BookGATickets (gaRequest 1 [⟨1, 1⟩])
        (sampleSess (List.replicate 17 none ++
          [some (Error.driver "commit failed")]))).2.db.order.map
      fun o => (o.ID, o.TotalTickets, o.Amount)) = [(1, 1, "25.00")] ∧
    (BookGATickets (gaRequest 1 [⟨2, 1⟩])
        (BookGATickets (gaRequest 1 [⟨1, 1⟩])
          (sampleSess (List.replicate 17 none ++
            [some (Error.driver "commit failed")]))).2).1 =
      .ok { OrderID := 2, TotalAmount := 4000,
            Tickets := [{ ID := 2, TicketType := "Premium", SeatLabel := none,
                          ToName := "Ann" }] } ∧
    (BookGATickets (gaRequest 1 [⟨2, 1⟩])
        (BookGATickets (gaRequest 1 [⟨1, 1⟩])
          (sampleSess (List.replicate 17 none ++
            [some (Error.driver "commit failed")]))).2).2.db.order =
      (BookGATickets (gaRequest 1 [⟨1, 1⟩])
        (sampleSess (List.replicate 17 none ++
          [some (Error.driver "commit failed")]))).2.db.order ∧
    (BookGATickets (gaRequest 1 [⟨2, 1⟩])
        (BookGATickets (gaRequest 1 [⟨1, 1⟩])
          (sampleSess (List.replicate 17 none ++
            [some (Error.driver "commit failed")]))).2).2.trace.head? =
      some TxEvent.commitFailed :=
  ⟨by rfl, by rfl, by rfl, by rfl⟩

/-! ## C24: reported success and the commit -/

/-- C24, evaluated where it fails. On the sample catalogue, when the storage fails the
final commit of the transaction, `WithTx` returns the callback's nil result and not the
commit error: `BookGATickets` and `BookSeatedTickets` return their response (order 1 with
its ticket) without error, while the trace records the failed commit and the committed
tables hold no order, no ticket, and the allocation still has its 2 tickets left. -/
theorem success_reported_without_commit :
    (BookGATickets (gaRequest 1 [⟨1, 1⟩])
        (sampleSess (List.replicate 8 none ++ [some (Error.driver "commit failed")]))).1 =
      .ok { OrderID := 1, TotalAmount := 2500,
            Tickets := [{ ID := 1, TicketType := "General", SeatLabel := none,
                          ToName := "Ann" }] } ∧
    (BookGATickets (gaRequest 1 [⟨1, 1⟩])
        (sampleSess (List.replicate 8 none ++
          [some (Error.driver "commit failed")]))).2.trace.head? =
      some TxEvent.commitFailed ∧
    (BookGATickets (gaRequest 1 [⟨1, 1⟩])
        (sampleSess (List.replicate 8 none ++
          [some (Error.driver "commit failed")]))).2.db = sampleStore ∧
    (BookSeatedTickets (seatedRequest 2 [⟨1, 2⟩])
        (sampleSess (List.replicate 10 none ++ [some (Error.driver "commit failed")]))).1 =
      .ok { OrderID := 1, TotalAmount := 4000,
            Tickets := [{ ID := 1, TicketType := "Premium", SeatLabel := some "A11",
                          ToName := "Ann" }] } ∧
    (BookSeatedTickets (seatedRequest 2 [⟨1, 2⟩])
        (sampleSess (List.replicate 10 none ++
          [some (Error.driver "commit failed")]))).2.db = sampleStore ∧
    (WithTx (CreateOrder 7 1 "25.00" "tok_1")
        (sampleSess [none, none, some (Error.driver "commit failed")])).1 = .ok 1 :=
  ⟨by rfl, by rfl, by rfl, by rfl, by rfl, by rfl⟩
/-! ## C25: no such allocation -/

theorem allocKeyFrame_stable : Stable AllocKeyFrame where
  refl := fun _ => ⟨rfl, rfl⟩
  trans := fun _ _ _ h1 h2 => ⟨h2.1.trans h1.1, h2.2.trans h1.2⟩
  faults := fun _ => ⟨rfl, rfl⟩

theorem allocKeyFrame_UpdateGATicketInventory (ed tt q : Int) :
    Op.Keeps AllocKeyFrame (UpdateGATicketInventory ed tt q) := by
  apply keeps_stmt allocKeyFrame_stable
  rintro ⟨db, tx, no, nt, faults, trace⟩
  cases tx
  refine ⟨rfl, ?_⟩
  simp only [Store.mapAllocations, List.map_map]
  apply List.map_congr_left
  intro r _
  simp only [Function.comp, gaRowUpdate]
  split <;> rfl

theorem gaReserve_prefix_ok (req : BookingRequest) (pre post : List TierBookingRequest) :
    ∀ (amount count a n : Int) (s s1 : Sess),
      gaReserve req pre amount count s = (.ok (a, n), s1) →
      gaReserve req (pre ++ post) amount count s = gaReserve req post a n s1 := by
  induction pre with
  | nil =>
    intro amount count a n s s1 h
    cases h
    rfl
  | cons tier rest ih =>
    intro amount count a n s s1 h
    rw [List.cons_append]
    unfold gaReserve at h
    conv_lhs => unfold gaReserve
    obtain ⟨rows, sa, hupd, hrest⟩ := Op.bind_ok h
    rw [Op.bind_of_ok hupd]
    dsimp only
    split at hrest
    · obtain ⟨lk, sb, hlk, hfail⟩ := Op.bind_ok hrest
      cases hfail
    · rename_i hne
      rw [if_neg hne]
      obtain ⟨⟨price, rem⟩, sb, hprice, hrest⟩ := Op.bind_ok hrest
      rw [Op.bind_of_ok hprice]
      exact ih _ _ _ _ _ _ hrest

theorem updateGATicketInventory_run {ed tt q : Int} {s : Sess} (h : s.pendingFault = none) :
    ∃ s1, UpdateGATicketInventory ed tt q s =
        (.ok ((s.tx.event_date_has_ticket_type.filter (gaRowChanged ed tt q)).length : Int),
          s1) ∧ s1.db = s.db := by
  unfold UpdateGATicketInventory
  rw [stmt_run _ h]
  rcases s with ⟨db, tx, no, nt, faults, trace⟩
  exact ⟨_, rfl, rfl⟩

theorem attempt_price_of_no_allocation {ed tt : Int} {s : Sess}
    (h : allocation s.db ed tt = none) :
    ∃ err s1, Op.attempt (GetGATicketPriceAndRemaining ed tt) s = (.ok (.error err), s1) ∧
      s1.db = s.db := by
  rcases hrun : GetGATicketPriceAndRemaining ed tt s with ⟨r, s1⟩
  have hdb : s1.db = s.db :=
    ((keeps_GetGATicketPriceAndRemaining readFrame_stable ed tt).of_eq hrun).1
  cases r with
  | error err =>
    refine ⟨err, s1, ?_, hdb⟩
    simp only [Op.attempt, hrun]
  | ok pr =>
    obtain ⟨p, rem⟩ := pr
    obtain ⟨r, hr, -⟩ := getGATicketPriceAndRemaining_ok hrun
    rw [h] at hr
    cases hr

theorem allocation_none_of_keys {st : Store} {ed tt : Int}
    (h : (ed, tt) ∉ st.event_date_has_ticket_type.map fun r =>
      (r.EventDateID, r.TicketTypeID)) :
    allocation st ed tt = none := by
  unfold allocation
  rw [List.find?_eq_none]
  intro r hr hk
  simp only [Bool.and_eq_true, decide_eq_true_eq] at hk
  apply h
  rw [List.mem_map]
  exact ⟨r, hr, by rw [hk.1, hk.2]⟩

/-- C25, refuted as stated: on the sample catalogue ticket type 99 has no allocation row
for occurrence 1, yet the request for 3 units of ticket type 1 (2 left) and 1 unit of
ticket type 99 fails at its first tier, with the message that carries ticket type 1,
remaining 2 and requested 3, not with the generic message. -/
theorem missing_allocation_after_low_inventory :
    allocation sampleStore 1 99 = none ∧
    (BookGATickets (gaRequest 1 [⟨1, 3⟩, ⟨99, 1⟩]) (sampleSess [])).1 =
      .error (Error.Wrapf Error.ErrInsufficientInventory
        "INSUFFICIENT_INVENTORY: Not enough tickets left for ticket type 1 (remaining: 2, requested: 3)") ∧
    Error.Wrapf Error.ErrInsufficientInventory
        "INSUFFICIENT_INVENTORY: Not enough tickets left for ticket type 1 (remaining: 2, requested: 3)" ≠
      wrapf Error.ErrInsufficientInventory ": Not enough tickets left" :=
  ⟨by rfl, by rfl, by decide⟩
/-- C25, amended. For every GA request against a resolved GA occurrence with a tier
naming a ticket type that has no allocation row for the occurrence, when the tiers before
it are reserved (the storage failing neither the resolution, the begin nor the UPDATE of
that tier): `BookGATickets` fails with the error wrapping `ErrInsufficientInventory`
whose message is the generic "Not enough tickets left", without ticket type, remaining
count or requested quantity, and the committed tables are unchanged. -/
theorem no_such_allocation (req : BookingRequest) (s : Sess) (ed : EventDate) (e : Event)
    (v : Venue) (rest : List (EventDate × Event × Option Venue))
    (pre post : List TierBookingRequest) (t q amount count : Int) (s1 : Sess)
    (hquiet : s.quietFor 2)
    (hrows : eventDateRows s.db req.EventDateID = (ed, e, some v) :: rest)
    (hmode : ed.SeatingMode = "GA")
    (htiers : req.Tiers = pre ++ ⟨t, q⟩ :: post)
    (hnone : allocation s.db req.EventDateID t = none)
    (hpre : gaReserve req pre 0 0 s.next.begun = (.ok (amount, count), s1))
    (hupd : s1.pendingFault = none) :
    ∃ s3, BookGATickets req s =
        (.error (wrapf Error.ErrInsufficientInventory ": Not enough tickets left"), s3) ∧
      s3.db = s.db ∧
      (wrapf Error.ErrInsufficientInventory ": Not enough tickets left").Is
        Error.ErrInsufficientInventory = true ∧
      (wrapf Error.ErrInsufficientInventory ": Not enough tickets left").text =
        "INSUFFICIENT_INVENTORY: Not enough tickets left" := by
  obtain ⟨hp0, hq1⟩ := Sess.quietFor_succ hquiet
  obtain ⟨hp1, -⟩ := Sess.quietFor_succ hq1
  have hl := getEventDateByID_run hrows hp0
  have hb := beginx_run hp1
  have hframe : AllocKeyFrame s.next.begun s1 :=
    (keeps_gaReserve allocKeyFrame_stable req pre
      (fun _ _ => allocKeyFrame_UpdateGATicketInventory _ _ _) 0 0).of_eq hpre
  have hdb1 : s1.db = s.db := hframe.1
  have hkeys : (req.EventDateID, t) ∉ s1.tx.event_date_has_ticket_type.map fun r =>
      (r.EventDateID, r.TicketTypeID) := by
    rw [hframe.2]
    intro hmem
    obtain ⟨r, hr, hk⟩ := List.mem_map.mp hmem
    unfold allocation at hnone
    rw [List.find?_eq_none] at hnone
    apply hnone r hr
    have h1 : r.EventDateID = req.EventDateID := congrArg Prod.fst hk
    have h2 : r.TicketTypeID = t := congrArg Prod.snd hk
    simp [h1, h2]
  have hfilter : s1.tx.event_date_has_ticket_type.filter
      (gaRowChanged req.EventDateID t q) = [] := by
    rw [List.filter_eq_nil_iff]
    intro r hr hm
    replace hm := ((gaRowChanged_iff _ _ _ _).mp hm).1
    apply hkeys
    rw [List.mem_map]
    exact ⟨r, hr, by rw [hm.1, hm.2.1]⟩
  obtain ⟨sU, hU, hdbU⟩ := @updateGATicketInventory_run req.EventDateID t q s1 hupd
  rw [hfilter] at hU
  obtain ⟨err, sL, hlook, hdbL⟩ :=
    @attempt_price_of_no_allocation req.EventDateID t sU (by rw [hdbU, hdb1]; exact hnone)
  have hres : gaReserve req (⟨t, q⟩ :: post) amount count s1 =
      (.error (wrapf Error.ErrInsufficientInventory ": Not enough tickets left"), sL) := by
    unfold gaReserve
    rw [Op.bind_of_ok hU]
    dsimp only
    rw [if_pos (by rfl), Op.bind_of_ok hlook]
    rfl
  have hbody : gaBody req ed s.next.begun =
      (.error (wrapf Error.ErrInsufficientInventory ": Not enough tickets left"), sL) := by
    unfold gaBody
    rw [htiers]
    apply Op.bind_of_error
    rw [gaReserve_prefix_ok req pre _ 0 0 amount count _ s1 hpre]
    exact hres
  refine ⟨(Rollback sL).2, ?_, ?_, by rfl, by rfl⟩
  · rw [bookGA_of_lookup hl hmode]
    exact withTx_of_body_error hb hbody
  · rw [rollback_db, hdbL, hdbU, hdb1]

/-- Witness of C25 (amended): on the sample catalogue the request for 1 unit of ticket
type 1 and 1 unit of ticket type 99, which has no allocation row, fails with the generic
message, and the unit of ticket type 1 reserved before is not sold. -/
theorem no_such_allocation_witness :
    (∃ s3, BookGATickets (gaRequest 1 [⟨1, 1⟩, ⟨99, 1⟩]) (sampleSess []) =
        (.error (wrapf Error.ErrInsufficientInventory ": Not enough tickets left"), s3) ∧
      s3.db = (sampleSess []).db ∧
      (wrapf Error.ErrInsufficientInventory ": Not enough tickets left").Is
        Error.ErrInsufficientInventory = true ∧
      (wrapf Error.ErrInsufficientInventory ": Not enough tickets left").text =
        "INSUFFICIENT_INVENTORY: Not enough tickets left") ∧
    ((BookGATickets (gaRequest 1 [⟨1, 1⟩, ⟨99, 1⟩])
        (sampleSess [])).2.db.event_date_has_ticket_type.map
      fun r => (r.TicketTypeID, r.RemainingTickets)) = [(1, 2), (2, 5)] :=
  ⟨no_such_allocation (gaRequest 1 [⟨1, 1⟩, ⟨99, 1⟩]) (sampleSess [])
     { ID := 1, IDVenue := 1, TotalTickets := 7, EventID := 1, SeatingMode := "GA" }
     { ID := 1, Slug := "gala", Title := "Gala", Description := "" }
     { ID := 1, Name := "Hall", Capacity := 100 } [] [⟨1, 1⟩] [] 99 1 2500 1
     (gaReserve (gaRequest 1 [⟨1, 1⟩, ⟨99, 1⟩]) [⟨1, 1⟩] 0 0 (sampleSess []).next.begun).2
     (by decide) (by rfl) rfl rfl (by rfl) (by rfl) (by rfl),
   by rfl⟩
/-! ## C26: the signature of a unique-constraint violation -/

theorem containsChars_iff_occurs (l sub : List Char) :
    containsChars l sub = true ↔ List.IsInfix sub l := by
  induction l with
  | nil =>
    simp only [containsChars, List.infix_nil, List.isEmpty_iff]
  | cons c rest ih =>
    unfold containsChars
    rw [Bool.or_eq_true, List.isPrefixOf_iff_prefix, ih, List.infix_cons_iff]

/-- Go `strings.Contains(s, substr)` as modelled returns true exactly when `substr`
occurs in `s`: `s` is some text, then `substr`, then some text. -/
theorem stringsContains_iff (s sub : String) :
    stringsContains s sub = true ↔ ∃ a b : String, s = a ++ sub ++ b := by
  unfold stringsContains
  rw [containsChars_iff_occurs]
  constructor
  · rintro ⟨la, lb, h⟩
    refine ⟨⟨la⟩, ⟨lb⟩, ?_⟩
    apply String.ext
    rw [String.data_append, String.data_append]
    exact h.symm
  · rintro ⟨a, b, h⟩
    refine ⟨a.data, b.data, ?_⟩
    rw [h]
    show a.data ++ sub.data ++ b.data = (a ++ sub ++ b).data
    rw [String.data_append, String.data_append]

theorem createSeatTicket_of_unique_error {req : BookingRequest} {ev us : String}
    {orderID tt seatID : Int} {s s1 : Sess} {err : Error}
    (h : CreateTicket orderID us ev req.EventDateID tt seatID req.CustomerName s =
      (.error err, s1)) :
    createSeatTicket req ev us orderID tt seatID s =
      (.error (if isUniqueConstraintError (some err) then seatTaken else err), s1) := by
  unfold createSeatTicket
  simp only [h]
  split <;> rfl

/-- C26. `isUniqueConstraintError` returns false for a nil error, and for every error
returns true exactly when the text of the error contains "Duplicate entry", "UNIQUE
constraint" or "uniq_ticket_eventdate_seat". Hence every error of a ticket creation of
`BookSeatedTickets` whose text contains "Duplicate entry" is reported as the error
wrapping `ErrSeatAlreadyTaken`, whichever of the two inserts of `CreateTicket` it came
from, the one into the join table included. -/
theorem unique_constraint_signature :
    isUniqueConstraintError none = false ∧
    (∀ err : Error, isUniqueConstraintError (some err) = true ↔
      ((∃ a b : String, err.text = a ++ "Duplicate entry" ++ b) ∨
       (∃ a b : String, err.text = a ++ "UNIQUE constraint" ++ b) ∨
       (∃ a b : String, err.text = a ++ "uniq_ticket_eventdate_seat" ++ b))) ∧
    (∀ (req : BookingRequest) (eventIDStr userIDStr : String)
        (orderID ticketTypeID seatID : Int) (s s1 : Sess) (err : Error) (a b : String),
      CreateTicket orderID userIDStr eventIDStr req.EventDateID ticketTypeID seatID
          req.CustomerName s = (.error err, s1) →
      err.text = a ++ "Duplicate entry" ++ b →
      createSeatTicket req eventIDStr userIDStr orderID ticketTypeID seatID s =
          (.error seatTaken, s1) ∧
        seatTaken.Is Error.ErrSeatAlreadyTaken = true) ∧
    (∀ (req : BookingRequest) (eventIDStr userIDStr : String)
        (orderID ticketTypeID seatID : Int) (s sa s1 : Sess) (id : Int) (err : Error)
        (a b : String),
      insertTicket eventIDStr userIDStr ticketTypeID req.CustomerName req.EventDateID
          (seatValue seatID) s = (.ok id, sa) →
      insertOrderHasTicket orderID id sa = (.error err, s1) →
      err.text = a ++ "Duplicate entry" ++ b →
      createSeatTicket req eventIDStr userIDStr orderID ticketTypeID seatID s =
          (.error seatTaken, s1)) := by
  have hiff : ∀ err : Error, isUniqueConstraintError (some err) = true ↔
      ((∃ a b : String, err.text = a ++ "Duplicate entry" ++ b) ∨
       (∃ a b : String, err.text = a ++ "UNIQUE constraint" ++ b) ∨
       (∃ a b : String, err.text = a ++ "uniq_ticket_eventdate_seat" ++ b)) := by
    intro err
    unfold isUniqueConstraintError
    rw [Bool.or_eq_true, Bool.or_eq_true, stringsContains_iff, stringsContains_iff,
      stringsContains_iff, or_assoc]
  have hrep : ∀ (req : BookingRequest) (ev us : String) (orderID tt seatID : Int)
      (s s1 : Sess) (err : Error) (a b : String),
      CreateTicket orderID us ev req.EventDateID tt seatID req.CustomerName s =
          (.error err, s1) →
      err.text = a ++ "Duplicate entry" ++ b →
      createSeatTicket req ev us orderID tt seatID s = (.error seatTaken, s1) := by
    intro req ev us orderID tt seatID s s1 err a b h htext
    rw [createSeatTicket_of_unique_error h, if_pos ((hiff err).mpr (Or.inl ⟨a, b, htext⟩))]
  refine ⟨rfl, hiff, ?_, ?_⟩
  · intro req ev us orderID tt seatID s s1 err a b h htext
    exact ⟨hrep req ev us orderID tt seatID s s1 err a b h htext, by decide⟩
  · intro req ev us orderID tt seatID s sa s1 id err a b hins hjoin htext
    apply hrep req ev us orderID tt seatID s s1 err a b _ htext
    unfold CreateTicket
    unfold seatValue at hins
    rw [Op.bind_of_ok hins]
    exact Op.bind_of_error hjoin

/-- Witness of C26: on the sample catalogue a seated booking whose insert into the join
table the storage refuses with a duplicate-entry error on the key of that table fails
with `ErrSeatAlreadyTaken` wrapped, although no seat was taken; an error without the
signature is returned as it is. -/
theorem unique_constraint_signature_witness :
    (isUniqueConstraintError
        (some (Error.driver
          "Error 1062 (23000): Duplicate entry 1-1 for key order_hast_tickets.PRIMARY")) =
        true ↔
      ((∃ a b : String,
          (Error.driver
            "Error 1062 (23000): Duplicate entry 1-1 for key order_hast_tickets.PRIMARY").text =
            a ++ "Duplicate entry" ++ b) ∨
       (∃ a b : String,
          (Error.driver
            "Error 1062 (23000): Duplicate entry 1-1 for key order_hast_tickets.PRIMARY").text =
            a ++ "UNIQUE constraint" ++ b) ∨
       (∃ a b : String,
          (Error.driver
            "Error 1062 (23000): Duplicate entry 1-1 for key order_hast_tickets.PRIMARY").text =
            a ++ "uniq_ticket_eventdate_seat" ++ b))) ∧
    (BookSeatedTickets (seatedRequest 2 [⟨1, 2⟩])
        (sampleSess (List.replicate 7 none ++
          [some (Error.driver
            "Error 1062 (23000): Duplicate entry 1-1 for key order_hast_tickets.PRIMARY")]))).1 =
      .error seatTaken ∧
    (BookSeatedTickets (seatedRequest 2 [⟨1, 2⟩])
        (sampleSess (List.replicate 7 none ++
          [some (Error.driver "connection lost")]))).1 =
      .error (Error.driver "connection lost") ∧
    isUniqueConstraintError (some (Error.driver "connection lost")) = false :=
  ⟨unique_constraint_signature.2.1 _, by rfl, by rfl, by rfl⟩
/-! ## C27: validation of the sign-up payload -/

theorem toLower_of_fixed {toLowerRune : Char → Char} {s : String}
    (h : ∀ c ∈ s.data, toLowerRune c = c) : ToLower toLowerRune s = s := by
  unfold ToLower
  apply String.ext
  show s.data.map toLowerRune = s.data
  rw [List.map_congr_left h, List.map_id']

/-- What `normalizeCreateUserPayload` checks: the error message is empty exactly when the
trimmed first and last name are not empty, the lower-cased, trimmed email is not empty
and contains "@", the lower-cased, trimmed username is not empty, and the trimmed
password has at least 8 bytes; otherwise the first check that fails, in this order, gives
the message. -/
theorem normalizeCreateUserPayload_message (toLowerRune : Char → Char)
    (req : CreateUserRequest) :
    (normalizeCreateUserPayload toLowerRune req).2.2.2.2.2 =
      if TrimSpace req.FirstName = "" then "firstName is required"
      else if TrimSpace req.LastName = "" then "lastName is required"
      else if TrimSpace (ToLower toLowerRune req.Email) = "" ∨
          ¬ stringsContains (TrimSpace (ToLower toLowerRune req.Email)) "@" = true then
        "email must be valid"
      else if TrimSpace (ToLower toLowerRune req.Username) = "" then
        "username must be provided"
      else if len (TrimSpace req.Password) < 8 then "password must be at least 8 characters"
      else "" := by
  unfold normalizeCreateUserPayload normalizeEmail normalizeUsername
  dsimp only
  by_cases h1 : TrimSpace req.FirstName = ""
  · rw [if_pos h1, if_pos h1]
  · rw [if_neg h1, if_neg h1]
    by_cases h2 : TrimSpace req.LastName = ""
    · rw [if_pos h2, if_pos h2]
    · rw [if_neg h2, if_neg h2]
      by_cases h3 : TrimSpace (ToLower toLowerRune req.Email) = "" ∨
          ¬ stringsContains (TrimSpace (ToLower toLowerRune req.Email)) "@" = true
      · rw [if_pos h3, if_pos h3, if_pos rfl]
      · rw [if_neg h3, if_neg h3]
        have h3a : ¬ TrimSpace (ToLower toLowerRune req.Email) = "" := fun h => h3 (Or.inl h)
        rw [if_neg h3a]
        by_cases h4 : TrimSpace (ToLower toLowerRune req.Username) = ""
        · rw [if_pos h4, if_pos h4, if_pos rfl]
        · rw [if_neg h4, if_neg h4, if_neg h4]
          by_cases h5 : len (TrimSpace req.Password) < 8
          · rw [if_pos h5, if_pos h5]
          · rw [if_neg h5, if_neg h5]

/-- C27, evaluated where it fails. The payload with first name "Ann", last name "Lee",
email "ann@example.com", username "ann" and a password of four two-byte characters (four
times U+00E9) is accepted: `len(password)` counts 8 bytes, not 4 characters, so the
message "password must be at least 8 characters" is not given. This for every case table
that leaves the characters of the email as they are. -/
theorem four_two_byte_characters_accepted (toLowerRune : Char → Char)
    (h : ∀ c ∈ ("ann@example.com" : String).data, toLowerRune c = c) :
    normalizeCreateUserPayload toLowerRune (samplePayload "éééé") =
      ("Ann", "Lee", "ann@example.com", "ann", "éééé", "") ∧
    ("éééé" : String).length = 4 ∧
    (TrimSpace "éééé").length = 4 ∧
    len (TrimSpace "éééé") = 8 := by
  have h1 : ToLower toLowerRune "ann@example.com" = "ann@example.com" := toLower_of_fixed h
  have h2 : ToLower toLowerRune "ann" = "ann" :=
    toLower_of_fixed fun c hc => h c (by
      revert c
      decide)
  refine ⟨?_, by decide, by decide, by decide⟩
  simp only [normalizeCreateUserPayload, normalizeEmail, normalizeUsername, samplePayload,
    h1, h2]
  decide

/-- Witness of C27 as evaluated, with the ASCII case table. -/
theorem four_two_byte_characters_accepted_witness :
    normalizeCreateUserPayload Char.toLower (samplePayload "éééé") =
      ("Ann", "Lee", "ann@example.com", "ann", "éééé", "") ∧
    normalizeCreateUserPayload Char.toLower (samplePayload "ééé") =
      ("", "", "", "", "", "password must be at least 8 characters") :=
  ⟨(four_two_byte_characters_accepted Char.toLower (by decide)).1, by decide⟩

/-! ## C28: sign-up and login -/

theorem processUserCreation_ok {toLowerRune : Char → Char} {sum256hex : String → String}
    {authSecret : String} {req : CreateUserRequest} {user : User}
    (h : processUserCreation toLowerRune sum256hex authSecret req = .ok user) :
    user.HashedPassword = hashPassword sum256hex authSecret (TrimSpace req.Password) ∧
    8 ≤ len (TrimSpace req.Password) := by
  unfold processUserCreation normalizeCreateUserPayload at h
  dsimp only at h
  by_cases h1 : TrimSpace req.FirstName = ""
  · rw [if_pos h1] at h
    simp at h
  · rw [if_neg h1] at h
    by_cases h2 : TrimSpace req.LastName = ""
    · rw [if_pos h2] at h
      simp at h
    · rw [if_neg h2] at h
      by_cases h3 : normalizeEmail toLowerRune req.Email = ""
      · rw [if_pos h3] at h
        simp at h
      · rw [if_neg h3] at h
        by_cases h4 : normalizeUsername toLowerRune req.Username = ""
        · rw [if_pos h4] at h
          simp at h
        · rw [if_neg h4] at h
          by_cases h5 : len (TrimSpace req.Password) < 8
          · rw [if_pos h5] at h
            simp at h
          · rw [if_neg h5] at h
            dsimp only at h
            rw [if_neg (by simp)] at h
            cases h
            exact ⟨rfl, Nat.le_of_not_lt h5⟩

/-- The round trip for a password that sign-up stores as given: when trimming leaves the
password as it is, the login check with the same password accepts the stored record. -/
theorem login_accepts_untrimmed_password (toLowerRune : Char → Char)
    (sum256hex : String → String) (authSecret : String) (req : CreateUserRequest)
    (user : User)
    (h : processUserCreation toLowerRune sum256hex authSecret req = .ok user)
    (htrim : TrimSpace req.Password = req.Password) :
    loginPasswordAccepted sum256hex authSecret req.Password user = true := by
  obtain ⟨hhash, -⟩ := processUserCreation_ok h
  unfold loginPasswordAccepted
  rw [hhash, htrim]
  exact decide_eq_true rfl

/-- The round trip on the sample payload with the password "hunter22". -/
theorem login_accepts_untrimmed_password_witness :
    loginPasswordAccepted id "k" "hunter22"
      (createUserRecord id "k" "Ann" "Lee" "ann@example.com" "ann" "hunter22") = true :=
  login_accepts_untrimmed_password Char.toLower id "k" (samplePayload "hunter22") _
    (by rfl) (by decide)

/-- C28, evaluated where it fails. Sign-up with the password "  hunter22  " (two spaces
before and after) is accepted and stores the digest of the secret, a colon and the
trimmed password "hunter22"; `Login` with the same password string digests the secret,
a colon and "  hunter22  " as given. The two texts differ, so the credential check
passes only if the digest function gives both the same value, and fails for every
digest function that is injective. This for every case table that leaves the characters
of the email as they are, every digest function and every secret. -/
theorem login_rejects_password_with_spaces (toLowerRune : Char → Char)
    (sum256hex : String → String) (authSecret : String)
    (h : ∀ c ∈ ("ann@example.com" : String).data, toLowerRune c = c) :
    processUserCreation toLowerRune sum256hex authSecret (samplePayload "  hunter22  ") =
      .ok (createUserRecord sum256hex authSecret "Ann" "Lee" "ann@example.com" "ann"
        "hunter22") ∧
    (createUserRecord sum256hex authSecret "Ann" "Lee" "ann@example.com" "ann"
        "hunter22").HashedPassword = sum256hex (authSecret ++ ":" ++ "hunter22") ∧
    (loginPasswordAccepted sum256hex authSecret "  hunter22  "
        (createUserRecord sum256hex authSecret "Ann" "Lee" "ann@example.com" "ann"
          "hunter22") = true ↔
      sum256hex (authSecret ++ ":" ++ "  hunter22  ") =
        sum256hex (authSecret ++ ":" ++ "hunter22")) ∧
    authSecret ++ ":" ++ "  hunter22  " ≠ authSecret ++ ":" ++ "hunter22" ∧
    (Function.Injective sum256hex →
      loginPasswordAccepted sum256hex authSecret "  hunter22  "
        (createUserRecord sum256hex authSecret "Ann" "Lee" "ann@example.com" "ann"
          "hunter22") = false) := by
  have h1 : ToLower toLowerRune "ann@example.com" = "ann@example.com" := toLower_of_fixed h
  have h2 : ToLower toLowerRune "ann" = "ann" :=
    toLower_of_fixed fun c hc => h c (by
      revert c
      decide)
  have hne : authSecret ++ ":" ++ "  hunter22  " ≠ authSecret ++ ":" ++ "hunter22" := by
    intro heq
    have hd := congrArg String.data heq
    simp only [String.data_append, List.append_assoc] at hd
    have := List.append_cancel_left hd
    revert this
    decide
  refine ⟨?_, rfl, ?_, hne, ?_⟩
  · have hn : normalizeCreateUserPayload toLowerRune (samplePayload "  hunter22  ") =
        ("Ann", "Lee", "ann@example.com", "ann", "hunter22", "") := by
      simp only [normalizeCreateUserPayload, normalizeEmail, normalizeUsername,
        samplePayload, h1, h2]
      decide
    unfold processUserCreation
    rw [hn]
    rfl
  · unfold loginPasswordAccepted createUserRecord hashPassword
    simp only [decide_eq_true_eq]
  · intro hinj
    unfold loginPasswordAccepted createUserRecord hashPassword
    simp only [decide_eq_false_iff_not]
    exact fun heq => hne (hinj heq)

/-- Witness of C28 as evaluated, with the ASCII case table and the identity in the place
of the digest function: the login check rejects the password sign-up accepted. -/
theorem login_rejects_password_with_spaces_witness :
    processUserCreation Char.toLower id "k" (samplePayload "  hunter22  ") =
      .ok (createUserRecord id "k" "Ann" "Lee" "ann@example.com" "ann" "hunter22") ∧
    loginPasswordAccepted id "k" "  hunter22  "
      (createUserRecord id "k" "Ann" "Lee" "ann@example.com" "ann" "hunter22") = false :=
  ⟨(login_rejects_password_with_spaces Char.toLower id "k" (by decide)).1,
   (login_rejects_password_with_spaces Char.toLower id "k" (by decide)).2.2.2.2
     (fun _ _ h => h)⟩
/-! ## Grouping result rows by a key -/

theorem firstOccurrences_append_singleton {κ : Type} [DecidableEq κ] (l : List κ) (x : κ) :
    firstOccurrences (l ++ [x]) =
      if x ∈ firstOccurrences l then firstOccurrences l else firstOccurrences l ++ [x] := by
  unfold firstOccurrences
  rw [List.foldl_append]
  rfl

theorem mem_firstOccurrences {κ : Type} [DecidableEq κ] (l : List κ) :
    ∀ y : κ, y ∈ firstOccurrences l ↔ y ∈ l := by
  induction l using List.reverseRecOn with
  | nil => intro y; rfl
  | append_singleton l x ih =>
    intro y
    rw [firstOccurrences_append_singleton]
    by_cases hx : x ∈ firstOccurrences l
    · rw [if_pos hx, List.mem_append, List.mem_singleton, ih]
      constructor
      · exact Or.inl
      · rintro (h | h)
        · exact h
        · rw [h]; exact (ih x).mp hx
    · rw [if_neg hx, List.mem_append, List.mem_append, ih]

theorem nodup_firstOccurrences {κ : Type} [DecidableEq κ] (l : List κ) :
    (firstOccurrences l).Nodup := by
  induction l using List.reverseRecOn with
  | nil => exact List.nodup_nil
  | append_singleton l x ih =>
    rw [firstOccurrences_append_singleton]
    by_cases hx : x ∈ firstOccurrences l
    · rw [if_pos hx]; exact ih
    · rw [if_neg hx]
      apply List.Nodup.append ih (List.nodup_singleton x)
      intro a ha hax
      rw [List.mem_singleton] at hax
      exact hx (hax ▸ ha)

/-- The keys after `upsert`: as before when the key is there, with the key appended
when it is not. -/
theorem upsert_keys {α κ : Type} [DecidableEq κ] (keyOf : α → κ) (key : κ)
    (update : α → α) (empty : α) (hupd : ∀ a, keyOf a = key → keyOf (update a) = key)
    (hnew : keyOf (update empty) = key) (m : List α) :
    (upsert (fun a => decide (keyOf a = key)) update empty m).map keyOf =
      if key ∈ m.map keyOf then m.map keyOf else m.map keyOf ++ [key] := by
  induction m with
  | nil => simp [upsert, hnew]
  | cons a rest ih =>
    unfold upsert
    by_cases ha : keyOf a = key
    · simp [ha, hupd a ha]
    · have hne : ¬ key = keyOf a := fun h => ha h.symm
      simp only [ha, decide_False, Bool.false_eq_true, if_false, List.map_cons, ih,
        List.mem_cons, hne, false_or]
      split <;> rfl

/-- The entries after `upsert` on a list without repeated keys: the entries of another
key, untouched, and the update of the entry of the key, or of the empty entry when the
key was not there. -/
theorem mem_upsert {α κ : Type} [DecidableEq κ] (keyOf : α → κ) (key : κ)
    (update : α → α) (empty : α) (m : List α) (hm : (m.map keyOf).Nodup) (b : α)
    (hb : b ∈ upsert (fun a => decide (keyOf a = key)) update empty m) :
    (b ∈ m ∧ keyOf b ≠ key) ∨ (∃ a ∈ m, keyOf a = key ∧ b = update a) ∨
      (key ∉ m.map keyOf ∧ b = update empty) := by
  induction m with
  | nil =>
    simp only [upsert, List.mem_singleton] at hb
    exact Or.inr (Or.inr ⟨by simp, hb⟩)
  | cons a rest ih =>
    rw [List.map_cons, List.nodup_cons] at hm
    unfold upsert at hb
    by_cases ha : keyOf a = key
    · simp only [ha, decide_True, if_true, List.mem_cons] at hb
      rcases hb with hb | hb
      · exact Or.inr (Or.inl ⟨a, List.mem_cons_self _ _, ha, hb⟩)
      · left
        refine ⟨List.mem_cons_of_mem _ hb, fun hk => hm.1 ?_⟩
        rw [ha, ← hk]
        exact List.mem_map_of_mem _ hb
    · simp only [ha, decide_False, Bool.false_eq_true, if_false, List.mem_cons] at hb
      rcases hb with hb | hb
      · exact Or.inl ⟨hb ▸ List.mem_cons_self _ _, hb ▸ ha⟩
      · rcases ih hm.2 hb with ⟨h1, h2⟩ | ⟨a0, h1, h2, h3⟩ | ⟨h1, h2⟩
        · exact Or.inl ⟨List.mem_cons_of_mem _ h1, h2⟩
        · exact Or.inr (Or.inl ⟨a0, List.mem_cons_of_mem _ h1, h2, h3⟩)
        · refine Or.inr (Or.inr ⟨?_, h2⟩)
          rw [List.map_cons, List.mem_cons, not_or]
          exact ⟨fun h => ha h.symm, h1⟩

/-- The sizes after `upsert` add up to one more than before, when an update makes an
entry one larger and the empty entry has size 0. -/
theorem upsert_size {α : Type} (size : α → Nat) (hit : α → Bool) (update : α → α)
    (empty : α) (hupd : ∀ a, size (update a) = size a + 1) (hempty : size empty = 0)
    (m : List α) :
    ((upsert hit update empty m).map size).sum = (m.map size).sum + 1 := by
  induction m with
  | nil => simp [upsert, hupd, hempty]
  | cons a rest ih =>
    unfold upsert
    split
    · simp only [List.map_cons, List.sum_cons, hupd]
      omega
    · simp only [List.map_cons, List.sum_cons, ih]
      omega

theorem foldl_size {α χ : Type} (size : α → Nat) (step : List α → χ → List α)
    (hstep : ∀ m x, ((step m x).map size).sum = (m.map size).sum + 1) (xs : List χ) :
    ∀ m, ((xs.foldl step m).map size).sum = (m.map size).sum + xs.length := by
  induction xs with
  | nil => intro m; rfl
  | cons x rest ih =>
    intro m
    rw [List.foldl_cons, ih, hstep, List.length_cons]
    omega
/-- A loop that files each result row under its key with `upsert`: the entries come out
one per key, in the order in which the keys first occur, and the entry of a key is the
new entry of the first row of that key with that row and the later rows of the key added,
in row order. -/
theorem upsert_fold {χ α κ : Type} [DecidableEq κ] (k : χ → κ) (keyOf : α → κ)
    (add : α → χ → α) (empty : χ → α) (step : List α → χ → List α)
    (hstep : ∀ m x, step m x =
      upsert (fun a => decide (keyOf a = k x)) (fun a => add a x) (empty x) m)
    (hadd : ∀ a x, keyOf (add a x) = keyOf a) (hempty : ∀ x, keyOf (empty x) = k x)
    (xs : List χ) :
    (xs.foldl step []).map keyOf = firstOccurrences (xs.map k) ∧
    ∀ a ∈ xs.foldl step [], ∃ x rest,
      xs.filter (fun y => decide (k y = keyOf a)) = x :: rest ∧
      a = rest.foldl add (add (empty x) x) := by
  induction xs using List.reverseRecOn with
  | nil => exact ⟨rfl, fun a ha => (by cases ha)⟩
  | append_singleton xs x ih =>
    obtain ⟨hkeys, hent⟩ := ih
    have hnd : ((xs.foldl step []).map keyOf).Nodup := by
      rw [hkeys]; exact nodup_firstOccurrences _
    rw [List.foldl_append, List.foldl_cons, List.foldl_nil, hstep]
    constructor
    · rw [upsert_keys keyOf (k x) (fun a => add a x) (empty x)
          (fun a ha => (hadd a x).trans ha) ((hadd _ x).trans (hempty x)),
        hkeys, List.map_append, List.map_singleton, firstOccurrences_append_singleton]
    · intro b hb
      rcases mem_upsert keyOf (k x) (fun a => add a x) (empty x) _ hnd b hb with
        ⟨h1, h2⟩ | ⟨a, h1, h2, h3⟩ | ⟨h1, h2⟩
      · obtain ⟨x0, rest, hf, hb0⟩ := hent b h1
        refine ⟨x0, rest, ?_, hb0⟩
        rw [List.filter_append, hf]
        have hne : ¬ k x = keyOf b := fun h => h2 h.symm
        have : [x].filter (fun y => decide (k y = keyOf b)) = [] := by
          simp [List.filter_cons, hne]
        rw [this, List.append_nil]
      · obtain ⟨x0, rest, hf, ha0⟩ := hent a h1
        have hkb : keyOf b = keyOf a := by rw [h3]; exact hadd a x
        refine ⟨x0, rest ++ [x], ?_, ?_⟩
        · rw [List.filter_append, hkb, hf]
          have : [x].filter (fun y => decide (k y = keyOf a)) = [x] := by
            simp [List.filter_cons, h2]
          rw [this]
          rfl
        · rw [h3, List.foldl_append, ← ha0]
          rfl
      · have hkb : keyOf b = k x := by rw [h2]; exact (hadd _ x).trans (hempty x)
        refine ⟨x, [], ?_, h2⟩
        rw [List.filter_append, hkb]
        have h0 : xs.filter (fun y => decide (k y = k x)) = [] := by
          rw [List.filter_eq_nil_iff]
          intro y hy hk
          apply h1
          rw [hkeys, mem_firstOccurrences]
          rw [decide_eq_true_eq] at hk
          rw [← hk]
          exact List.mem_map_of_mem _ hy
        rw [h0]
        simp [List.filter_cons]
/-! ## C29: the seats of a seated occurrence, grouped -/

theorem foldl_addSeat (l : List SeatedRow) :
    ∀ ra : RowAvailability,
      l.foldl (fun (rowAvail : RowAvailability) r =>
          (⟨rowAvail.Row, rowAvail.Seats ++ [seatAvail r]⟩ : RowAvailability)) ra =
        ⟨ra.Row, ra.Seats ++ l.map seatAvail⟩ := by
  induction l with
  | nil => intro ra; simp
  | cons r rest ih =>
    intro ra
    rw [List.foldl_cons, ih]
    simp

theorem foldl_addSection (l : List SeatedRow) :
    ∀ sec : SectionAvailability,
      l.foldl (fun (sec : SectionAvailability) r =>
          (⟨sec.Section, addSeatToRows sec.Rows r⟩ : SectionAvailability)) sec =
        ⟨sec.Section, l.foldl addSeatToRows sec.Rows⟩ := by
  induction l with
  | nil => intro sec; rfl
  | cons r rest ih =>
    intro sec
    rw [List.foldl_cons, ih]
    rfl

/-- The row groups the loop builds for the result rows of one section: one per row
name, in the order of first occurrence, each with the seats of its rows in row order. -/
theorem rowGroups (xs : List SeatedRow) :
    (xs.foldl addSeatToRows []).map (fun rg => rg.Row) =
      firstOccurrences (xs.map fun r => r.Row) ∧
    ∀ rg ∈ xs.foldl addSeatToRows [],
      rg.Seats = (xs.filter fun r => r.Row = rg.Row).map seatAvail := by
  obtain ⟨hkeys, hent⟩ := upsert_fold (fun r : SeatedRow => r.Row)
    (fun rg : RowAvailability => rg.Row)
    (fun (rowAvail : RowAvailability) r =>
      (⟨rowAvail.Row, rowAvail.Seats ++ [seatAvail r]⟩ : RowAvailability))
    (fun r => (⟨r.Row, []⟩ : RowAvailability)) addSeatToRows
    (fun _ _ => rfl) (fun _ _ => rfl) (fun _ => rfl) xs
  refine ⟨hkeys, fun rg hrg => ?_⟩
  obtain ⟨x, rest, hf, h0⟩ := hent rg hrg
  rw [foldl_addSeat] at h0
  rw [hf, h0]
  rfl

/-- The section groups the loop builds: one per section name, in the order of first
occurrence, each grouping the result rows of its section. -/
theorem sectionGroups (rows : List SeatedRow) :
    (rows.foldl addSeatedRow []).map (fun sec => sec.Section) =
      firstOccurrences (rows.map fun r => r.Section) ∧
    ∀ sec ∈ rows.foldl addSeatedRow [],
      sec.Rows = (rows.filter fun r => r.Section = sec.Section).foldl addSeatToRows [] := by
  obtain ⟨hkeys, hent⟩ := upsert_fold (fun r : SeatedRow => r.Section)
    (fun sec : SectionAvailability => sec.Section)
    (fun (sec : SectionAvailability) r =>
      (⟨sec.Section, addSeatToRows sec.Rows r⟩ : SectionAvailability))
    (fun r => (⟨r.Section, []⟩ : SectionAvailability)) addSeatedRow
    (fun _ _ => rfl) (fun _ _ => rfl) (fun _ => rfl) rows
  refine ⟨hkeys, fun sec hsec => ?_⟩
  obtain ⟨x, rest, hf, h0⟩ := hent sec hsec
  rw [foldl_addSection] at h0
  rw [hf, h0]
  rfl

theorem seatCount_addSeatedRow (m : List SectionAvailability) (r : SeatedRow) :
    ((addSeatedRow m r).map fun sec =>
        (sec.Rows.map fun rg => rg.Seats.length).sum).sum =
      (m.map fun sec => (sec.Rows.map fun rg => rg.Seats.length).sum).sum + 1 :=
  upsert_size (fun sec : SectionAvailability => (sec.Rows.map fun rg => rg.Seats.length).sum)
    (fun sec => decide (sec.Section = r.Section))
    (fun sec => (⟨sec.Section, addSeatToRows sec.Rows r⟩ : SectionAvailability))
    ⟨r.Section, []⟩
    (fun sec => upsert_size (fun rg : RowAvailability => rg.Seats.length)
      (fun rowAvail => decide (rowAvail.Row = r.Row))
      (fun rowAvail => (⟨rowAvail.Row, rowAvail.Seats ++ [seatAvail r]⟩ : RowAvailability))
      ⟨r.Row, []⟩ (fun a => by simp) rfl sec.Rows)
    rfl m

/-- C29. `GetSeatedAvailability` on any list of result rows, whatever the order in which
the map of sections is ranged over. No section name appears twice, and the sections are
those of the rows. Within a section no row name appears twice, and the row groups stand
in the order in which their names first occur among the rows of the section. The seats of
a row group are the seat entries of the result rows with that section and row, in input
order; so every input row has its seat entry in the row group of its row inside the
section group of its section, and the seat entries are as many as the input rows. The
entry of a row has the label section, row and number concatenated, and is available
exactly when the flag is 1. -/
theorem seated_availability_grouping
    (mapOrder : List SectionAvailability → List SectionAvailability)
    (rows : List SeatedRow) (hperm : ∀ l, List.Perm (mapOrder l) l) :
    ((GetSeatedAvailability mapOrder rows).map fun sec => sec.Section).Nodup ∧
    (∀ name, name ∈ (GetSeatedAvailability mapOrder rows).map (fun sec => sec.Section) ↔
      name ∈ rows.map fun r => r.Section) ∧
    (∀ sec ∈ GetSeatedAvailability mapOrder rows,
      (sec.Rows.map fun rg => rg.Row).Nodup ∧
      sec.Rows.map (fun rg => rg.Row) =
        firstOccurrences ((rows.filter fun r => r.Section = sec.Section).map fun r => r.Row)) ∧
    (∀ sec ∈ GetSeatedAvailability mapOrder rows, ∀ rg ∈ sec.Rows,
      rg.Seats =
        (rows.filter fun r => r.Section = sec.Section && r.Row = rg.Row).map seatAvail) ∧
    (∀ r ∈ rows, ∃ sec ∈ GetSeatedAvailability mapOrder rows, sec.Section = r.Section ∧
      ∃ rg ∈ sec.Rows, rg.Row = r.Row ∧ seatAvail r ∈ rg.Seats) ∧
    ((GetSeatedAvailability mapOrder rows).map fun sec =>
        (sec.Rows.map fun rg => rg.Seats.length).sum).sum = rows.length ∧
    (∀ r : SeatedRow,
      (seatAvail r).Label = r.Section ++ r.Row ++ r.Number ∧
      ((seatAvail r).Available = true ↔ r.Available = 1) ∧
      (seatAvail r).SeatID = r.SeatID ∧ (seatAvail r).TicketType = r.TicketTypeName ∧
      (seatAvail r).Price = r.Price) := by
  have hp : List.Perm (GetSeatedAvailability mapOrder rows) (rows.foldl addSeatedRow []) :=
    hperm _
  obtain ⟨hkeys, hsec⟩ := sectionGroups rows
  have hrows : ∀ sec ∈ GetSeatedAvailability mapOrder rows,
      sec.Rows = (rows.filter fun r => r.Section = sec.Section).foldl addSeatToRows [] :=
    fun sec h => hsec sec (hp.mem_iff.mp h)
  have hseats : ∀ sec ∈ GetSeatedAvailability mapOrder rows, ∀ rg ∈ sec.Rows,
      rg.Seats =
        (rows.filter fun r => r.Section = sec.Section && r.Row = rg.Row).map seatAvail := by
    intro sec h rg hrg
    rw [hrows sec h] at hrg
    rw [(rowGroups _).2 rg hrg, List.filter_filter]
    congr 1
    apply List.filter_congr
    intro r _
    exact Bool.and_comm _ _
  have hnames : ∀ name,
      name ∈ (GetSeatedAvailability mapOrder rows).map (fun sec => sec.Section) ↔
        name ∈ rows.map fun r => r.Section := by
    intro name
    rw [(hp.map _).mem_iff, hkeys, mem_firstOccurrences]
  refine ⟨?_, hnames, ?_, hseats, ?_, ?_, ?_⟩
  · rw [(hp.map _).nodup_iff, hkeys]
    exact nodup_firstOccurrences _
  · intro sec h
    rw [hrows sec h, (rowGroups _).1]
    exact ⟨nodup_firstOccurrences _, rfl⟩
  · intro r hr
    obtain ⟨sec, hsecmem, hname⟩ :=
      List.mem_map.mp ((hnames r.Section).mpr (List.mem_map_of_mem _ hr))
    refine ⟨sec, hsecmem, hname, ?_⟩
    have hrf : r ∈ rows.filter fun x => x.Section = sec.Section := by
      rw [List.mem_filter]
      exact ⟨hr, by simp [hname]⟩
    have hrow : r.Row ∈ sec.Rows.map fun rg => rg.Row := by
      rw [hrows sec hsecmem, (rowGroups _).1, mem_firstOccurrences]
      exact List.mem_map_of_mem _ hrf
    obtain ⟨rg, hrg, hrgname⟩ := List.mem_map.mp hrow
    refine ⟨rg, hrg, hrgname, ?_⟩
    rw [hseats sec hsecmem rg hrg]
    apply List.mem_map_of_mem
    rw [List.mem_filter]
    exact ⟨hr, by simp [hname, hrgname]⟩
  · rw [(hp.map _).sum_eq]
    have h := foldl_size
      (fun sec : SectionAvailability => (sec.Rows.map fun rg => rg.Seats.length).sum)
      addSeatedRow seatCount_addSeatedRow rows []
    simpa using h
  · intro r
    refine ⟨rfl, ?_, rfl, rfl, rfl⟩
    simp [seatAvail]

/-- Witness of C29: four result rows of sections B, A, B, A, ranged over in reverse
order of insertion: section A with its rows 1 and 2, section B with the two seats of its
row 1 in input order. -/
theorem seated_availability_grouping_witness :
    ((GetSeatedAvailability List.reverse
        [⟨"B", "1", "2", 4, 4000, 2, "Premium", 1⟩, ⟨"A", "1", "1", 1, 5500, 2, "Premium", 0⟩,
         ⟨"B", "1", "1", 3, 4000, 2, "Premium", 1⟩,
         ⟨"A", "2", "1", 2, 5500, 2, "Premium", 1⟩]).map fun sec => sec.Section).Nodup ∧
    ((GetSeatedAvailability List.reverse
        [⟨"B", "1", "2", 4, 4000, 2, "Premium", 1⟩, ⟨"A", "1", "1", 1, 5500, 2, "Premium", 0⟩,
         ⟨"B", "1", "1", 3, 4000, 2, "Premium", 1⟩,
         ⟨"A", "2", "1", 2, 5500, 2, "Premium", 1⟩]).map fun sec =>
      (sec.Section, sec.Rows.map fun rg =>
        (rg.Row, rg.Seats.map fun x => (x.Label, x.Available)))) =
      [("A", [("1", [("A11", false)]), ("2", [("A21", true)])]),
       ("B", [("1", [("B12", true), ("B11", true)])])] :=
  ⟨(seated_availability_grouping List.reverse
      [⟨"B", "1", "2", 4, 4000, 2, "Premium", 1⟩, ⟨"A", "1", "1", 1, 5500, 2, "Premium", 0⟩,
       ⟨"B", "1", "1", 3, 4000, 2, "Premium", 1⟩, ⟨"A", "2", "1", 2, 5500, 2, "Premium", 1⟩]
      (fun l => List.reverse_perm l)).1,
   by decide⟩
/-! ## C30: the orders of a user -/

theorem foldl_addTicket (l : List OrderTicketRow) :
    ∀ o : models.Order,
      l.foldl (fun (order : models.Order) r =>
          (⟨order.ID, order.UserID, order.TotalTickets, order.Amount, order.PaymentSource,
            order.CreatedAt, order.Tickets ++ [ticketOfRow r]⟩ : models.Order)) o =
        ⟨o.ID, o.UserID, o.TotalTickets, o.Amount, o.PaymentSource, o.CreatedAt,
          o.Tickets ++ l.map ticketOfRow⟩ := by
  induction l with
  | nil => intro o; simp
  | cons r rest ih =>
    intro o
    rw [List.foldl_cons, ih]
    simp

/-- C30. `GetAllOrdersByUserID` on any list of result rows: the returned orders carry the
order ids of the rows, each once, in the order of their first occurrence; each returned
order has the header columns of the first row carrying its id, and its tickets are the
tickets of the rows carrying its id, in row order; so the tickets of all returned orders
together are as many as the rows. The seat id of a ticket is the row's seat id, with 0
for NULL: it is 0 exactly when the row's seat id is NULL, a row with the seat id 0 itself
apart (`CreateTicket` never stores it: it stores NULL for 0). -/
theorem orders_grouping (rows : List OrderTicketRow) :
    (GetAllOrdersByUserID rows).map (fun o => o.ID) =
      firstOccurrences (rows.map fun r => r.OrderID) ∧
    ((GetAllOrdersByUserID rows).map fun o => o.ID).Nodup ∧
    (∀ id, id ∈ (GetAllOrdersByUserID rows).map (fun o => o.ID) ↔
      id ∈ rows.map fun r => r.OrderID) ∧
    (∀ o ∈ GetAllOrdersByUserID rows,
      o.Tickets = (rows.filter fun r => r.OrderID = o.ID).map ticketOfRow ∧
      ∃ first rest, (rows.filter fun r => r.OrderID = o.ID) = first :: rest ∧
        o.UserID = first.OrderUserID ∧ o.TotalTickets = first.OrderTotal.getD 0 ∧
        o.Amount = first.OrderAmount.getD "" ∧
        o.PaymentSource = first.OrderPaymentSrc.getD "" ∧
        o.CreatedAt = first.OrderCreatedAt) ∧
    ((GetAllOrdersByUserID rows).map fun o => o.Tickets.length).sum = rows.length ∧
    (∀ r : OrderTicketRow,
      (ticketOfRow r).SeatID = r.SeatID.getD 0 ∧
      (r.SeatID = none → (ticketOfRow r).SeatID = 0) ∧
      (r.SeatID ≠ some 0 → ((ticketOfRow r).SeatID = 0 ↔ r.SeatID = none))) := by
  obtain ⟨hkeys, hent⟩ := upsert_fold (fun r : OrderTicketRow => r.OrderID)
    (fun o : models.Order => o.ID)
    (fun (order : models.Order) r =>
      (⟨order.ID, order.UserID, order.TotalTickets, order.Amount, order.PaymentSource,
        order.CreatedAt, order.Tickets ++ [ticketOfRow r]⟩ : models.Order))
    orderOfRow addOrderRow (fun _ _ => rfl) (fun _ _ => rfl) (fun _ => rfl) rows
  refine ⟨hkeys, ?_, ?_, ?_, ?_, ?_⟩
  · unfold GetAllOrdersByUserID
    rw [hkeys]
    exact nodup_firstOccurrences _
  · intro id
    unfold GetAllOrdersByUserID
    rw [hkeys, mem_firstOccurrences]
  · intro o ho
    obtain ⟨x, rest, hf, ho0⟩ := hent o ho
    rw [foldl_addTicket] at ho0
    rw [hf]
    refine ⟨?_, x, rest, rfl, ?_⟩
    · rw [ho0]
      rfl
    · rw [ho0]
      refine ⟨rfl, ?_, ?_, ?_, rfl⟩
      · show (orderOfRow x).TotalTickets = _
        unfold orderOfRow
        cases x.OrderTotal <;> rfl
      · show (orderOfRow x).Amount = _
        unfold orderOfRow
        cases x.OrderAmount <;> rfl
      · show (orderOfRow x).PaymentSource = _
        unfold orderOfRow
        cases x.OrderPaymentSrc <;> rfl
  · have h := foldl_size (fun o : models.Order => o.Tickets.length) addOrderRow
      (fun m x => upsert_size (fun o : models.Order => o.Tickets.length)
        (fun order => decide (order.ID = x.OrderID))
        (fun order => (⟨order.ID, order.UserID, order.TotalTickets, order.Amount,
          order.PaymentSource, order.CreatedAt, order.Tickets ++ [ticketOfRow x]⟩ :
            models.Order))
        (orderOfRow x) (fun a => by simp) rfl m) rows []
    simpa using h
  · intro r
    have h1 : (ticketOfRow r).SeatID = r.SeatID.getD 0 := by
      unfold ticketOfRow
      cases r.SeatID <;> rfl
    refine ⟨h1, fun h => by rw [h1, h]; rfl, fun hne => ?_⟩
    rw [h1]
    cases hs : r.SeatID with
    | none => simp
    | some id =>
      rw [hs] at hne
      simp only [Option.getD_some, reduceCtorEq, iff_false]
      exact fun h => hne (by rw [h])

/-- Witness of C30: four result rows of the orders 2, 1, 2, 1: the orders come out as 2
and 1, with the tickets 10, 12 and 11, 13; the ticket of a row whose seat id is NULL has
seat id 0. -/
theorem orders_grouping_witness :
    ((GetAllOrdersByUserID
        [⟨2, 7, some 2, some "80.00", some "tok_1", none, 10, "1", "7", 2, "Ann", 1, none,
          2, "Premium", none, none, none, 1, "Gala", none⟩,
         ⟨1, 7, some 2, some "95.00", some "tok_1", none, 11, "1", "7", 2, "Ann", 2, some 1,
          2, "Premium", some "A", some "1", some "1", 1, "Gala", none⟩,
         ⟨2, 7, some 2, some "80.00", some "tok_1", none, 12, "1", "7", 2, "Ann", 1, none,
          2, "Premium", none, none, none, 1, "Gala", none⟩,
         ⟨1, 7, some 2, some "95.00", some "tok_1", none, 13, "1", "7", 2, "Ann", 2, some 2,
          2, "Premium", some "A", some "1", some "2", 1, "Gala", none⟩]).map
      fun o => (o.ID, o.Amount, o.Tickets.map fun t => (t.ID, t.SeatID))) =
      [(2, "80.00", [(10, 0), (12, 0)]), (1, "95.00", [(11, 1), (13, 2)])] ∧
    (ticketOfRow
        ⟨2, 7, some 2, some "80.00", some "tok_1", none, 10, "1", "7", 2, "Ann", 1, none,
          2, "Premium", none, none, none, 1, "Gala", none⟩).SeatID = 0 :=
  ⟨by rfl,
   ((orders_grouping []).2.2.2.2.2
      ⟨2, 7, some 2, some "80.00", some "tok_1", none, 10, "1", "7", 2, "Ann", 1, none,
        2, "Premium", none, none, none, 1, "Gala", none⟩).2.1 rfl⟩

end TicketBooth
